import Mathlib

/-!
# Geo3DConsole: minimal distance between two 3D segments

A shallow embedding of `include/Geometry.h` and `src/Geometry.cpp`.

Conventions of the embedding.

* The C++ `double` is replaced by an arbitrary linearly ordered field `R`
  ("exact arithmetic"); the theorems are stated for `R = ℝ`.
* `sqrt` of `<cmath>` is a parameter `sqrt : R → R` of every function that
  (transitively) calls it; the theorems instantiate it with `Real.sqrt`.
  This keeps every definition computable.
* `pow(x, 2)` is `x ^ 2`, `abs` is the absolute value of the field (the
  floating-point overload of `abs`), `std::min` is `min`.
* Division is the division of the field, for which `a / 0 = 0`; in C++ the
  same division yields an infinity or a NaN.  In `calculate()` every quotient
  is reached behind an `isNull` guard that makes its denominator positive;
  the lemmas about `distanceToLineSegment` and `normal` assume a segment or
  vector of positive length.
* A `bool` is a `Bool`; comparisons of numbers are decided in the order.
* Overflow is outside exact arithmetic.  Where it matters (C17) the code is
  embedded a second time on `Double R`: a finite number, an infinity or a NaN,
  with the overflow threshold of the IEEE 754 binary64 format.
-/

namespace Geo3D

/-! ## Data model (Geometry.h) -/

/-- The constant `Tolerance_small = 0.0001` of Geometry.h. -/
def Tolerance_small {R : Type} [LinearOrderedField R] : R := 1 / 10000

/-- The class `P3D`: a 3D point. -/
structure P3D (R : Type) where
  x : R
  y : R
  z : R

/-- The class `V3D`: a 3D vector. -/
structure V3D (R : Type) where
  x : R
  y : R
  z : R

/-- The class `Plane3D`: the plane `A x + B y + C z + D = 0`. -/
structure Plane3D (R : Type) where
  A : R
  B : R
  C : R
  D : R

/-- The class `DistanceCalculator`: the four stored end points. -/
structure DistanceCalculator (R : Type) where
  p1 : P3D R
  p2 : P3D R
  p3 : P3D R
  p4 : P3D R

section Code

variable {R : Type} [LinearOrderedField R]

/-! ## class V3D (Geometry.cpp 56-102) -/

/-- The constructor `V3D::V3D(start, end)`. -/
def V3D.fromPoints (start stop : P3D R) : V3D R :=
  ⟨stop.x - start.x, stop.y - start.y, stop.z - start.z⟩

/-- The method `V3D::length`. -/
def V3D.length (sqrt : R → R) (v : V3D R) : R :=
  sqrt (v.x ^ 2 + v.y ^ 2 + v.z ^ 2)

/-- The method `V3D::normal`. -/
def V3D.normal (sqrt : R → R) (v : V3D R) : V3D R :=
  let len := v.length sqrt
  ⟨v.x / len, v.y / len, v.z / len⟩

/-- The method `V3D::isNull`. -/
def V3D.isNull (v : V3D R) : Bool :=
  decide (|v.x| < Tolerance_small) &&
    decide (|v.y| < Tolerance_small) &&
    decide (|v.z| < Tolerance_small)

/-- The operator `V3D::operator*=`, as a function of the scaled vector. -/
def V3D.operatorMulAssign (v : V3D R) (k : R) : V3D R :=
  ⟨v.x * k, v.y * k, v.z * k⟩

/-- The method `V3D::crossProduct`. -/
def V3D.crossProduct (v vA : V3D R) : V3D R :=
  ⟨v.y * vA.z - v.z * vA.y, v.z * vA.x - v.x * vA.z, v.x * vA.y - v.y * vA.x⟩

/-- The method `V3D::dotProduct`. -/
def V3D.dotProduct (v vA : V3D R) : R :=
  v.x * vA.x + v.y * vA.y + v.z * vA.z

/-! ## class P3D (Geometry.cpp 3-53) -/

/-- The operator `P3D::operator+`. -/
def P3D.operatorPlus (p : P3D R) (vec : V3D R) : P3D R :=
  ⟨p.x + vec.x, p.y + vec.y, p.z + vec.z⟩

/-- The operator `P3D::operator-`. -/
def P3D.operatorMinus (p : P3D R) (vec : V3D R) : P3D R :=
  ⟨p.x - vec.x, p.y - vec.y, p.z - vec.z⟩

/-- The operator `P3D::operator==`: the tolerance equality. -/
def P3D.operatorEq (p rhs : P3D R) : Bool :=
  decide (|p.x - rhs.x| < Tolerance_small) &&
    decide (|p.y - rhs.y| < Tolerance_small) &&
    decide (|p.z - rhs.z| < Tolerance_small)

/-- The method `P3D::distanceToLineSegment`. -/
def P3D.distanceToLineSegment (sqrt : R → R) (p pA pB : P3D R) : R :=
  let v1 := V3D.fromPoints pA p
  let v2 := V3D.fromPoints pB p
  let v_p1_p2 := V3D.fromPoints pA pB
  let v_p2_p1 := V3D.fromPoints pB pA
  if v_p1_p2.dotProduct v1 < 0 ∨ v_p2_p1.dotProduct v2 < 0 then
    min (v1.length sqrt) (v2.length sqrt)
  else
    let square2x := (v_p1_p2.crossProduct v1).length sqrt
    square2x / v_p1_p2.length sqrt

/-! ## class Plane3D (Geometry.cpp 105-128, Geometry.h 85) -/

/-- The constructor `Plane3D::Plane3D(point, norm)`. -/
def Plane3D.fromPointNormal (sqrt : R → R) (point : P3D R) (norm : V3D R) : Plane3D R :=
  let normVector := norm.normal sqrt
  let A := normVector.x
  let B := normVector.y
  let C := normVector.z
  ⟨A, B, C, -A * point.x - B * point.y - C * point.z⟩

/-- The method `Plane3D::distanceToPoint`. -/
def Plane3D.distanceToPoint (sqrt : R → R) (pl : Plane3D R) (point : P3D R) : R :=
  let normFactor := sqrt (pl.A ^ 2 + pl.B ^ 2 + pl.C ^ 2)
  |pl.A * point.x + pl.B * point.y + pl.C * point.z + pl.D| / normFactor

/-- The method `Plane3D::isOn`. -/
def Plane3D.isOn (pl : Plane3D R) (point : P3D R) : Bool :=
  decide (|pl.A * point.x + pl.B * point.y + pl.C * point.z + pl.D| < Tolerance_small)

/-- The method `Plane3D::normal` (inline in Geometry.h). -/
def Plane3D.normal (sqrt : R → R) (pl : Plane3D R) : V3D R :=
  (V3D.mk pl.A pl.B pl.C).normal sqrt

/-! ## class DistanceCalculator (Geometry.cpp 131-272) -/

/-- The static method `DistanceCalculator::haveCommonEndpoint`. -/
def DistanceCalculator.haveCommonEndpoint (p1 p2 p3 p4 : P3D R) : Bool :=
  p1.operatorEq p3 || p1.operatorEq p4 || p2.operatorEq p3 || p2.operatorEq p4

/-- The static method `DistanceCalculator::doLineSegmentsIntersect`. -/
def DistanceCalculator.doLineSegmentsIntersect (sqrt : R → R)
    (p1 p2 p3 p4 : P3D R) (dir : V3D R) : Bool :=
  let plane := Plane3D.fromPointNormal sqrt p1 dir
  if !plane.isOn p1 || !plane.isOn p2 || !plane.isOn p3 || !plane.isOn p4 then
    false
  else if DistanceCalculator.haveCommonEndpoint p1 p2 p3 p4 then
    true
  else
    let vec1 := (V3D.fromPoints p3 p4).crossProduct (V3D.fromPoints p3 p1)
    let vec2 := (V3D.fromPoints p3 p4).crossProduct (V3D.fromPoints p3 p2)
    let vec3 := (V3D.fromPoints p1 p2).crossProduct (V3D.fromPoints p1 p3)
    let vec4 := (V3D.fromPoints p1 p2).crossProduct (V3D.fromPoints p1 p4)
    let v1 := vec1.dotProduct dir
    let v2 := vec2.dotProduct dir
    let v3 := vec3.dotProduct dir
    let v4 := vec4.dotProduct dir
    decide (v1 * v2 < 0) && decide (v3 * v4 < 0)

/-- The static method `DistanceCalculator::projectPointOnPlane`. -/
def DistanceCalculator.projectPointOnPlane (sqrt : R → R)
    (point : P3D R) (plane : Plane3D R) : P3D R :=
  let dist := plane.distanceToPoint sqrt point
  let vecNorm := (plane.normal sqrt).operatorMulAssign dist
  let pointProjected := point.operatorPlus vecNorm
  if !plane.isOn pointProjected then
    point.operatorMinus vecNorm
  else
    pointProjected

/-- The static method `DistanceCalculator::calculateMinDistanceBetweenEnds`. -/
def DistanceCalculator.calculateMinDistanceBetweenEnds (sqrt : R → R)
    (p1 p2 p3 p4 : P3D R) : R :=
  let dist1 := p1.distanceToLineSegment sqrt p3 p4
  let dist2 := p2.distanceToLineSegment sqrt p3 p4
  let dist3 := p3.distanceToLineSegment sqrt p1 p2
  let dist4 := p4.distanceToLineSegment sqrt p1 p2
  min (min dist1 dist2) (min dist3 dist4)

/-- The method `DistanceCalculator::calculate`. -/
def DistanceCalculator.calculate (sqrt : R → R) (dc : DistanceCalculator R) : R :=
  if DistanceCalculator.haveCommonEndpoint dc.p1 dc.p2 dc.p3 dc.p4 then
    0
  else
    let v12 := V3D.fromPoints dc.p1 dc.p2
    let v34 := V3D.fromPoints dc.p3 dc.p4
    if v12.isNull || v34.isNull then
      -1
    else
      let cross := v12.crossProduct v34
      if cross.isNull then
        DistanceCalculator.calculateMinDistanceBetweenEnds sqrt dc.p1 dc.p2 dc.p3 dc.p4
      else
        let plane := Plane3D.fromPointNormal sqrt dc.p1 cross
        let distanceBetweenPlanes := plane.distanceToPoint sqrt dc.p3
        let p1_proj := dc.p1
        let p2_proj := DistanceCalculator.projectPointOnPlane sqrt dc.p2 plane
        let p3_proj := DistanceCalculator.projectPointOnPlane sqrt dc.p3 plane
        let p4_proj := DistanceCalculator.projectPointOnPlane sqrt dc.p4 plane
        if !DistanceCalculator.doLineSegmentsIntersect sqrt p1_proj p2_proj p3_proj p4_proj cross then
          DistanceCalculator.calculateMinDistanceBetweenEnds sqrt dc.p1 dc.p2 dc.p3 dc.p4
        else
          distanceBetweenPlanes

end Code

/-! ## Reference notions used to state the claims

These definitions follow the wording of the specification, not the code:
the Euclidean distance of two points, the points of a closed segment, and
the sets of distances over which a minimum is taken. -/

section Reference

variable {R : Type} [LinearOrderedField R]

/-- Euclidean distance `|p - q|` between two points. -/
def euclideanDistance (sqrt : R → R) (p q : P3D R) : R :=
  sqrt ((p.x - q.x) ^ 2 + (p.y - q.y) ^ 2 + (p.z - q.z) ^ 2)

/-- The point `a + t (b - a)` of the line through `a` and `b`. -/
def segmentPoint (a b : P3D R) (t : R) : P3D R :=
  ⟨a.x + t * (b.x - a.x), a.y + t * (b.y - a.y), a.z + t * (b.z - a.z)⟩

/-- All distances from `p` to a point of the closed segment `[a,b]`. -/
def pointSegmentDistances (sqrt : R → R) (p a b : P3D R) : Set R :=
  {d | ∃ t : R, 0 ≤ t ∧ t ≤ 1 ∧ d = euclideanDistance sqrt p (segmentPoint a b t)}

/-- All distances between a point of the closed segment `[p1,p2]` and a
point of the closed segment `[p3,p4]`. -/
def segmentSegmentDistances (sqrt : R → R) (p1 p2 p3 p4 : P3D R) : Set R :=
  {d | ∃ s t : R, 0 ≤ s ∧ s ≤ 1 ∧ 0 ≤ t ∧ t ≤ 1 ∧
    d = euclideanDistance sqrt (segmentPoint p1 p2 s) (segmentPoint p3 p4 t)}

end Reference

/-! ## Auxiliary definitions used in the proofs

Named pieces of the code above, so that lemmas can be stated about them. -/

section Auxiliary

variable {R : Type} [LinearOrderedField R]

/-- The expression `A x + B y + C z + D` whose absolute value
`Plane3D::distanceToPoint` and `Plane3D::isOn` take. -/
def Plane3D.value (pl : Plane3D R) (q : P3D R) : R :=
  pl.A * q.x + pl.B * q.y + pl.C * q.z + pl.D

/-- The multiple of the unit normal that `projectPointOnPlane` adds to a point
whose plane value is `e`: `+|e|` when that lands within tolerance of the
plane, `-|e|` otherwise. -/
def projectionShift (e : R) : R :=
  if |e + abs e| < Tolerance_small then |e| else -|e|

/-- The orientation test that ends `doLineSegmentsIntersect`
(Geometry.cpp 223-241). -/
def DistanceCalculator.orientationTest (p1 p2 p3 p4 : P3D R) (dir : V3D R) : Bool :=
  let vec1 := (V3D.fromPoints p3 p4).crossProduct (V3D.fromPoints p3 p1)
  let vec2 := (V3D.fromPoints p3 p4).crossProduct (V3D.fromPoints p3 p2)
  let vec3 := (V3D.fromPoints p1 p2).crossProduct (V3D.fromPoints p1 p3)
  let vec4 := (V3D.fromPoints p1 p2).crossProduct (V3D.fromPoints p1 p4)
  let v1 := vec1.dotProduct dir
  let v2 := vec2.dotProduct dir
  let v3 := vec3.dotProduct dir
  let v4 := vec4.dotProduct dir
  decide (v1 * v2 < 0) && decide (v3 * v4 < 0)

/-- The squared length of `w + s a - t b`: with `a = p2 - p1`, `b = p4 - p3`
and `w = p1 - p3` the squared distance of the points at parameters `s` and
`t` of the two segments. -/
def separationSq (a b w : V3D R) (s t : R) : R :=
  (w.x + s * a.x - t * b.x) ^ 2 + (w.y + s * a.y - t * b.y) ^ 2 +
    (w.z + s * a.z - t * b.z) ^ 2

end Auxiliary

/-! ## The code with every division checked

A second copy of the functions that divide or call a function that divides,
still in exact arithmetic.  A division whose denominator is zero makes the
result `none`; everything else is as above. -/

section Checked

variable {R : Type} [LinearOrderedField R]

/-- The division `a / b`, `none` when the denominator is zero. -/
def checkedDiv (a b : R) : Option R :=
  if b = 0 then none else some (a / b)

/-- The method `V3D::normal`, with its three divisions checked. -/
def V3D.normalChecked (sqrt : R → R) (v : V3D R) : Option (V3D R) := do
  let len := v.length sqrt
  let x ← checkedDiv v.x len
  let y ← checkedDiv v.y len
  let z ← checkedDiv v.z len
  pure ⟨x, y, z⟩

/-- The method `P3D::distanceToLineSegment`, with its division checked. -/
def P3D.distanceToLineSegmentChecked (sqrt : R → R) (p pA pB : P3D R) : Option R :=
  let v1 := V3D.fromPoints pA p
  let v2 := V3D.fromPoints pB p
  let v_p1_p2 := V3D.fromPoints pA pB
  let v_p2_p1 := V3D.fromPoints pB pA
  if v_p1_p2.dotProduct v1 < 0 ∨ v_p2_p1.dotProduct v2 < 0 then
    some (min (v1.length sqrt) (v2.length sqrt))
  else
    let square2x := (v_p1_p2.crossProduct v1).length sqrt
    checkedDiv square2x (v_p1_p2.length sqrt)

/-- The constructor `Plane3D::Plane3D(point, norm)`, with the normalisation
checked. -/
def Plane3D.fromPointNormalChecked (sqrt : R → R) (point : P3D R) (norm : V3D R) :
    Option (Plane3D R) := do
  let normVector ← norm.normalChecked sqrt
  let A := normVector.x
  let B := normVector.y
  let C := normVector.z
  pure ⟨A, B, C, -A * point.x - B * point.y - C * point.z⟩

/-- The method `Plane3D::distanceToPoint`, with its division checked. -/
def Plane3D.distanceToPointChecked (sqrt : R → R) (pl : Plane3D R) (point : P3D R) :
    Option R :=
  let normFactor := sqrt (pl.A ^ 2 + pl.B ^ 2 + pl.C ^ 2)
  checkedDiv |pl.A * point.x + pl.B * point.y + pl.C * point.z + pl.D| normFactor

/-- The method `Plane3D::normal`, with the normalisation checked. -/
def Plane3D.normalChecked (sqrt : R → R) (pl : Plane3D R) : Option (V3D R) :=
  (V3D.mk pl.A pl.B pl.C).normalChecked sqrt

/-- The static method `DistanceCalculator::doLineSegmentsIntersect`, with the
construction of the plane checked. -/
def DistanceCalculator.doLineSegmentsIntersectChecked (sqrt : R → R)
    (p1 p2 p3 p4 : P3D R) (dir : V3D R) : Option Bool := do
  let plane ← Plane3D.fromPointNormalChecked sqrt p1 dir
  if !plane.isOn p1 || !plane.isOn p2 || !plane.isOn p3 || !plane.isOn p4 then
    pure false
  else if DistanceCalculator.haveCommonEndpoint p1 p2 p3 p4 then
    pure true
  else
    let vec1 := (V3D.fromPoints p3 p4).crossProduct (V3D.fromPoints p3 p1)
    let vec2 := (V3D.fromPoints p3 p4).crossProduct (V3D.fromPoints p3 p2)
    let vec3 := (V3D.fromPoints p1 p2).crossProduct (V3D.fromPoints p1 p3)
    let vec4 := (V3D.fromPoints p1 p2).crossProduct (V3D.fromPoints p1 p4)
    let v1 := vec1.dotProduct dir
    let v2 := vec2.dotProduct dir
    let v3 := vec3.dotProduct dir
    let v4 := vec4.dotProduct dir
    pure (decide (v1 * v2 < 0) && decide (v3 * v4 < 0))

/-- The static method `DistanceCalculator::projectPointOnPlane`, with the
divisions of `distanceToPoint` and `normal` checked. -/
def DistanceCalculator.projectPointOnPlaneChecked (sqrt : R → R)
    (point : P3D R) (plane : Plane3D R) : Option (P3D R) := do
  let dist ← plane.distanceToPointChecked sqrt point
  let unitNorm ← plane.normalChecked sqrt
  let vecNorm := unitNorm.operatorMulAssign dist
  let pointProjected := point.operatorPlus vecNorm
  if !plane.isOn pointProjected then
    pure (point.operatorMinus vecNorm)
  else
    pure pointProjected

/-- The static method `DistanceCalculator::calculateMinDistanceBetweenEnds`,
on the checked point-to-segment distance. -/
def DistanceCalculator.calculateMinDistanceBetweenEndsChecked (sqrt : R → R)
    (p1 p2 p3 p4 : P3D R) : Option R := do
  let dist1 ← p1.distanceToLineSegmentChecked sqrt p3 p4
  let dist2 ← p2.distanceToLineSegmentChecked sqrt p3 p4
  let dist3 ← p3.distanceToLineSegmentChecked sqrt p1 p2
  let dist4 ← p4.distanceToLineSegmentChecked sqrt p1 p2
  pure (min (min dist1 dist2) (min dist3 dist4))

/-- The method `DistanceCalculator::calculate`, on the checked functions:
`none` when a division by zero is met on the way. -/
def DistanceCalculator.calculateChecked (sqrt : R → R) (dc : DistanceCalculator R) :
    Option R :=
  if DistanceCalculator.haveCommonEndpoint dc.p1 dc.p2 dc.p3 dc.p4 then
    some 0
  else
    let v12 := V3D.fromPoints dc.p1 dc.p2
    let v34 := V3D.fromPoints dc.p3 dc.p4
    if v12.isNull || v34.isNull then
      some (-1)
    else
      let cross := v12.crossProduct v34
      if cross.isNull then
        DistanceCalculator.calculateMinDistanceBetweenEndsChecked sqrt dc.p1 dc.p2 dc.p3 dc.p4
      else do
        let plane ← Plane3D.fromPointNormalChecked sqrt dc.p1 cross
        let distanceBetweenPlanes ← plane.distanceToPointChecked sqrt dc.p3
        let p1_proj := dc.p1
        let p2_proj ← DistanceCalculator.projectPointOnPlaneChecked sqrt dc.p2 plane
        let p3_proj ← DistanceCalculator.projectPointOnPlaneChecked sqrt dc.p3 plane
        let p4_proj ← DistanceCalculator.projectPointOnPlaneChecked sqrt dc.p4 plane
        let intersect ← DistanceCalculator.doLineSegmentsIntersectChecked sqrt
          p1_proj p2_proj p3_proj p4_proj cross
        if !intersect then
          DistanceCalculator.calculateMinDistanceBetweenEndsChecked sqrt dc.p1 dc.p2 dc.p3 dc.p4
        else
          pure distanceBetweenPlanes

end Checked

/-! ## The code on `double` values that can overflow

A third copy of the code, on a model of the C++ `double` that keeps what the
exact field leaves out: a result too large for a `double` becomes an infinity,
and infinities and NaNs propagate by the IEEE 754 rules.  A finite result is
kept exactly (rounding and underflow are not modelled), and the two zeros are
identified (their sign only shows in the result of a division by zero, which
this copy reports as `none` instead of computing it). -/

/-- A value of the C++ type `double`: a finite number, an infinity or a NaN. -/
inductive Double (R : Type) where
  | finite (x : R)
  | posInf
  | negInf
  | nan

section Overflow

variable {R : Type} [LinearOrderedField R]

/-- The least magnitude that rounds to an infinity: half way between the
largest finite `double`, `2^1024 - 2^971`, and `2^1024`. -/
def Double.overflowThreshold : R := 2 ^ 1024 - 2 ^ 970

/-- The `double` for an exactly computed result: an infinity from the
overflow threshold on. -/
def Double.ofExact (x : R) : Double R :=
  if Double.overflowThreshold ≤ x then .posInf
  else if x ≤ -Double.overflowThreshold then .negInf
  else .finite x

/-- Unary minus. -/
def Double.neg : Double R → Double R
  | .finite x => .finite (-x)
  | .posInf => .negInf
  | .negInf => .posInf
  | .nan => .nan

/-- Addition: `inf + (-inf)` is a NaN. -/
def Double.add : Double R → Double R → Double R
  | .finite x, .finite y => Double.ofExact (x + y)
  | .finite _, .posInf => .posInf
  | .finite _, .negInf => .negInf
  | .posInf, .finite _ => .posInf
  | .posInf, .posInf => .posInf
  | .posInf, .negInf => .nan
  | .negInf, .finite _ => .negInf
  | .negInf, .posInf => .nan
  | .negInf, .negInf => .negInf
  | .nan, _ => .nan
  | _, .nan => .nan

/-- Subtraction. -/
def Double.sub (a b : Double R) : Double R :=
  a.add b.neg

/-- The sign of a value: `some true` above zero, `some false` below zero,
`none` for a zero and for a NaN. -/
def Double.sign : Double R → Option Bool
  | .finite x => if 0 < x then some true else if x < 0 then some false else none
  | .posInf => some true
  | .negInf => some false
  | .nan => none

/-- Multiplication: an infinity times a zero is a NaN, otherwise an infinite
factor gives the infinity with the product of the signs. -/
def Double.mul : Double R → Double R → Double R
  | .finite x, .finite y => Double.ofExact (x * y)
  | a, b =>
    match a.sign, b.sign with
    | some s, some t => if s = t then .posInf else .negInf
    | _, _ => .nan

/-- Division by a denominator that is not zero: a finite number over an
infinity is zero, an infinity over an infinity is a NaN. -/
def Double.div : Double R → Double R → Double R
  | .finite x, .finite y => Double.ofExact (x / y)
  | .finite _, .posInf => .finite 0
  | .finite _, .negInf => .finite 0
  | .posInf, .finite y => if 0 < y then .posInf else .negInf
  | .negInf, .finite y => if 0 < y then .negInf else .posInf
  | _, _ => .nan

/-- Whether a value is a zero. -/
def Double.isZero : Double R → Bool
  | .finite x => decide (x = 0)
  | _ => false

/-- The division `a / b`, `none` when the denominator is zero. -/
def Double.checkedDiv (a b : Double R) : Option (Double R) :=
  if b.isZero then none else some (a.div b)

/-- The function `sqrt` of `<cmath>`: a NaN below zero, `sqrt(inf) = inf`. -/
def Double.sqrt (sqrt : R → R) : Double R → Double R
  | .finite x => if x < 0 then .nan else .finite (sqrt x)
  | .posInf => .posInf
  | .negInf => .nan
  | .nan => .nan

/-- The call `pow(x, 2)`: the square, an infinity when it overflows. -/
def Double.pow2 (a : Double R) : Double R :=
  a.mul a

/-- The function `abs`. -/
def Double.abs : Double R → Double R
  | .finite x => .finite |x|
  | .posInf => .posInf
  | .negInf => .posInf
  | .nan => .nan

/-- The comparison `a < b`: false as soon as one side is a NaN. -/
def Double.lt : Double R → Double R → Bool
  | .finite x, .finite y => decide (x < y)
  | .finite _, .posInf => true
  | .negInf, .finite _ => true
  | .negInf, .posInf => true
  | _, _ => false

/-- The function `std::min(a, b)`, which is `(b < a) ? b : a`. -/
def Double.min (a b : Double R) : Double R :=
  if b.lt a then b else a

/-- The constructor `V3D::V3D(start, end)` on `double` values. -/
def V3D.fromPointsDouble (start stop : P3D (Double R)) : V3D (Double R) :=
  ⟨stop.x.sub start.x, stop.y.sub start.y, stop.z.sub start.z⟩

/-- The method `V3D::length` on `double` values. -/
def V3D.lengthDouble (sqrt : R → R) (v : V3D (Double R)) : Double R :=
  Double.sqrt sqrt ((v.x.pow2.add v.y.pow2).add v.z.pow2)

/-- The method `V3D::normal` on `double` values, with its three divisions
checked. -/
def V3D.normalDouble (sqrt : R → R) (v : V3D (Double R)) : Option (V3D (Double R)) := do
  let len := v.lengthDouble sqrt
  let x ← v.x.checkedDiv len
  let y ← v.y.checkedDiv len
  let z ← v.z.checkedDiv len
  pure ⟨x, y, z⟩

/-- The method `V3D::isNull` on `double` values. -/
def V3D.isNullDouble (v : V3D (Double R)) : Bool :=
  v.x.abs.lt (.finite Tolerance_small) &&
    v.y.abs.lt (.finite Tolerance_small) &&
    v.z.abs.lt (.finite Tolerance_small)

/-- The operator `V3D::operator*=` on `double` values. -/
def V3D.operatorMulAssignDouble (v : V3D (Double R)) (k : Double R) : V3D (Double R) :=
  ⟨v.x.mul k, v.y.mul k, v.z.mul k⟩

/-- The method `V3D::crossProduct` on `double` values. -/
def V3D.crossProductDouble (v vA : V3D (Double R)) : V3D (Double R) :=
  ⟨(v.y.mul vA.z).sub (v.z.mul vA.y), (v.z.mul vA.x).sub (v.x.mul vA.z),
    (v.x.mul vA.y).sub (v.y.mul vA.x)⟩

/-- The method `V3D::dotProduct` on `double` values. -/
def V3D.dotProductDouble (v vA : V3D (Double R)) : Double R :=
  ((v.x.mul vA.x).add (v.y.mul vA.y)).add (v.z.mul vA.z)

/-- The operator `P3D::operator+` on `double` values. -/
def P3D.operatorPlusDouble (p : P3D (Double R)) (vec : V3D (Double R)) : P3D (Double R) :=
  ⟨p.x.add vec.x, p.y.add vec.y, p.z.add vec.z⟩

/-- The operator `P3D::operator-` on `double` values. -/
def P3D.operatorMinusDouble (p : P3D (Double R)) (vec : V3D (Double R)) : P3D (Double R) :=
  ⟨p.x.sub vec.x, p.y.sub vec.y, p.z.sub vec.z⟩

/-- The operator `P3D::operator==` on `double` values. -/
def P3D.operatorEqDouble (p rhs : P3D (Double R)) : Bool :=
  (p.x.sub rhs.x).abs.lt (.finite Tolerance_small) &&
    (p.y.sub rhs.y).abs.lt (.finite Tolerance_small) &&
    (p.z.sub rhs.z).abs.lt (.finite Tolerance_small)

/-- The method `P3D::distanceToLineSegment` on `double` values, with its
division checked. -/
def P3D.distanceToLineSegmentDouble (sqrt : R → R) (p pA pB : P3D (Double R)) :
    Option (Double R) :=
  let v1 := V3D.fromPointsDouble pA p
  let v2 := V3D.fromPointsDouble pB p
  let v_p1_p2 := V3D.fromPointsDouble pA pB
  let v_p2_p1 := V3D.fromPointsDouble pB pA
  if (v_p1_p2.dotProductDouble v1).lt (.finite 0) ||
      (v_p2_p1.dotProductDouble v2).lt (.finite 0) then
    some ((v1.lengthDouble sqrt).min (v2.lengthDouble sqrt))
  else
    let square2x := (v_p1_p2.crossProductDouble v1).lengthDouble sqrt
    square2x.checkedDiv (v_p1_p2.lengthDouble sqrt)

/-- The constructor `Plane3D::Plane3D(point, norm)` on `double` values, with
the normalisation checked. -/
def Plane3D.fromPointNormalDouble (sqrt : R → R) (point : P3D (Double R))
    (norm : V3D (Double R)) : Option (Plane3D (Double R)) := do
  let normVector ← norm.normalDouble sqrt
  let A := normVector.x
  let B := normVector.y
  let C := normVector.z
  pure ⟨A, B, C, ((A.neg.mul point.x).sub (B.mul point.y)).sub (C.mul point.z)⟩

/-- The normalisation factor `sqrt(A^2 + B^2 + C^2)` of
`Plane3D::distanceToPoint` on `double` values. -/
def Plane3D.normFactorDouble (sqrt : R → R) (pl : Plane3D (Double R)) : Double R :=
  Double.sqrt sqrt ((pl.A.pow2.add pl.B.pow2).add pl.C.pow2)

/-- The method `Plane3D::distanceToPoint` on `double` values, with its
division checked. -/
def Plane3D.distanceToPointDouble (sqrt : R → R) (pl : Plane3D (Double R))
    (point : P3D (Double R)) : Option (Double R) :=
  let normFactor := pl.normFactorDouble sqrt
  ((((pl.A.mul point.x).add (pl.B.mul point.y)).add (pl.C.mul point.z)).add
    pl.D).abs.checkedDiv normFactor

/-- The method `Plane3D::isOn` on `double` values. -/
def Plane3D.isOnDouble (pl : Plane3D (Double R)) (point : P3D (Double R)) : Bool :=
  ((((pl.A.mul point.x).add (pl.B.mul point.y)).add (pl.C.mul point.z)).add
    pl.D).abs.lt (.finite Tolerance_small)

/-- The method `Plane3D::normal` on `double` values, with the normalisation
checked. -/
def Plane3D.normalDouble (sqrt : R → R) (pl : Plane3D (Double R)) :
    Option (V3D (Double R)) :=
  (V3D.mk pl.A pl.B pl.C).normalDouble sqrt

/-- The static method `DistanceCalculator::haveCommonEndpoint` on `double`
values. -/
def DistanceCalculator.haveCommonEndpointDouble (p1 p2 p3 p4 : P3D (Double R)) : Bool :=
  p1.operatorEqDouble p3 || p1.operatorEqDouble p4 || p2.operatorEqDouble p3 ||
    p2.operatorEqDouble p4

/-- The static method `DistanceCalculator::doLineSegmentsIntersect` on
`double` values, with the construction of the plane checked. -/
def DistanceCalculator.doLineSegmentsIntersectDouble (sqrt : R → R)
    (p1 p2 p3 p4 : P3D (Double R)) (dir : V3D (Double R)) : Option Bool := do
  let plane ← Plane3D.fromPointNormalDouble sqrt p1 dir
  if !plane.isOnDouble p1 || !plane.isOnDouble p2 || !plane.isOnDouble p3 ||
      !plane.isOnDouble p4 then
    pure false
  else if DistanceCalculator.haveCommonEndpointDouble p1 p2 p3 p4 then
    pure true
  else
    let vec1 := (V3D.fromPointsDouble p3 p4).crossProductDouble (V3D.fromPointsDouble p3 p1)
    let vec2 := (V3D.fromPointsDouble p3 p4).crossProductDouble (V3D.fromPointsDouble p3 p2)
    let vec3 := (V3D.fromPointsDouble p1 p2).crossProductDouble (V3D.fromPointsDouble p1 p3)
    let vec4 := (V3D.fromPointsDouble p1 p2).crossProductDouble (V3D.fromPointsDouble p1 p4)
    let v1 := vec1.dotProductDouble dir
    let v2 := vec2.dotProductDouble dir
    let v3 := vec3.dotProductDouble dir
    let v4 := vec4.dotProductDouble dir
    pure ((v1.mul v2).lt (.finite 0) && (v3.mul v4).lt (.finite 0))

/-- The static method `DistanceCalculator::projectPointOnPlane` on `double`
values, with the divisions of `distanceToPoint` and `normal` checked. -/
def DistanceCalculator.projectPointOnPlaneDouble (sqrt : R → R)
    (point : P3D (Double R)) (plane : Plane3D (Double R)) : Option (P3D (Double R)) := do
  let dist ← plane.distanceToPointDouble sqrt point
  let unitNorm ← plane.normalDouble sqrt
  let vecNorm := unitNorm.operatorMulAssignDouble dist
  let pointProjected := point.operatorPlusDouble vecNorm
  if !plane.isOnDouble pointProjected then
    pure (point.operatorMinusDouble vecNorm)
  else
    pure pointProjected

/-- The static method `DistanceCalculator::calculateMinDistanceBetweenEnds`
on `double` values. -/
def DistanceCalculator.calculateMinDistanceBetweenEndsDouble (sqrt : R → R)
    (p1 p2 p3 p4 : P3D (Double R)) : Option (Double R) := do
  let dist1 ← p1.distanceToLineSegmentDouble sqrt p3 p4
  let dist2 ← p2.distanceToLineSegmentDouble sqrt p3 p4
  let dist3 ← p3.distanceToLineSegmentDouble sqrt p1 p2
  let dist4 ← p4.distanceToLineSegmentDouble sqrt p1 p2
  pure ((dist1.min dist2).min (dist3.min dist4))

/-- The method `DistanceCalculator::calculate` on `double` values: `none`
when a division by zero is met on the way. -/
def DistanceCalculator.calculateDouble (sqrt : R → R) (dc : DistanceCalculator (Double R)) :
    Option (Double R) :=
  if DistanceCalculator.haveCommonEndpointDouble dc.p1 dc.p2 dc.p3 dc.p4 then
    some (.finite 0)
  else
    let v12 := V3D.fromPointsDouble dc.p1 dc.p2
    let v34 := V3D.fromPointsDouble dc.p3 dc.p4
    if v12.isNullDouble || v34.isNullDouble then
      some (.finite (-1))
    else
      let cross := v12.crossProductDouble v34
      if cross.isNullDouble then
        DistanceCalculator.calculateMinDistanceBetweenEndsDouble sqrt dc.p1 dc.p2 dc.p3 dc.p4
      else do
        let plane ← Plane3D.fromPointNormalDouble sqrt dc.p1 cross
        let distanceBetweenPlanes ← plane.distanceToPointDouble sqrt dc.p3
        let p1_proj := dc.p1
        let p2_proj ← DistanceCalculator.projectPointOnPlaneDouble sqrt dc.p2 plane
        let p3_proj ← DistanceCalculator.projectPointOnPlaneDouble sqrt dc.p3 plane
        let p4_proj ← DistanceCalculator.projectPointOnPlaneDouble sqrt dc.p4 plane
        let intersect ← DistanceCalculator.doLineSegmentsIntersectDouble sqrt
          p1_proj p2_proj p3_proj p4_proj cross
        if !intersect then
          DistanceCalculator.calculateMinDistanceBetweenEndsDouble sqrt dc.p1 dc.p2 dc.p3 dc.p4
        else
          pure distanceBetweenPlanes

end Overflow

/-! ## Basic facts about the predicates -/

section Basic

variable {R : Type} [LinearOrderedField R]

theorem Tolerance_small_pos : (0 : R) < Tolerance_small := by
  unfold Tolerance_small; positivity

theorem P3D.operatorEq_iff (p q : P3D R) :
    p.operatorEq q = true ↔
      |p.x - q.x| < Tolerance_small ∧ |p.y - q.y| < Tolerance_small ∧
        |p.z - q.z| < Tolerance_small := by
  simp [P3D.operatorEq, and_assoc]

theorem V3D.isNull_iff (v : V3D R) :
    v.isNull = true ↔
      |v.x| < Tolerance_small ∧ |v.y| < Tolerance_small ∧ |v.z| < Tolerance_small := by
  simp [V3D.isNull, and_assoc]

theorem P3D.operatorEq_comm (p q : P3D R) : p.operatorEq q = q.operatorEq p := by
  simp only [P3D.operatorEq, abs_sub_comm p.x, abs_sub_comm p.y, abs_sub_comm p.z]

theorem haveCommonEndpoint_iff (p1 p2 p3 p4 : P3D R) :
    DistanceCalculator.haveCommonEndpoint p1 p2 p3 p4 = true ↔
      p1.operatorEq p3 = true ∨ p1.operatorEq p4 = true ∨
        p2.operatorEq p3 = true ∨ p2.operatorEq p4 = true := by
  simp [DistanceCalculator.haveCommonEndpoint, or_assoc]

end Basic

/-! ## Facts about lengths over the reals -/

theorem V3D.length_nonneg (v : V3D ℝ) : 0 ≤ v.length Real.sqrt := Real.sqrt_nonneg _

theorem V3D.sumSq_nonneg (v : V3D ℝ) : 0 ≤ v.x ^ 2 + v.y ^ 2 + v.z ^ 2 := by positivity

theorem V3D.length_sq (v : V3D ℝ) : v.length Real.sqrt ^ 2 = v.x ^ 2 + v.y ^ 2 + v.z ^ 2 :=
  Real.sq_sqrt v.sumSq_nonneg

theorem V3D.length_pos_of_not_isNull (v : V3D ℝ) (h : v.isNull = false) :
    0 < v.length Real.sqrt := by
  have hn : ¬ (v.isNull = true) := by simp [h]
  rw [V3D.isNull_iff] at hn
  apply Real.sqrt_pos.2
  by_contra hle
  have h0 : v.x ^ 2 + v.y ^ 2 + v.z ^ 2 = 0 := le_antisymm (not_lt.1 hle) v.sumSq_nonneg
  have hx : v.x = 0 := by nlinarith [sq_nonneg v.x, sq_nonneg v.y, sq_nonneg v.z]
  have hy : v.y = 0 := by nlinarith [sq_nonneg v.x, sq_nonneg v.y, sq_nonneg v.z]
  have hz : v.z = 0 := by nlinarith [sq_nonneg v.x, sq_nonneg v.y, sq_nonneg v.z]
  apply hn
  simp [hx, hy, hz, Tolerance_small_pos]

theorem distanceToLineSegment_nonneg (p a b : P3D ℝ) :
    0 ≤ p.distanceToLineSegment Real.sqrt a b := by
  unfold P3D.distanceToLineSegment
  simp only
  split_ifs
  · exact le_min (V3D.length_nonneg _) (V3D.length_nonneg _)
  · exact div_nonneg (V3D.length_nonneg _) (V3D.length_nonneg _)

theorem calculateMinDistanceBetweenEnds_nonneg (p1 p2 p3 p4 : P3D ℝ) :
    0 ≤ DistanceCalculator.calculateMinDistanceBetweenEnds Real.sqrt p1 p2 p3 p4 := by
  unfold DistanceCalculator.calculateMinDistanceBetweenEnds
  exact le_min (le_min (distanceToLineSegment_nonneg _ _ _) (distanceToLineSegment_nonneg _ _ _))
    (le_min (distanceToLineSegment_nonneg _ _ _) (distanceToLineSegment_nonneg _ _ _))

theorem distanceToPoint_nonneg (pl : Plane3D ℝ) (p : P3D ℝ) :
    0 ≤ pl.distanceToPoint Real.sqrt p := by
  unfold Plane3D.distanceToPoint
  exact div_nonneg (abs_nonneg _) (Real.sqrt_nonneg _)

/-! ## C4: a shared end point gives 0 -/

/-- C4: if `p1 == p3` or `p1 == p4` or `p2 == p3` or `p2 == p4` under the
tolerance equality of `P3D`, then `calculate()` returns exactly `0`. -/
theorem calculate_shared_endpoint (p1 p2 p3 p4 : P3D ℝ)
    (h : p1.operatorEq p3 = true ∨ p1.operatorEq p4 = true ∨
      p2.operatorEq p3 = true ∨ p2.operatorEq p4 = true) :
    (DistanceCalculator.mk p1 p2 p3 p4).calculate Real.sqrt = 0 := by
  have hc := (haveCommonEndpoint_iff p1 p2 p3 p4).2 h
  simp [DistanceCalculator.calculate, hc]

/-- The spec's example for C4: `(0,0,0)-(1,0,0)` and `(1,0,0)-(2,2,2)`. -/
theorem calculate_shared_endpoint_witness :
    (DistanceCalculator.mk (P3D.mk 0 0 0) (P3D.mk 1 0 0) (P3D.mk 1 0 0)
      (P3D.mk 2 2 2)).calculate Real.sqrt = (0 : ℝ) :=
  calculate_shared_endpoint _ _ _ _ (by
    right; right; left
    rw [P3D.operatorEq_iff]; norm_num [Tolerance_small])

/-! ## C3: a degenerate segment gives the sentinel -1 -/

/-- C3 as stated fails: with `p1 = p2 = p3 = (0,0,0)` and `p4 = (1,0,0)` the
direction vector `p2 - p1` is null, yet `calculate()` returns `0`, because
the shared-end-point test comes first. -/
theorem calculate_degenerate_counterexample :
    ¬ (∀ p1 p2 p3 p4 : P3D ℝ,
        ((V3D.fromPoints p1 p2).isNull = true ∨ (V3D.fromPoints p3 p4).isNull = true) →
        (DistanceCalculator.mk p1 p2 p3 p4).calculate Real.sqrt = -1) := by
  intro h
  have h1 := h (P3D.mk 0 0 0) (P3D.mk 0 0 0) (P3D.mk 0 0 0) (P3D.mk 1 0 0)
    (by left; rw [V3D.isNull_iff]; norm_num [V3D.fromPoints, Tolerance_small])
  have h2 : (DistanceCalculator.mk (P3D.mk 0 0 0) (P3D.mk 0 0 0) (P3D.mk 0 0 0)
      (P3D.mk 1 0 0)).calculate Real.sqrt = (0 : ℝ) := by
    have hc : DistanceCalculator.haveCommonEndpoint (P3D.mk (0 : ℝ) 0 0) (P3D.mk 0 0 0)
        (P3D.mk 0 0 0) (P3D.mk 1 0 0) = true := by
      rw [haveCommonEndpoint_iff]; left
      rw [P3D.operatorEq_iff]; norm_num [Tolerance_small]
    simp [DistanceCalculator.calculate, hc]
  rw [h2] at h1
  norm_num at h1

/-- C3, amended: when no end point of one segment is tolerance-equal to an
end point of the other and a direction vector `p2 - p1` or `p4 - p3` is null,
`calculate()` returns the sentinel `-1`. -/
theorem calculate_degenerate (p1 p2 p3 p4 : P3D ℝ)
    (hne : DistanceCalculator.haveCommonEndpoint p1 p2 p3 p4 = false)
    (h : (V3D.fromPoints p1 p2).isNull = true ∨ (V3D.fromPoints p3 p4).isNull = true) :
    (DistanceCalculator.mk p1 p2 p3 p4).calculate Real.sqrt = -1 := by
  have hn : ((V3D.fromPoints p1 p2).isNull || (V3D.fromPoints p3 p4).isNull) = true := by
    rcases h with h | h <;> simp [h]
  simp only [DistanceCalculator.calculate, hne, hn]
  simp

/-- The spec's example for C3: `p1 = p2 = (0,0,0)`, `p3 = (1,0,0)`,
`p4 = (2,0,0)` gives `-1`. -/
theorem calculate_degenerate_witness :
    (DistanceCalculator.mk (P3D.mk 0 0 0) (P3D.mk 0 0 0) (P3D.mk 1 0 0)
      (P3D.mk 2 0 0)).calculate Real.sqrt = (-1 : ℝ) :=
  calculate_degenerate _ _ _ _
    (by
      rw [Bool.eq_false_iff]
      intro hc
      rw [haveCommonEndpoint_iff] at hc
      simp only [P3D.operatorEq_iff] at hc
      norm_num [Tolerance_small] at hc)
    (by left; rw [V3D.isNull_iff]; norm_num [V3D.fromPoints, Tolerance_small])

/-! ## C5: the range of `calculate()` -/

/-- C5: the value returned by `calculate()` is either exactly `-1` or a number
`>= 0`; it is `-1` only if the direction vector `p2 - p1` or `p4 - p3` is null;
and for two non-degenerate segments the result is non-negative. -/
theorem calculate_range (p1 p2 p3 p4 : P3D ℝ) :
    ((DistanceCalculator.mk p1 p2 p3 p4).calculate Real.sqrt = -1 ∨
      0 ≤ (DistanceCalculator.mk p1 p2 p3 p4).calculate Real.sqrt) ∧
    ((DistanceCalculator.mk p1 p2 p3 p4).calculate Real.sqrt = -1 →
      (V3D.fromPoints p1 p2).isNull = true ∨ (V3D.fromPoints p3 p4).isNull = true) ∧
    ((V3D.fromPoints p1 p2).isNull = false → (V3D.fromPoints p3 p4).isNull = false →
      0 ≤ (DistanceCalculator.mk p1 p2 p3 p4).calculate Real.sqrt) := by
  have key : ((V3D.fromPoints p1 p2).isNull = true ∨ (V3D.fromPoints p3 p4).isNull = true) ∧
        (DistanceCalculator.mk p1 p2 p3 p4).calculate Real.sqrt = -1 ∨
      0 ≤ (DistanceCalculator.mk p1 p2 p3 p4).calculate Real.sqrt := by
    unfold DistanceCalculator.calculate
    simp only
    split_ifs with h1 h2 h3 h4
    · right; exact le_refl _
    · left
      refine ⟨?_, rfl⟩
      simpa [Bool.or_eq_true] using h2
    · right; exact calculateMinDistanceBetweenEnds_nonneg _ _ _ _
    · right; exact calculateMinDistanceBetweenEnds_nonneg _ _ _ _
    · right; exact distanceToPoint_nonneg _ _
  refine ⟨?_, ?_, ?_⟩
  · rcases key with ⟨_, h⟩ | h
    · left; exact h
    · right; exact h
  · intro hm
    rcases key with ⟨h, _⟩ | h
    · exact h
    · rw [hm] at h; norm_num at h
  · intro h12 h34
    rcases key with ⟨h | h, _⟩ | h
    · rw [h12] at h; cases h
    · rw [h34] at h; cases h
    · exact h

/-! ## C6: distance from a point to a segment -/

/-- Two distinct points span a vector of positive squared length. -/
theorem sumSq_pos_of_ne (a b : P3D ℝ) (h : a ≠ b) :
    0 < (b.x - a.x) ^ 2 + (b.y - a.y) ^ 2 + (b.z - a.z) ^ 2 := by
  by_contra hle
  have h0 : (b.x - a.x) ^ 2 + (b.y - a.y) ^ 2 + (b.z - a.z) ^ 2 = 0 :=
    le_antisymm (not_lt.1 hle) (by positivity)
  have hx : b.x - a.x = 0 := by
    nlinarith [sq_nonneg (b.x - a.x), sq_nonneg (b.y - a.y), sq_nonneg (b.z - a.z)]
  have hy : b.y - a.y = 0 := by
    nlinarith [sq_nonneg (b.x - a.x), sq_nonneg (b.y - a.y), sq_nonneg (b.z - a.z)]
  have hz : b.z - a.z = 0 := by
    nlinarith [sq_nonneg (b.x - a.x), sq_nonneg (b.y - a.y), sq_nonneg (b.z - a.z)]
  apply h
  cases a; cases b
  simp only [P3D.mk.injEq]
  simp only at hx hy hz
  exact ⟨by linarith, by linarith, by linarith⟩

/-- The point-to-segment routine returns the least distance from `p` to the
points of the closed segment `[a,b]`, provided the segment has positive
squared length. -/
theorem isLeast_distanceToLineSegment_of_pos (p a b : P3D ℝ)
    (hab : 0 < (b.x - a.x) ^ 2 + (b.y - a.y) ^ 2 + (b.z - a.z) ^ 2) :
    IsLeast (pointSegmentDistances Real.sqrt p a b)
      (p.distanceToLineSegment Real.sqrt a b) := by
  unfold P3D.distanceToLineSegment
  simp only [V3D.fromPoints, V3D.dotProduct, V3D.crossProduct, V3D.length]
  have e0 : euclideanDistance Real.sqrt p (segmentPoint a b 0) =
      Real.sqrt ((p.x - a.x) ^ 2 + (p.y - a.y) ^ 2 + (p.z - a.z) ^ 2) := by
    simp [euclideanDistance, segmentPoint]
  have e1 : euclideanDistance Real.sqrt p (segmentPoint a b 1) =
      Real.sqrt ((p.x - b.x) ^ 2 + (p.y - b.y) ^ 2 + (p.z - b.z) ^ 2) := by
    simp [euclideanDistance, segmentPoint]
  split_ifs with hc
  · constructor
    · rcases min_choice
        (Real.sqrt ((p.x - a.x) ^ 2 + (p.y - a.y) ^ 2 + (p.z - a.z) ^ 2))
        (Real.sqrt ((p.x - b.x) ^ 2 + (p.y - b.y) ^ 2 + (p.z - b.z) ^ 2)) with h | h
      · rw [h]; exact ⟨0, le_refl _, zero_le_one, e0.symm⟩
      · rw [h]; exact ⟨1, zero_le_one, le_refl _, e1.symm⟩
    · rintro d ⟨t, ht0, ht1, rfl⟩
      rcases hc with hc | hc
      · refine le_trans (min_le_left _ _) ?_
        apply Real.sqrt_le_sqrt
        simp only [segmentPoint]
        nlinarith [mul_nonneg ht0 (le_of_lt hab), mul_nonneg ht0 (le_of_lt (neg_pos.2 hc)),
          mul_nonneg ht0 (mul_nonneg ht0 (le_of_lt hab))]
      · refine le_trans (min_le_right _ _) ?_
        apply Real.sqrt_le_sqrt
        simp only [segmentPoint]
        have h1t : 0 ≤ 1 - t := by linarith
        nlinarith [mul_nonneg h1t (le_of_lt hab), mul_nonneg h1t (le_of_lt (neg_pos.2 hc)),
          mul_nonneg h1t (mul_nonneg h1t (le_of_lt hab))]
  · push_neg at hc
    obtain ⟨hc1, hc2⟩ := hc
    set S := (b.x - a.x) ^ 2 + (b.y - a.y) ^ 2 + (b.z - a.z) ^ 2 with hS
    set dt := (b.x - a.x) * (p.x - a.x) + (b.y - a.y) * (p.y - a.y) + (b.z - a.z) * (p.z - a.z)
      with hdt
    have hSne : S ≠ 0 := ne_of_gt hab
    rw [← Real.sqrt_div (by positivity)]
    constructor
    · refine ⟨dt / S, div_nonneg hc1 (le_of_lt hab), ?_, ?_⟩
      · rw [div_le_one hab]
        have : (a.x - b.x) * (p.x - b.x) + (a.y - b.y) * (p.y - b.y) +
            (a.z - b.z) * (p.z - b.z) = S - dt := by rw [hS, hdt]; ring
        linarith
      · unfold euclideanDistance segmentPoint
        congr 1
        simp only
        field_simp
        rw [hS, hdt]
        ring
    · rintro d ⟨t, ht0, ht1, rfl⟩
      apply Real.sqrt_le_sqrt
      rw [div_le_iff₀ hab]
      simp only [segmentPoint]
      have key : ((p.x - (a.x + t * (b.x - a.x))) ^ 2 + (p.y - (a.y + t * (b.y - a.y))) ^ 2 +
          (p.z - (a.z + t * (b.z - a.z))) ^ 2) * S -
          (((b.y - a.y) * (p.z - a.z) - (b.z - a.z) * (p.y - a.y)) ^ 2 +
            ((b.z - a.z) * (p.x - a.x) - (b.x - a.x) * (p.z - a.z)) ^ 2 +
            ((b.x - a.x) * (p.y - a.y) - (b.y - a.y) * (p.x - a.x)) ^ 2) =
          (dt - t * S) ^ 2 := by rw [hS, hdt]; ring
      have hsq := sq_nonneg (dt - t * S)
      linarith [key, hsq]

/-- C6: for distinct points `A`, `B`, `P.distanceToLineSegment(A, B)` is the
minimum over `t` in `[0,1]` of `|P - (A + t (B - A))|`: it is the distance to
some point of the closed segment and no point of the segment is nearer. -/
theorem distanceToLineSegment_isLeast (p a b : P3D ℝ) (h : a ≠ b) :
    IsLeast (pointSegmentDistances Real.sqrt p a b)
      (p.distanceToLineSegment Real.sqrt a b) :=
  isLeast_distanceToLineSegment_of_pos p a b (sumSq_pos_of_ne a b h)

/-- The spec's obtuse example for C6: point `(5,0,0)`, segment
`(0,0,0)-(1,0,0)`. -/
theorem distanceToLineSegment_isLeast_witness :
    IsLeast (pointSegmentDistances Real.sqrt (P3D.mk 5 0 0) (P3D.mk 0 0 0) (P3D.mk 1 0 0))
      ((P3D.mk (5 : ℝ) 0 0).distanceToLineSegment Real.sqrt (P3D.mk 0 0 0) (P3D.mk 1 0 0)) :=
  distanceToLineSegment_isLeast _ _ _ (by
    intro h
    have hx := congrArg P3D.x h
    norm_num at hx)

/-- The spec's obtuse example: point `(5,0,0)`, segment `(0,0,0)-(1,0,0)`
gives `4`. -/
theorem distanceToLineSegment_obtuse_example :
    (P3D.mk (5 : ℝ) 0 0).distanceToLineSegment Real.sqrt (P3D.mk 0 0 0) (P3D.mk 1 0 0) = 4 := by
  have h25 : Real.sqrt 25 = 5 := by
    rw [show (25 : ℝ) = 5 ^ 2 by norm_num]
    exact Real.sqrt_sq (by norm_num)
  have h16 : Real.sqrt 16 = 4 := by
    rw [show (16 : ℝ) = 4 ^ 2 by norm_num]
    exact Real.sqrt_sq (by norm_num)
  norm_num [P3D.distanceToLineSegment, V3D.fromPoints, V3D.dotProduct, V3D.length, h25, h16]

/-- The spec's perpendicular example: point `(0.5,1,0)`, segment
`(0,0,0)-(1,0,0)` gives `1`. -/
theorem distanceToLineSegment_perpendicular_example :
    (P3D.mk (1 / 2 : ℝ) 1 0).distanceToLineSegment Real.sqrt (P3D.mk 0 0 0) (P3D.mk 1 0 0) =
      1 := by
  norm_num [P3D.distanceToLineSegment, V3D.fromPoints, V3D.dotProduct, V3D.crossProduct,
    V3D.length]

/-! ## C8: the tolerance equality of points -/

/-- C8: `p == q` holds iff all three coordinate deltas are below `1e-4` in
absolute value; two points at Euclidean distance exactly `eps / 2` compare
equal and two points at Euclidean distance exactly `2 eps` compare unequal. -/
theorem operatorEq_spec (p q : P3D ℝ) :
    (p.operatorEq q = true ↔
      |p.x - q.x| < 1 / 10000 ∧ |p.y - q.y| < 1 / 10000 ∧ |p.z - q.z| < 1 / 10000) ∧
    (euclideanDistance Real.sqrt p q = (1 / 10000) / 2 → p.operatorEq q = true) ∧
    (euclideanDistance Real.sqrt p q = 2 * (1 / 10000) → p.operatorEq q = false) := by
  have hS : 0 ≤ (p.x - q.x) ^ 2 + (p.y - q.y) ^ 2 + (p.z - q.z) ^ 2 := by positivity
  refine ⟨P3D.operatorEq_iff p q, ?_, ?_⟩
  · intro h
    have h2 := Real.sq_sqrt hS
    unfold euclideanDistance at h
    rw [h] at h2
    rw [P3D.operatorEq_iff]
    simp only [Tolerance_small]
    refine ⟨?_, ?_, ?_⟩ <;> rw [abs_lt] <;> constructor <;>
      nlinarith [sq_nonneg (p.x - q.x), sq_nonneg (p.y - q.y), sq_nonneg (p.z - q.z)]
  · intro h
    have h2 := Real.sq_sqrt hS
    unfold euclideanDistance at h
    rw [h] at h2
    rw [Bool.eq_false_iff]
    intro he
    rw [P3D.operatorEq_iff] at he
    simp only [Tolerance_small] at he
    obtain ⟨hx, hy, hz⟩ := he
    rw [abs_lt] at hx hy hz
    nlinarith [hx.1, hx.2, hy.1, hy.2, hz.1, hz.2]

/-! ## C9: reflexive, symmetric, not transitive -/

/-- C9: the tolerance equality `P3D::operator==` is reflexive and symmetric,
and it is not transitive: `(0,0,0) == (0.00006,0,0) == (0.00012,0,0)` while
`(0,0,0)` and `(0.00012,0,0)` compare unequal. -/
theorem operatorEq_refl_symm_not_trans :
    (∀ p : P3D ℝ, p.operatorEq p = true) ∧
    (∀ p q : P3D ℝ, p.operatorEq q = true → q.operatorEq p = true) ∧
    (∃ a b c : P3D ℝ, a.operatorEq b = true ∧ b.operatorEq c = true ∧ a.operatorEq c = false) := by
  refine ⟨?_, ?_, ?_⟩
  · intro p
    rw [P3D.operatorEq_iff]
    simp [Tolerance_small_pos]
  · intro p q h
    rw [P3D.operatorEq_comm]; exact h
  · refine ⟨P3D.mk 0 0 0, P3D.mk (6 / 100000) 0 0, P3D.mk (12 / 100000) 0 0, ?_, ?_, ?_⟩
    · rw [P3D.operatorEq_iff]; norm_num [Tolerance_small, abs_lt]
    · rw [P3D.operatorEq_iff]; norm_num [Tolerance_small, abs_lt]
    · rw [Bool.eq_false_iff, Ne, P3D.operatorEq_iff]; norm_num [Tolerance_small, abs_lt]

/-! ## C10: normalisation -/

/-- C10: a vector `v` with `v.length() > 0` (in particular one with `isNull()`
false) has positive length, `v.normal()` has length exactly `1`, and
`v.normal()` scaled by `v.length()` is `v`. -/
theorem normal_spec (v : V3D ℝ) (h : 0 < v.length Real.sqrt ∨ v.isNull = false) :
    0 < v.length Real.sqrt ∧ (v.normal Real.sqrt).length Real.sqrt = 1 ∧
      (v.normal Real.sqrt).operatorMulAssign (v.length Real.sqrt) = v := by
  have hpos : 0 < v.length Real.sqrt := by
    rcases h with h | h
    · exact h
    · exact v.length_pos_of_not_isNull h
  have hne : v.length Real.sqrt ≠ 0 := ne_of_gt hpos
  refine ⟨hpos, ?_, ?_⟩
  · have h1 : (v.x / v.length Real.sqrt) ^ 2 + (v.y / v.length Real.sqrt) ^ 2 +
        (v.z / v.length Real.sqrt) ^ 2 = 1 := by
      have := v.length_sq
      field_simp
      linarith
    show Real.sqrt ((v.x / v.length Real.sqrt) ^ 2 + (v.y / v.length Real.sqrt) ^ 2 +
        (v.z / v.length Real.sqrt) ^ 2) = 1
    rw [h1, Real.sqrt_one]
  · cases v with
    | mk x y z =>
      simp only [V3D.normal, V3D.operatorMulAssign, V3D.mk.injEq]
      refine ⟨?_, ?_, ?_⟩ <;> field_simp

/-- The vector `(3,4,0)` for C10. -/
theorem normal_spec_witness :
    0 < (V3D.mk (3 : ℝ) 4 0).length Real.sqrt ∧
      ((V3D.mk (3 : ℝ) 4 0).normal Real.sqrt).length Real.sqrt = 1 ∧
      ((V3D.mk (3 : ℝ) 4 0).normal Real.sqrt).operatorMulAssign
        ((V3D.mk (3 : ℝ) 4 0).length Real.sqrt) = V3D.mk 3 4 0 :=
  normal_spec _ (Or.inr (by
    rw [Bool.eq_false_iff, Ne, V3D.isNull_iff]; norm_num [Tolerance_small, abs_lt]))

/-! ## C7: exactly parallel segments -/

theorem haveCommonEndpoint_false_iff (p1 p2 p3 p4 : P3D ℝ) :
    DistanceCalculator.haveCommonEndpoint p1 p2 p3 p4 = false ↔
      p1.operatorEq p3 = false ∧ p1.operatorEq p4 = false ∧
        p2.operatorEq p3 = false ∧ p2.operatorEq p4 = false := by
  simp [DistanceCalculator.haveCommonEndpoint, and_assoc]

theorem P3D.operatorEq_false_iff (p q : P3D ℝ) :
    p.operatorEq q = false ↔
      ¬ (|p.x - q.x| < Tolerance_small ∧ |p.y - q.y| < Tolerance_small ∧
        |p.z - q.z| < Tolerance_small) := by
  rw [← P3D.operatorEq_iff]; simp

theorem V3D.isNull_false_iff (v : V3D ℝ) :
    v.isNull = false ↔
      ¬ (|v.x| < Tolerance_small ∧ |v.y| < Tolerance_small ∧ |v.z| < Tolerance_small) := by
  rw [← V3D.isNull_iff]; simp

/-- A straight path that starts in the closed unit square and ends outside
the open unit square meets the boundary of the square. -/
theorem exists_boundary_on_path (s t ds dt : ℝ)
    (hs0 : 0 ≤ s) (hs1 : s ≤ 1) (ht0 : 0 ≤ t) (ht1 : t ≤ 1)
    (hout : ¬ (0 < s + ds ∧ s + ds < 1 ∧ 0 < t + dt ∧ t + dt < 1)) :
    ∃ m : ℝ, 0 ≤ m ∧ m ≤ 1 ∧
      0 ≤ s + m * ds ∧ s + m * ds ≤ 1 ∧ 0 ≤ t + m * dt ∧ t + m * dt ≤ 1 ∧
      (s + m * ds = 0 ∨ s + m * ds = 1 ∨ t + m * dt = 0 ∨ t + m * dt = 1) := by
  let f : ℝ → ℝ := fun m =>
    min (min (s + m * ds) (1 - (s + m * ds))) (min (t + m * dt) (1 - (t + m * dt)))
  have hf : ContinuousOn f (Set.Icc 0 1) := by
    apply Continuous.continuousOn
    show Continuous fun m : ℝ =>
      min (min (s + m * ds) (1 - (s + m * ds))) (min (t + m * dt) (1 - (t + m * dt)))
    fun_prop
  have hf0 : 0 ≤ f 0 := by
    show 0 ≤ min (min (s + 0 * ds) (1 - (s + 0 * ds))) (min (t + 0 * dt) (1 - (t + 0 * dt)))
    simp only [zero_mul, add_zero]
    exact le_min (le_min hs0 (by linarith)) (le_min ht0 (by linarith))
  have hf1 : f 1 ≤ 0 := by
    show min (min (s + 1 * ds) (1 - (s + 1 * ds))) (min (t + 1 * dt) (1 - (t + 1 * dt))) ≤ 0
    simp only [one_mul]
    by_contra hlt
    push_neg at hlt
    apply hout
    have h1 := lt_min_iff.1 hlt
    have h2 := lt_min_iff.1 h1.1
    have h3 := lt_min_iff.1 h1.2
    exact ⟨h2.1, by linarith [h2.2], h3.1, by linarith [h3.2]⟩
  have hmem : (0 : ℝ) ∈ Set.Icc (f 1) (f 0) := ⟨hf1, hf0⟩
  obtain ⟨m, hm, hfm⟩ := intermediate_value_Icc' (zero_le_one) hf hmem
  have hfm' : min (min (s + m * ds) (1 - (s + m * ds)))
      (min (t + m * dt) (1 - (t + m * dt))) = 0 := hfm
  have hge : 0 ≤ min (min (s + m * ds) (1 - (s + m * ds)))
      (min (t + m * dt) (1 - (t + m * dt))) := le_of_eq hfm'.symm
  have h1 := le_min_iff.1 hge
  have h2 := le_min_iff.1 h1.1
  have h3 := le_min_iff.1 h1.2
  refine ⟨m, hm.1, hm.2, h2.1, by linarith [h2.2], h3.1, by linarith [h3.2], ?_⟩
  rcases min_choice (min (s + m * ds) (1 - (s + m * ds)))
      (min (t + m * dt) (1 - (t + m * dt))) with h | h
  · rw [h] at hfm'
    rcases min_choice (s + m * ds) (1 - (s + m * ds)) with h' | h'
    · rw [h'] at hfm'; left; exact hfm'
    · rw [h'] at hfm'; right; left; linarith
  · rw [h] at hfm'
    rcases min_choice (t + m * dt) (1 - (t + m * dt)) with h' | h'
    · rw [h'] at hfm'; right; right; left; exact hfm'
    · rw [h'] at hfm'; right; right; right; linarith

theorem segmentPoint_zero (a b : P3D ℝ) : segmentPoint a b 0 = a := by
  cases a; simp [segmentPoint]

theorem segmentPoint_one (a b : P3D ℝ) : segmentPoint a b 1 = b := by
  cases b; simp [segmentPoint]

theorem euclideanDistance_comm (p q : P3D ℝ) :
    euclideanDistance Real.sqrt p q = euclideanDistance Real.sqrt q p := by
  unfold euclideanDistance
  congr 1
  ring

/-- The squared length of the direction vector of a segment whose direction
vector is not null is positive. -/
theorem sumSq_pos_of_not_isNull (a b : P3D ℝ) (h : (V3D.fromPoints a b).isNull = false) :
    0 < (b.x - a.x) ^ 2 + (b.y - a.y) ^ 2 + (b.z - a.z) ^ 2 := by
  have := (V3D.fromPoints a b).length_pos_of_not_isNull h
  exact Real.sqrt_pos.1 this

/-- The value of `calculateMinDistanceBetweenEnds` is the distance between a
point of the first segment and a point of the second. -/
theorem calculateMinDistanceBetweenEnds_mem (p1 p2 p3 p4 : P3D ℝ)
    (h12 : 0 < (p2.x - p1.x) ^ 2 + (p2.y - p1.y) ^ 2 + (p2.z - p1.z) ^ 2)
    (h34 : 0 < (p4.x - p3.x) ^ 2 + (p4.y - p3.y) ^ 2 + (p4.z - p3.z) ^ 2) :
    DistanceCalculator.calculateMinDistanceBetweenEnds Real.sqrt p1 p2 p3 p4 ∈
      segmentSegmentDistances Real.sqrt p1 p2 p3 p4 := by
  have m1 : p1.distanceToLineSegment Real.sqrt p3 p4 ∈
      segmentSegmentDistances Real.sqrt p1 p2 p3 p4 := by
    obtain ⟨t, ht0, ht1, ht⟩ := (isLeast_distanceToLineSegment_of_pos p1 p3 p4 h34).1
    exact ⟨0, t, le_refl _, zero_le_one, ht0, ht1, by rw [segmentPoint_zero]; exact ht⟩
  have m2 : p2.distanceToLineSegment Real.sqrt p3 p4 ∈
      segmentSegmentDistances Real.sqrt p1 p2 p3 p4 := by
    obtain ⟨t, ht0, ht1, ht⟩ := (isLeast_distanceToLineSegment_of_pos p2 p3 p4 h34).1
    exact ⟨1, t, zero_le_one, le_refl _, ht0, ht1, by rw [segmentPoint_one]; exact ht⟩
  have m3 : p3.distanceToLineSegment Real.sqrt p1 p2 ∈
      segmentSegmentDistances Real.sqrt p1 p2 p3 p4 := by
    obtain ⟨s, hs0, hs1, hs⟩ := (isLeast_distanceToLineSegment_of_pos p3 p1 p2 h12).1
    exact ⟨s, 0, hs0, hs1, le_refl _, zero_le_one, by
      rw [segmentPoint_zero, euclideanDistance_comm]; exact hs⟩
  have m4 : p4.distanceToLineSegment Real.sqrt p1 p2 ∈
      segmentSegmentDistances Real.sqrt p1 p2 p3 p4 := by
    obtain ⟨s, hs0, hs1, hs⟩ := (isLeast_distanceToLineSegment_of_pos p4 p1 p2 h12).1
    exact ⟨s, 1, hs0, hs1, zero_le_one, le_refl _, by
      rw [segmentPoint_one, euclideanDistance_comm]; exact hs⟩
  unfold DistanceCalculator.calculateMinDistanceBetweenEnds
  simp only
  rcases min_choice
      (min (p1.distanceToLineSegment Real.sqrt p3 p4) (p2.distanceToLineSegment Real.sqrt p3 p4))
      (min (p3.distanceToLineSegment Real.sqrt p1 p2) (p4.distanceToLineSegment Real.sqrt p1 p2))
    with h | h
  · rw [h]
    rcases min_choice (p1.distanceToLineSegment Real.sqrt p3 p4)
        (p2.distanceToLineSegment Real.sqrt p3 p4) with h' | h'
    · rw [h']; exact m1
    · rw [h']; exact m2
  · rw [h]
    rcases min_choice (p3.distanceToLineSegment Real.sqrt p1 p2)
        (p4.distanceToLineSegment Real.sqrt p1 p2) with h' | h'
    · rw [h']; exact m3
    · rw [h']; exact m4

/-- The value of `calculateMinDistanceBetweenEnds` is below the distance of
every pair of points of the two segments one of which is an end point. -/
theorem calculateMinDistanceBetweenEnds_le_boundary (p1 p2 p3 p4 : P3D ℝ)
    (h12 : 0 < (p2.x - p1.x) ^ 2 + (p2.y - p1.y) ^ 2 + (p2.z - p1.z) ^ 2)
    (h34 : 0 < (p4.x - p3.x) ^ 2 + (p4.y - p3.y) ^ 2 + (p4.z - p3.z) ^ 2)
    (s t : ℝ) (hs0 : 0 ≤ s) (hs1 : s ≤ 1) (ht0 : 0 ≤ t) (ht1 : t ≤ 1)
    (hb : s = 0 ∨ s = 1 ∨ t = 0 ∨ t = 1) :
    DistanceCalculator.calculateMinDistanceBetweenEnds Real.sqrt p1 p2 p3 p4 ≤
      euclideanDistance Real.sqrt (segmentPoint p1 p2 s) (segmentPoint p3 p4 t) := by
  unfold DistanceCalculator.calculateMinDistanceBetweenEnds
  simp only
  rcases hb with h | h | h | h
  · subst h
    rw [segmentPoint_zero]
    refine le_trans (min_le_left _ _) (le_trans (min_le_left _ _) ?_)
    exact (isLeast_distanceToLineSegment_of_pos p1 p3 p4 h34).2 ⟨t, ht0, ht1, rfl⟩
  · subst h
    rw [segmentPoint_one]
    refine le_trans (min_le_left _ _) (le_trans (min_le_right _ _) ?_)
    exact (isLeast_distanceToLineSegment_of_pos p2 p3 p4 h34).2 ⟨t, ht0, ht1, rfl⟩
  · subst h
    rw [segmentPoint_zero, euclideanDistance_comm]
    refine le_trans (min_le_right _ _) (le_trans (min_le_left _ _) ?_)
    exact (isLeast_distanceToLineSegment_of_pos p3 p1 p2 h12).2 ⟨s, hs0, hs1, rfl⟩
  · subst h
    rw [segmentPoint_one, euclideanDistance_comm]
    refine le_trans (min_le_right _ _) (le_trans (min_le_right _ _) ?_)
    exact (isLeast_distanceToLineSegment_of_pos p4 p1 p2 h12).2 ⟨s, hs0, hs1, rfl⟩

/-- For exactly parallel segments the least of the four end-point distances
is the least distance between the two segments. -/
theorem calculateMinDistanceBetweenEnds_isLeast_parallel (p1 p2 p3 p4 : P3D ℝ)
    (h12 : 0 < (p2.x - p1.x) ^ 2 + (p2.y - p1.y) ^ 2 + (p2.z - p1.z) ^ 2)
    (h34 : 0 < (p4.x - p3.x) ^ 2 + (p4.y - p3.y) ^ 2 + (p4.z - p3.z) ^ 2)
    (hpar : (V3D.fromPoints p1 p2).crossProduct (V3D.fromPoints p3 p4) = V3D.mk 0 0 0) :
    IsLeast (segmentSegmentDistances Real.sqrt p1 p2 p3 p4)
      (DistanceCalculator.calculateMinDistanceBetweenEnds Real.sqrt p1 p2 p3 p4) := by
  refine ⟨calculateMinDistanceBetweenEnds_mem p1 p2 p3 p4 h12 h34, ?_⟩
  rintro d ⟨s, t, hs0, hs1, ht0, ht1, rfl⟩
  simp only [V3D.crossProduct, V3D.fromPoints, V3D.mk.injEq] at hpar
  obtain ⟨hx, hy, hz⟩ := hpar
  set S := (p2.x - p1.x) ^ 2 + (p2.y - p1.y) ^ 2 + (p2.z - p1.z) ^ 2 with hS
  set k := ((p2.x - p1.x) * (p4.x - p3.x) + (p2.y - p1.y) * (p4.y - p3.y) +
    (p2.z - p1.z) * (p4.z - p3.z)) / S with hk
  have hSne : S ≠ 0 := ne_of_gt h12
  have kx : k * (p2.x - p1.x) = p4.x - p3.x := by
    rw [hk]; field_simp; rw [hS]; linear_combination (p2.y - p1.y) * hz - (p2.z - p1.z) * hy
  have ky : k * (p2.y - p1.y) = p4.y - p3.y := by
    rw [hk]; field_simp; rw [hS]; linear_combination (p2.z - p1.z) * hx - (p2.x - p1.x) * hz
  have kz : k * (p2.z - p1.z) = p4.z - p3.z := by
    rw [hk]; field_simp; rw [hS]; linear_combination (p2.x - p1.x) * hy - (p2.y - p1.y) * hx
  obtain ⟨m, hm0, hm1, hs0', hs1', ht0', ht1', hb⟩ :=
    exists_boundary_on_path s t k 1 hs0 hs1 ht0 ht1 (by
      rintro ⟨_, _, _, h⟩
      linarith)
  have hle := calculateMinDistanceBetweenEnds_le_boundary p1 p2 p3 p4 h12 h34
    (s + m * k) (t + m * 1) hs0' hs1' ht0' ht1' hb
  refine le_trans hle (le_of_eq ?_)
  unfold euclideanDistance segmentPoint
  simp only
  congr 1
  have ex : p1.x + (s + m * k) * (p2.x - p1.x) - (p3.x + (t + m * 1) * (p4.x - p3.x)) =
      p1.x + s * (p2.x - p1.x) - (p3.x + t * (p4.x - p3.x)) := by
    linear_combination m * kx
  have ey : p1.y + (s + m * k) * (p2.y - p1.y) - (p3.y + (t + m * 1) * (p4.y - p3.y)) =
      p1.y + s * (p2.y - p1.y) - (p3.y + t * (p4.y - p3.y)) := by
    linear_combination m * ky
  have ez : p1.z + (s + m * k) * (p2.z - p1.z) - (p3.z + (t + m * 1) * (p4.z - p3.z)) =
      p1.z + s * (p2.z - p1.z) - (p3.z + t * (p4.z - p3.z)) := by
    linear_combination m * kz
  rw [ex, ey, ez]

theorem V3D.isNull_zero : (V3D.mk (0 : ℝ) 0 0).isNull = true := by
  rw [V3D.isNull_iff]; simp [Tolerance_small_pos]

/-- In the parallel branch `calculate()` is `calculateMinDistanceBetweenEnds`. -/
theorem calculate_eq_of_cross_isNull (p1 p2 p3 p4 : P3D ℝ)
    (hce : DistanceCalculator.haveCommonEndpoint p1 p2 p3 p4 = false)
    (h12 : (V3D.fromPoints p1 p2).isNull = false)
    (h34 : (V3D.fromPoints p3 p4).isNull = false)
    (hc : ((V3D.fromPoints p1 p2).crossProduct (V3D.fromPoints p3 p4)).isNull = true) :
    (DistanceCalculator.mk p1 p2 p3 p4).calculate Real.sqrt =
      DistanceCalculator.calculateMinDistanceBetweenEnds Real.sqrt p1 p2 p3 p4 := by
  simp [DistanceCalculator.calculate, hce, h12, h34, hc]

/-- C7: when no end point is tolerance-shared, both direction vectors are not
null and their cross product is exactly the zero vector, `calculate()` returns
the minimum of the four end-point-to-opposite-segment distances, and this
value is the minimum Euclidean distance between the two closed segments. -/
theorem calculate_parallel (p1 p2 p3 p4 : P3D ℝ)
    (hce : DistanceCalculator.haveCommonEndpoint p1 p2 p3 p4 = false)
    (h12 : (V3D.fromPoints p1 p2).isNull = false)
    (h34 : (V3D.fromPoints p3 p4).isNull = false)
    (hpar : (V3D.fromPoints p1 p2).crossProduct (V3D.fromPoints p3 p4) = V3D.mk 0 0 0) :
    (DistanceCalculator.mk p1 p2 p3 p4).calculate Real.sqrt =
        DistanceCalculator.calculateMinDistanceBetweenEnds Real.sqrt p1 p2 p3 p4 ∧
      IsLeast (segmentSegmentDistances Real.sqrt p1 p2 p3 p4)
        ((DistanceCalculator.mk p1 p2 p3 p4).calculate Real.sqrt) := by
  have hc : ((V3D.fromPoints p1 p2).crossProduct (V3D.fromPoints p3 p4)).isNull = true := by
    rw [hpar]; exact V3D.isNull_zero
  have he := calculate_eq_of_cross_isNull p1 p2 p3 p4 hce h12 h34 hc
  refine ⟨he, ?_⟩
  rw [he]
  exact calculateMinDistanceBetweenEnds_isLeast_parallel p1 p2 p3 p4
    (sumSq_pos_of_not_isNull p1 p2 h12) (sumSq_pos_of_not_isNull p3 p4 h34) hpar

/-- The spec's parallel example `(0,0,0)-(1,0,0)`, `(0,1,0)-(1,1,0)` returns `1`. -/
theorem calculate_example_parallel :
    (DistanceCalculator.mk (P3D.mk 0 0 0) (P3D.mk 1 0 0) (P3D.mk 0 1 0)
      (P3D.mk 1 1 0)).calculate Real.sqrt = (1 : ℝ) := by
  have hce : DistanceCalculator.haveCommonEndpoint (P3D.mk (0 : ℝ) 0 0) (P3D.mk 1 0 0)
      (P3D.mk 0 1 0) (P3D.mk 1 1 0) = false := by
    rw [haveCommonEndpoint_false_iff]
    simp only [P3D.operatorEq_false_iff]
    norm_num [Tolerance_small, abs_lt]
  rw [calculate_eq_of_cross_isNull _ _ _ _ hce
    (by rw [V3D.isNull_false_iff]; norm_num [V3D.fromPoints, Tolerance_small, abs_lt])
    (by rw [V3D.isNull_false_iff]; norm_num [V3D.fromPoints, Tolerance_small, abs_lt])
    (by rw [V3D.isNull_iff]; norm_num [V3D.fromPoints, V3D.crossProduct, Tolerance_small])]
  norm_num [DistanceCalculator.calculateMinDistanceBetweenEnds, P3D.distanceToLineSegment,
    V3D.fromPoints, V3D.dotProduct, V3D.crossProduct, V3D.length]

/-- The spec's parallel example for C7. -/
theorem calculate_parallel_witness :
    (DistanceCalculator.mk (P3D.mk 0 0 0) (P3D.mk 1 0 0) (P3D.mk 0 1 0)
        (P3D.mk 1 1 0)).calculate Real.sqrt =
        DistanceCalculator.calculateMinDistanceBetweenEnds Real.sqrt
          (P3D.mk (0 : ℝ) 0 0) (P3D.mk 1 0 0) (P3D.mk 0 1 0) (P3D.mk 1 1 0) ∧
      IsLeast (segmentSegmentDistances Real.sqrt
          (P3D.mk (0 : ℝ) 0 0) (P3D.mk 1 0 0) (P3D.mk 0 1 0) (P3D.mk 1 1 0))
        ((DistanceCalculator.mk (P3D.mk 0 0 0) (P3D.mk 1 0 0) (P3D.mk 0 1 0)
          (P3D.mk 1 1 0)).calculate Real.sqrt) :=
  calculate_parallel _ _ _ _
    (by
      rw [haveCommonEndpoint_false_iff]
      simp only [P3D.operatorEq_false_iff]
      norm_num [Tolerance_small, abs_lt])
    (by rw [V3D.isNull_false_iff]; norm_num [V3D.fromPoints, Tolerance_small, abs_lt])
    (by rw [V3D.isNull_false_iff]; norm_num [V3D.fromPoints, Tolerance_small, abs_lt])
    (by norm_num [V3D.fromPoints, V3D.crossProduct])

/-! ## The plane of the skew branch and the projection onto it -/

theorem V3D.normal_sumSq (v : V3D ℝ) (h : 0 < v.length Real.sqrt) :
    (v.normal Real.sqrt).x ^ 2 + (v.normal Real.sqrt).y ^ 2 + (v.normal Real.sqrt).z ^ 2 = 1 := by
  have hne : v.length Real.sqrt ≠ 0 := ne_of_gt h
  have := v.length_sq
  simp only [V3D.normal]
  field_simp
  linarith

theorem Plane3D.fromPointNormal_sumSq (p : P3D ℝ) (n : V3D ℝ) (h : 0 < n.length Real.sqrt) :
    (Plane3D.fromPointNormal Real.sqrt p n).A ^ 2 + (Plane3D.fromPointNormal Real.sqrt p n).B ^ 2 +
      (Plane3D.fromPointNormal Real.sqrt p n).C ^ 2 = 1 :=
  V3D.normal_sumSq n h

theorem Plane3D.distanceToPoint_of_unit (pl : Plane3D ℝ) (q : P3D ℝ)
    (hu : pl.A ^ 2 + pl.B ^ 2 + pl.C ^ 2 = 1) :
    pl.distanceToPoint Real.sqrt q = |pl.value q| := by
  simp [Plane3D.distanceToPoint, Plane3D.value, hu]

theorem Plane3D.isOn_iff (pl : Plane3D ℝ) (q : P3D ℝ) :
    pl.isOn q = true ↔ |pl.value q| < Tolerance_small := by
  simp [Plane3D.isOn, Plane3D.value]

theorem Plane3D.normal_of_unit (pl : Plane3D ℝ) (hu : pl.A ^ 2 + pl.B ^ 2 + pl.C ^ 2 = 1) :
    pl.normal Real.sqrt = V3D.mk pl.A pl.B pl.C := by
  simp [Plane3D.normal, V3D.normal, V3D.length, hu]

theorem Plane3D.value_operatorPlus (pl : Plane3D ℝ) (q : P3D ℝ) (c : ℝ)
    (hu : pl.A ^ 2 + pl.B ^ 2 + pl.C ^ 2 = 1) :
    pl.value (q.operatorPlus ((V3D.mk pl.A pl.B pl.C).operatorMulAssign c)) = pl.value q + c := by
  simp only [Plane3D.value, P3D.operatorPlus, V3D.operatorMulAssign]
  linear_combination c * hu

theorem abs_add_projectionShift_lt (e : ℝ) : |e + projectionShift e| < Tolerance_small := by
  unfold projectionShift
  split_ifs with h
  · exact h
  · have hpos : 0 < e := by
      by_contra hle
      push_neg at hle
      apply h
      rw [abs_of_nonpos hle]
      simp [Tolerance_small_pos]
    rw [abs_of_pos hpos]
    simp [Tolerance_small_pos]

theorem P3D.operatorMinus_eq (q : P3D ℝ) (v : V3D ℝ) (c : ℝ) :
    q.operatorMinus (v.operatorMulAssign c) = q.operatorPlus (v.operatorMulAssign (-c)) := by
  simp only [P3D.operatorMinus, P3D.operatorPlus, V3D.operatorMulAssign, P3D.mk.injEq]
  refine ⟨by ring, by ring, by ring⟩

/-- On a plane with unit normal `projectPointOnPlane` moves the point along
the normal by `projectionShift` of the plane value. -/
theorem projectPointOnPlane_of_unit (pl : Plane3D ℝ) (q : P3D ℝ)
    (hu : pl.A ^ 2 + pl.B ^ 2 + pl.C ^ 2 = 1) :
    DistanceCalculator.projectPointOnPlane Real.sqrt q pl =
      q.operatorPlus ((V3D.mk pl.A pl.B pl.C).operatorMulAssign (projectionShift (pl.value q))) := by
  unfold DistanceCalculator.projectPointOnPlane
  simp only [Plane3D.normal_of_unit pl hu, Plane3D.distanceToPoint_of_unit pl q hu]
  by_cases h : |pl.value q + abs (pl.value q)| < Tolerance_small
  · have hon : pl.isOn (q.operatorPlus
        ((V3D.mk pl.A pl.B pl.C).operatorMulAssign |pl.value q|)) = true := by
      rw [Plane3D.isOn_iff, Plane3D.value_operatorPlus pl q _ hu]; exact h
    simp [hon, projectionShift, h]
  · have hon : pl.isOn (q.operatorPlus
        ((V3D.mk pl.A pl.B pl.C).operatorMulAssign |pl.value q|)) = false := by
      rw [Bool.eq_false_iff, Ne, Plane3D.isOn_iff, Plane3D.value_operatorPlus pl q _ hu]; exact h
    simp only [hon, projectionShift, h]
    simp [P3D.operatorMinus_eq]

theorem isOn_projectPointOnPlane (pl : Plane3D ℝ) (q : P3D ℝ)
    (hu : pl.A ^ 2 + pl.B ^ 2 + pl.C ^ 2 = 1) :
    pl.isOn (DistanceCalculator.projectPointOnPlane Real.sqrt q pl) = true := by
  rw [projectPointOnPlane_of_unit pl q hu, Plane3D.isOn_iff, Plane3D.value_operatorPlus pl q _ hu]
  exact abs_add_projectionShift_lt _

/-! ## The orientation test -/

theorem doLineSegmentsIntersect_of_isOn (p1 p2 p3 p4 : P3D ℝ) (dir : V3D ℝ)
    (h1 : (Plane3D.fromPointNormal Real.sqrt p1 dir).isOn p1 = true)
    (h2 : (Plane3D.fromPointNormal Real.sqrt p1 dir).isOn p2 = true)
    (h3 : (Plane3D.fromPointNormal Real.sqrt p1 dir).isOn p3 = true)
    (h4 : (Plane3D.fromPointNormal Real.sqrt p1 dir).isOn p4 = true) :
    DistanceCalculator.doLineSegmentsIntersect Real.sqrt p1 p2 p3 p4 dir =
      (DistanceCalculator.haveCommonEndpoint p1 p2 p3 p4 ||
        DistanceCalculator.orientationTest p1 p2 p3 p4 dir) := by
  unfold DistanceCalculator.doLineSegmentsIntersect DistanceCalculator.orientationTest
  simp only [h1, h2, h3, h4]
  cases DistanceCalculator.haveCommonEndpoint p1 p2 p3 p4 <;> simp

/-- The orientation test does not see displacements along `dir`. -/
theorem orientationTest_shift (p1 p2 p3 p4 : P3D ℝ) (n : V3D ℝ) (L c2 c3 c4 : ℝ) :
    DistanceCalculator.orientationTest p1
      (p2.operatorPlus ((V3D.mk (n.x / L) (n.y / L) (n.z / L)).operatorMulAssign c2))
      (p3.operatorPlus ((V3D.mk (n.x / L) (n.y / L) (n.z / L)).operatorMulAssign c3))
      (p4.operatorPlus ((V3D.mk (n.x / L) (n.y / L) (n.z / L)).operatorMulAssign c4)) n =
    DistanceCalculator.orientationTest p1 p2 p3 p4 n := by
  simp only [DistanceCalculator.orientationTest, V3D.fromPoints, V3D.crossProduct,
    V3D.dotProduct, P3D.operatorPlus, V3D.operatorMulAssign]
  congr 2
  · congr 1
    congr 1
    · ring
    · ring
  · congr 1
    congr 1
    · ring
    · ring

theorem orientationTest_cross (p1 p2 p3 p4 : P3D ℝ)
    (hN : 0 < ((V3D.fromPoints p1 p2).crossProduct (V3D.fromPoints p3 p4)).dotProduct
      ((V3D.fromPoints p1 p2).crossProduct (V3D.fromPoints p3 p4))) :
    DistanceCalculator.orientationTest p1 p2 p3 p4
        ((V3D.fromPoints p1 p2).crossProduct (V3D.fromPoints p3 p4)) = true ↔
      (0 < ((V3D.fromPoints p3 p4).crossProduct (V3D.fromPoints p3 p1)).dotProduct
          ((V3D.fromPoints p1 p2).crossProduct (V3D.fromPoints p3 p4)) ∧
        ((V3D.fromPoints p3 p4).crossProduct (V3D.fromPoints p3 p1)).dotProduct
          ((V3D.fromPoints p1 p2).crossProduct (V3D.fromPoints p3 p4)) <
          ((V3D.fromPoints p1 p2).crossProduct (V3D.fromPoints p3 p4)).dotProduct
            ((V3D.fromPoints p1 p2).crossProduct (V3D.fromPoints p3 p4))) ∧
      (0 < ((V3D.fromPoints p1 p2).crossProduct (V3D.fromPoints p3 p1)).dotProduct
          ((V3D.fromPoints p1 p2).crossProduct (V3D.fromPoints p3 p4)) ∧
        ((V3D.fromPoints p1 p2).crossProduct (V3D.fromPoints p3 p1)).dotProduct
          ((V3D.fromPoints p1 p2).crossProduct (V3D.fromPoints p3 p4)) <
          ((V3D.fromPoints p1 p2).crossProduct (V3D.fromPoints p3 p4)).dotProduct
            ((V3D.fromPoints p1 p2).crossProduct (V3D.fromPoints p3 p4))) := by
  set n := (V3D.fromPoints p1 p2).crossProduct (V3D.fromPoints p3 p4) with hn
  set N := n.dotProduct n with hNd
  set σ := ((V3D.fromPoints p3 p4).crossProduct (V3D.fromPoints p3 p1)).dotProduct n with hσ
  set τ := ((V3D.fromPoints p1 p2).crossProduct (V3D.fromPoints p3 p1)).dotProduct n with hτ
  have e2 : ((V3D.fromPoints p3 p4).crossProduct (V3D.fromPoints p3 p2)).dotProduct n = σ - N := by
    simp only [hσ, hNd, hn, V3D.fromPoints, V3D.crossProduct, V3D.dotProduct]; ring
  have e3 : ((V3D.fromPoints p1 p2).crossProduct (V3D.fromPoints p1 p3)).dotProduct n = -τ := by
    simp only [hτ, hn, V3D.fromPoints, V3D.crossProduct, V3D.dotProduct]; ring
  have e4 : ((V3D.fromPoints p1 p2).crossProduct (V3D.fromPoints p1 p4)).dotProduct n = N - τ := by
    simp only [hτ, hNd, hn, V3D.fromPoints, V3D.crossProduct, V3D.dotProduct]; ring
  unfold DistanceCalculator.orientationTest
  simp only [Bool.and_eq_true, decide_eq_true_eq]
  rw [← hσ, e2, e3, e4]
  constructor
  · rintro ⟨h1, h2⟩
    rw [mul_neg_iff] at h1 h2
    refine ⟨?_, ?_⟩
    · rcases h1 with ⟨ha, hb⟩ | ⟨ha, hb⟩
      · exact ⟨ha, by linarith⟩
      · exfalso; linarith
    · rcases h2 with ⟨ha, hb⟩ | ⟨ha, hb⟩
      · exfalso; linarith
      · exact ⟨by linarith, by linarith⟩
  · rintro ⟨⟨h1, h2⟩, h3, h4⟩
    constructor
    · exact mul_neg_of_pos_of_neg h1 (by linarith)
    · exact mul_neg_of_neg_of_pos (by linarith) (by linarith)

/-! ## Separation of two non-parallel lines -/

theorem euclideanDistance_segmentPoint (p1 p2 p3 p4 : P3D ℝ) (s t : ℝ) :
    euclideanDistance Real.sqrt (segmentPoint p1 p2 s) (segmentPoint p3 p4 t) =
      Real.sqrt (separationSq (V3D.fromPoints p1 p2) (V3D.fromPoints p3 p4)
        (V3D.fromPoints p3 p1) s t) := by
  unfold euclideanDistance segmentPoint separationSq V3D.fromPoints
  congr 1
  simp only
  ring

/-- With `n = a × b`: `|n|^4 |w + s a - t b|^2` splits into the part along `n`
and the part in the plane of `a` and `b`. -/
theorem separationSq_identity (a b w : V3D ℝ) (s t : ℝ) :
    ((a.crossProduct b).dotProduct (a.crossProduct b)) ^ 2 * separationSq a b w s t =
      (a.crossProduct b).dotProduct (a.crossProduct b) * (w.dotProduct (a.crossProduct b)) ^ 2 +
      separationSq a b (V3D.mk 0 0 0)
        ((a.crossProduct b).dotProduct (a.crossProduct b) * s -
          (b.crossProduct w).dotProduct (a.crossProduct b))
        ((a.crossProduct b).dotProduct (a.crossProduct b) * t -
          (a.crossProduct w).dotProduct (a.crossProduct b)) := by
  simp only [separationSq, V3D.crossProduct, V3D.dotProduct]
  ring

theorem separationSq_nonneg (a b w : V3D ℝ) (s t : ℝ) : 0 ≤ separationSq a b w s t := by
  unfold separationSq; positivity

theorem separationSq_zero_smul (a b : V3D ℝ) (c u v : ℝ) :
    separationSq a b (V3D.mk 0 0 0) (c * u) (c * v) =
      c ^ 2 * separationSq a b (V3D.mk 0 0 0) u v := by
  simp only [separationSq]
  ring

/-- Every separation of two non-parallel lines is at least the separation
along the common normal `n = a × b`. -/
theorem separationSq_ge_normal (a b w : V3D ℝ) (s t : ℝ)
    (hN : 0 < (a.crossProduct b).dotProduct (a.crossProduct b)) :
    (w.dotProduct (a.crossProduct b)) ^ 2 / (a.crossProduct b).dotProduct (a.crossProduct b) ≤
      separationSq a b w s t := by
  rw [div_le_iff₀ hN]
  have h1 := separationSq_identity a b w s t
  have h2 := separationSq_nonneg a b (V3D.mk 0 0 0)
    ((a.crossProduct b).dotProduct (a.crossProduct b) * s -
      (b.crossProduct w).dotProduct (a.crossProduct b))
    ((a.crossProduct b).dotProduct (a.crossProduct b) * t -
      (a.crossProduct w).dotProduct (a.crossProduct b))
  have h3 : (a.crossProduct b).dotProduct (a.crossProduct b) *
      ((w.dotProduct (a.crossProduct b)) ^ 2) ≤
      (a.crossProduct b).dotProduct (a.crossProduct b) *
        (separationSq a b w s t * (a.crossProduct b).dotProduct (a.crossProduct b)) := by
    nlinarith
  exact le_of_mul_le_mul_left h3 hN

/-- The separation along the common normal is attained at the parameters
`s = σ / N`, `t = τ / N`. -/
theorem separationSq_at_feet (a b w : V3D ℝ)
    (hN : 0 < (a.crossProduct b).dotProduct (a.crossProduct b)) :
    separationSq a b w
      ((b.crossProduct w).dotProduct (a.crossProduct b) /
        (a.crossProduct b).dotProduct (a.crossProduct b))
      ((a.crossProduct w).dotProduct (a.crossProduct b) /
        (a.crossProduct b).dotProduct (a.crossProduct b)) =
    (w.dotProduct (a.crossProduct b)) ^ 2 / (a.crossProduct b).dotProduct (a.crossProduct b) := by
  have hne : (a.crossProduct b).dotProduct (a.crossProduct b) ≠ 0 := ne_of_gt hN
  have h1 := separationSq_identity a b w
      ((b.crossProduct w).dotProduct (a.crossProduct b) /
        (a.crossProduct b).dotProduct (a.crossProduct b))
      ((a.crossProduct w).dotProduct (a.crossProduct b) /
        (a.crossProduct b).dotProduct (a.crossProduct b))
  rw [mul_div_cancel₀ _ hne, mul_div_cancel₀ _ hne, sub_self, sub_self] at h1
  have h0 : separationSq a b (V3D.mk 0 0 0) 0 0 = 0 := by simp [separationSq]
  rw [h0, add_zero] at h1
  rw [eq_div_iff hne]
  have h2 : (a.crossProduct b).dotProduct (a.crossProduct b) *
      (separationSq a b w
        ((b.crossProduct w).dotProduct (a.crossProduct b) /
          (a.crossProduct b).dotProduct (a.crossProduct b))
        ((a.crossProduct w).dotProduct (a.crossProduct b) /
          (a.crossProduct b).dotProduct (a.crossProduct b)) *
        (a.crossProduct b).dotProduct (a.crossProduct b)) =
      (a.crossProduct b).dotProduct (a.crossProduct b) *
        (w.dotProduct (a.crossProduct b)) ^ 2 := by
    rw [← h1]; ring
  exact mul_left_cancel₀ hne h2

/-- Moving the parameters towards the feet of the common perpendicular does
not increase the separation. -/
theorem separationSq_towards_feet (a b w : V3D ℝ) (s t m : ℝ)
    (hN : 0 < (a.crossProduct b).dotProduct (a.crossProduct b))
    (hm0 : 0 ≤ m) (hm1 : m ≤ 1) :
    separationSq a b w
      (s + m * ((b.crossProduct w).dotProduct (a.crossProduct b) /
        (a.crossProduct b).dotProduct (a.crossProduct b) - s))
      (t + m * ((a.crossProduct w).dotProduct (a.crossProduct b) /
        (a.crossProduct b).dotProduct (a.crossProduct b) - t)) ≤
    separationSq a b w s t := by
  set N := (a.crossProduct b).dotProduct (a.crossProduct b) with hNdef
  set σ := (b.crossProduct w).dotProduct (a.crossProduct b) with hσ
  set τ := (a.crossProduct w).dotProduct (a.crossProduct b) with hτ
  have hne : N ≠ 0 := ne_of_gt hN
  have h1 := separationSq_identity a b w s t
  have h2 := separationSq_identity a b w (s + m * (σ / N - s)) (t + m * (τ / N - t))
  rw [← hNdef, ← hσ, ← hτ] at h1 h2
  have e1 : N * (s + m * (σ / N - s)) - σ = (1 - m) * (N * s - σ) := by
    field_simp; ring
  have e2 : N * (t + m * (τ / N - t)) - τ = (1 - m) * (N * t - τ) := by
    field_simp; ring
  rw [e1, e2, separationSq_zero_smul] at h2
  have hG := separationSq_nonneg a b (V3D.mk 0 0 0) (N * s - σ) (N * t - τ)
  have hm2 : (1 - m) ^ 2 ≤ 1 := by nlinarith
  have h3 : N ^ 2 * separationSq a b w (s + m * (σ / N - s)) (t + m * (τ / N - t)) ≤
      N ^ 2 * separationSq a b w s t := by
    rw [h1, h2]
    nlinarith
  exact le_of_mul_le_mul_left h3 (by positivity)

/-! ## The skew branch of `calculate()` -/

theorem V3D.length_eq_sqrt_dot (n : V3D ℝ) : n.length Real.sqrt = Real.sqrt (n.dotProduct n) := by
  unfold V3D.length V3D.dotProduct
  congr 1
  ring

theorem V3D.dot_self_pos_of_not_isNull (n : V3D ℝ) (h : n.isNull = false) :
    0 < n.dotProduct n := by
  have := n.length_pos_of_not_isNull h
  rw [V3D.length_eq_sqrt_dot] at this
  exact Real.sqrt_pos.1 this

theorem Plane3D.value_fromPointNormal_self (p : P3D ℝ) (n : V3D ℝ) :
    (Plane3D.fromPointNormal Real.sqrt p n).value p = 0 := by
  simp only [Plane3D.value, Plane3D.fromPointNormal]
  ring

theorem Plane3D.isOn_fromPointNormal_self (p : P3D ℝ) (n : V3D ℝ) :
    (Plane3D.fromPointNormal Real.sqrt p n).isOn p = true := by
  rw [Plane3D.isOn_iff, Plane3D.value_fromPointNormal_self]
  simp [Tolerance_small_pos]

/-- The plane value of a point `q` for the plane through `p` with normal `n`
is `n . (q - p) / |n|`. -/
theorem Plane3D.value_fromPointNormal (p q : P3D ℝ) (n : V3D ℝ) :
    (Plane3D.fromPointNormal Real.sqrt p n).value q =
      (V3D.fromPoints p q).dotProduct n / n.length Real.sqrt := by
  simp only [Plane3D.value, Plane3D.fromPointNormal, V3D.normal, V3D.fromPoints, V3D.dotProduct]
  ring

/-- Normal form of `calculate()` in the skew branch. -/
theorem calculate_eq_of_cross_not_isNull (p1 p2 p3 p4 : P3D ℝ)
    (hce : DistanceCalculator.haveCommonEndpoint p1 p2 p3 p4 = false)
    (h12 : (V3D.fromPoints p1 p2).isNull = false)
    (h34 : (V3D.fromPoints p3 p4).isNull = false)
    (hc : ((V3D.fromPoints p1 p2).crossProduct (V3D.fromPoints p3 p4)).isNull = false) :
    (DistanceCalculator.mk p1 p2 p3 p4).calculate Real.sqrt =
      if (DistanceCalculator.haveCommonEndpoint p1
            (DistanceCalculator.projectPointOnPlane Real.sqrt p2
              (Plane3D.fromPointNormal Real.sqrt p1
                ((V3D.fromPoints p1 p2).crossProduct (V3D.fromPoints p3 p4))))
            (DistanceCalculator.projectPointOnPlane Real.sqrt p3
              (Plane3D.fromPointNormal Real.sqrt p1
                ((V3D.fromPoints p1 p2).crossProduct (V3D.fromPoints p3 p4))))
            (DistanceCalculator.projectPointOnPlane Real.sqrt p4
              (Plane3D.fromPointNormal Real.sqrt p1
                ((V3D.fromPoints p1 p2).crossProduct (V3D.fromPoints p3 p4)))) ||
          DistanceCalculator.orientationTest p1 p2 p3 p4
            ((V3D.fromPoints p1 p2).crossProduct (V3D.fromPoints p3 p4))) = true
      then |(Plane3D.fromPointNormal Real.sqrt p1
              ((V3D.fromPoints p1 p2).crossProduct (V3D.fromPoints p3 p4))).value p3|
      else DistanceCalculator.calculateMinDistanceBetweenEnds Real.sqrt p1 p2 p3 p4 := by
  set n := (V3D.fromPoints p1 p2).crossProduct (V3D.fromPoints p3 p4) with hn
  have hL : 0 < n.length Real.sqrt := n.length_pos_of_not_isNull hc
  set pl := Plane3D.fromPointNormal Real.sqrt p1 n with hpl
  have hu : pl.A ^ 2 + pl.B ^ 2 + pl.C ^ 2 = 1 := Plane3D.fromPointNormal_sumSq p1 n hL
  have hd := doLineSegmentsIntersect_of_isOn p1
    (DistanceCalculator.projectPointOnPlane Real.sqrt p2 pl)
    (DistanceCalculator.projectPointOnPlane Real.sqrt p3 pl)
    (DistanceCalculator.projectPointOnPlane Real.sqrt p4 pl) n
    (Plane3D.isOn_fromPointNormal_self p1 n)
    (isOn_projectPointOnPlane pl p2 hu) (isOn_projectPointOnPlane pl p3 hu)
    (isOn_projectPointOnPlane pl p4 hu)
  have ho : DistanceCalculator.orientationTest p1
      (DistanceCalculator.projectPointOnPlane Real.sqrt p2 pl)
      (DistanceCalculator.projectPointOnPlane Real.sqrt p3 pl)
      (DistanceCalculator.projectPointOnPlane Real.sqrt p4 pl) n =
      DistanceCalculator.orientationTest p1 p2 p3 p4 n := by
    rw [projectPointOnPlane_of_unit pl p2 hu, projectPointOnPlane_of_unit pl p3 hu,
      projectPointOnPlane_of_unit pl p4 hu]
    exact orientationTest_shift p1 p2 p3 p4 n (n.length Real.sqrt) _ _ _
  rw [ho] at hd
  unfold DistanceCalculator.calculate
  simp only [hce, h12, h34, ← hn, hc, ← hpl, hd, Plane3D.distanceToPoint_of_unit pl p3 hu]
  simp only [Bool.false_eq_true, if_false, Bool.or_self]
  cases h : (DistanceCalculator.haveCommonEndpoint p1
      (DistanceCalculator.projectPointOnPlane Real.sqrt p2 pl)
      (DistanceCalculator.projectPointOnPlane Real.sqrt p3 pl)
      (DistanceCalculator.projectPointOnPlane Real.sqrt p4 pl) ||
      DistanceCalculator.orientationTest p1 p2 p3 p4 n) <;> simp

/-- The distance from `p3` to the plane through `p1` with normal `n`, as the
square root of `((p1 - p3) . n)^2 / |n|^2`. -/
theorem abs_value_fromPointNormal (p1 p3 : P3D ℝ) (n : V3D ℝ) :
    |(Plane3D.fromPointNormal Real.sqrt p1 n).value p3| =
      Real.sqrt (((V3D.fromPoints p3 p1).dotProduct n) ^ 2 / n.dotProduct n) := by
  rw [Plane3D.value_fromPointNormal, V3D.length_eq_sqrt_dot,
    Real.sqrt_div (sq_nonneg _), Real.sqrt_sq_eq_abs, abs_div,
    abs_of_nonneg (Real.sqrt_nonneg _)]
  congr 1
  have : (V3D.fromPoints p1 p3).dotProduct n = -((V3D.fromPoints p3 p1).dotProduct n) := by
    simp only [V3D.fromPoints, V3D.dotProduct]; ring
  rw [this, abs_neg]

/-- Skew lines whose projections cross strictly inside both segments: the
distance from `p3` to the plane through `p1` with normal `v12 × v34` is the
least distance between the segments. -/
theorem planeDistance_isLeast (p1 p2 p3 p4 : P3D ℝ)
    (hN : 0 < ((V3D.fromPoints p1 p2).crossProduct (V3D.fromPoints p3 p4)).dotProduct
      ((V3D.fromPoints p1 p2).crossProduct (V3D.fromPoints p3 p4)))
    (ho : DistanceCalculator.orientationTest p1 p2 p3 p4
      ((V3D.fromPoints p1 p2).crossProduct (V3D.fromPoints p3 p4)) = true) :
    IsLeast (segmentSegmentDistances Real.sqrt p1 p2 p3 p4)
      |(Plane3D.fromPointNormal Real.sqrt p1
        ((V3D.fromPoints p1 p2).crossProduct (V3D.fromPoints p3 p4))).value p3| := by
  rw [abs_value_fromPointNormal]
  obtain ⟨⟨hs0, hs1⟩, ht0, ht1⟩ := (orientationTest_cross p1 p2 p3 p4 hN).1 ho
  constructor
  · refine ⟨_, _, div_nonneg (le_of_lt hs0) (le_of_lt hN), (div_le_one hN).2 (le_of_lt hs1),
      div_nonneg (le_of_lt ht0) (le_of_lt hN), (div_le_one hN).2 (le_of_lt ht1), ?_⟩
    rw [euclideanDistance_segmentPoint, separationSq_at_feet _ _ _ hN]
  · rintro d ⟨s, t, -, -, -, -, rfl⟩
    rw [euclideanDistance_segmentPoint]
    exact Real.sqrt_le_sqrt (separationSq_ge_normal _ _ _ s t hN)

/-- Skew lines whose projections do not cross strictly inside both
segments: the least of the four end-point distances is the least distance
between the segments. -/
theorem calculateMinDistanceBetweenEnds_isLeast_skew (p1 p2 p3 p4 : P3D ℝ)
    (h12 : 0 < (p2.x - p1.x) ^ 2 + (p2.y - p1.y) ^ 2 + (p2.z - p1.z) ^ 2)
    (h34 : 0 < (p4.x - p3.x) ^ 2 + (p4.y - p3.y) ^ 2 + (p4.z - p3.z) ^ 2)
    (hN : 0 < ((V3D.fromPoints p1 p2).crossProduct (V3D.fromPoints p3 p4)).dotProduct
      ((V3D.fromPoints p1 p2).crossProduct (V3D.fromPoints p3 p4)))
    (ho : DistanceCalculator.orientationTest p1 p2 p3 p4
      ((V3D.fromPoints p1 p2).crossProduct (V3D.fromPoints p3 p4)) = false) :
    IsLeast (segmentSegmentDistances Real.sqrt p1 p2 p3 p4)
      (DistanceCalculator.calculateMinDistanceBetweenEnds Real.sqrt p1 p2 p3 p4) := by
  refine ⟨calculateMinDistanceBetweenEnds_mem p1 p2 p3 p4 h12 h34, ?_⟩
  rintro d ⟨s, t, hs0, hs1, ht0, ht1, rfl⟩
  have hout : ¬ (DistanceCalculator.orientationTest p1 p2 p3 p4
      ((V3D.fromPoints p1 p2).crossProduct (V3D.fromPoints p3 p4)) = true) := by
    rw [ho]; simp
  rw [orientationTest_cross p1 p2 p3 p4 hN] at hout
  set n := (V3D.fromPoints p1 p2).crossProduct (V3D.fromPoints p3 p4) with hn
  set N := n.dotProduct n with hNd
  set σ := ((V3D.fromPoints p3 p4).crossProduct (V3D.fromPoints p3 p1)).dotProduct n with hσ
  set τ := ((V3D.fromPoints p1 p2).crossProduct (V3D.fromPoints p3 p1)).dotProduct n with hτ
  obtain ⟨m, hm0, hm1, hs0', hs1', ht0', ht1', hb⟩ :=
    exists_boundary_on_path s t (σ / N - s) (τ / N - t) hs0 hs1 ht0 ht1 (by
      rintro ⟨h1, h2, h3, h4⟩
      apply hout
      rw [add_sub_cancel] at h1 h2 h3 h4
      exact ⟨⟨(div_pos_iff_of_pos_right hN).1 h1, (div_lt_one hN).1 h2⟩,
        (div_pos_iff_of_pos_right hN).1 h3, (div_lt_one hN).1 h4⟩)
  have hle := calculateMinDistanceBetweenEnds_le_boundary p1 p2 p3 p4 h12 h34
    (s + m * (σ / N - s)) (t + m * (τ / N - t)) hs0' hs1' ht0' ht1' hb
  refine le_trans hle ?_
  rw [euclideanDistance_segmentPoint, euclideanDistance_segmentPoint]
  exact Real.sqrt_le_sqrt
    (separationSq_towards_feet (V3D.fromPoints p1 p2) (V3D.fromPoints p3 p4)
      (V3D.fromPoints p3 p1) s t m hN hm0 hm1)

/-! ## C1: `calculate()` and the minimum distance between the segments -/

/-- The example of the spec, `(0,0,0)-(1,0,0)` and `(0,1,1)-(1,1,1)`, returns
`sqrt 2`.  (The two segments are parallel: the value comes from the parallel
branch.) -/
theorem calculate_spec_example_sqrt_two :
    (DistanceCalculator.mk (P3D.mk 0 0 0) (P3D.mk 1 0 0) (P3D.mk 0 1 1)
      (P3D.mk 1 1 1)).calculate Real.sqrt = Real.sqrt 2 := by
  have hce : DistanceCalculator.haveCommonEndpoint (P3D.mk (0 : ℝ) 0 0) (P3D.mk 1 0 0)
      (P3D.mk 0 1 1) (P3D.mk 1 1 1) = false := by
    rw [haveCommonEndpoint_false_iff]
    simp only [P3D.operatorEq_false_iff]
    norm_num [Tolerance_small, abs_lt]
  rw [calculate_eq_of_cross_isNull _ _ _ _ hce
    (by rw [V3D.isNull_false_iff]; norm_num [V3D.fromPoints, Tolerance_small, abs_lt])
    (by rw [V3D.isNull_false_iff]; norm_num [V3D.fromPoints, Tolerance_small, abs_lt])
    (by rw [V3D.isNull_iff]
        norm_num [V3D.fromPoints, V3D.crossProduct, Tolerance_small, abs_lt])]
  norm_num [DistanceCalculator.calculateMinDistanceBetweenEnds, P3D.distanceToLineSegment,
    V3D.fromPoints, V3D.dotProduct, V3D.crossProduct, V3D.length]

/-- C1 at the failing input.  The segments `(-1/400,0,0)-(1/400,0,0)` and
`(0,-1/400,0)-(0,1/400,0)` have no tolerance-shared end point and no null
direction vector, and they cross at the origin: the minimum distance is `0`.
Their cross product `(0,0,1/40000)` is not the zero vector, but `isNull()`
holds for it, so `calculate()` takes the branch that Geometry.cpp 164-169
reserves for collinear vectors and returns the end-point minimum `1/400`.
The same crossing ten times larger, `(-1/40,0,0)-(1/40,0,0)` and
`(0,-1/40,0)-(0,1/40,0)`, takes the skew branch and returns `0`. -/
theorem calculate_short_crossing :
    DistanceCalculator.haveCommonEndpoint (P3D.mk (-1 / 400 : ℝ) 0 0) (P3D.mk (1 / 400) 0 0)
        (P3D.mk 0 (-1 / 400) 0) (P3D.mk 0 (1 / 400) 0) = false ∧
      (V3D.fromPoints (P3D.mk (-1 / 400 : ℝ) 0 0) (P3D.mk (1 / 400) 0 0)).isNull = false ∧
      (V3D.fromPoints (P3D.mk (0 : ℝ) (-1 / 400) 0) (P3D.mk 0 (1 / 400) 0)).isNull = false ∧
      (V3D.fromPoints (P3D.mk (-1 / 400 : ℝ) 0 0) (P3D.mk (1 / 400) 0 0)).crossProduct
          (V3D.fromPoints (P3D.mk 0 (-1 / 400) 0) (P3D.mk 0 (1 / 400) 0)) =
        V3D.mk 0 0 (1 / 40000) ∧
      ((V3D.fromPoints (P3D.mk (-1 / 400 : ℝ) 0 0) (P3D.mk (1 / 400) 0 0)).crossProduct
          (V3D.fromPoints (P3D.mk 0 (-1 / 400) 0) (P3D.mk 0 (1 / 400) 0))).isNull = true ∧
      IsLeast
        (segmentSegmentDistances Real.sqrt (P3D.mk (-1 / 400 : ℝ) 0 0) (P3D.mk (1 / 400) 0 0)
          (P3D.mk 0 (-1 / 400) 0) (P3D.mk 0 (1 / 400) 0)) 0 ∧
      (DistanceCalculator.mk (P3D.mk (-1 / 400 : ℝ) 0 0) (P3D.mk (1 / 400) 0 0)
          (P3D.mk 0 (-1 / 400) 0) (P3D.mk 0 (1 / 400) 0)).calculate Real.sqrt = 1 / 400 ∧
      (DistanceCalculator.mk (P3D.mk (-1 / 40 : ℝ) 0 0) (P3D.mk (1 / 40) 0 0)
          (P3D.mk 0 (-1 / 40) 0) (P3D.mk 0 (1 / 40) 0)).calculate Real.sqrt = 0 := by
  have hce : DistanceCalculator.haveCommonEndpoint (P3D.mk (-1 / 400 : ℝ) 0 0)
      (P3D.mk (1 / 400) 0 0) (P3D.mk 0 (-1 / 400) 0) (P3D.mk 0 (1 / 400) 0) = false := by
    rw [haveCommonEndpoint_false_iff]
    simp only [P3D.operatorEq_false_iff]
    norm_num [Tolerance_small, abs_lt]
  have h12 : (V3D.fromPoints (P3D.mk (-1 / 400 : ℝ) 0 0) (P3D.mk (1 / 400) 0 0)).isNull =
      false := by
    rw [V3D.isNull_false_iff]; norm_num [V3D.fromPoints, Tolerance_small, abs_lt]
  have h34 : (V3D.fromPoints (P3D.mk (0 : ℝ) (-1 / 400) 0) (P3D.mk 0 (1 / 400) 0)).isNull =
      false := by
    rw [V3D.isNull_false_iff]; norm_num [V3D.fromPoints, Tolerance_small, abs_lt]
  have hcr : (V3D.fromPoints (P3D.mk (-1 / 400 : ℝ) 0 0) (P3D.mk (1 / 400) 0 0)).crossProduct
      (V3D.fromPoints (P3D.mk 0 (-1 / 400) 0) (P3D.mk 0 (1 / 400) 0)) =
      V3D.mk 0 0 (1 / 40000) := by
    norm_num [V3D.fromPoints, V3D.crossProduct]
  have hcn : ((V3D.fromPoints (P3D.mk (-1 / 400 : ℝ) 0 0) (P3D.mk (1 / 400) 0 0)).crossProduct
      (V3D.fromPoints (P3D.mk 0 (-1 / 400) 0) (P3D.mk 0 (1 / 400) 0))).isNull = true := by
    rw [hcr, V3D.isNull_iff]
    norm_num [Tolerance_small, abs_lt]
  refine ⟨hce, h12, h34, hcr, hcn, ⟨?_, ?_⟩, ?_, ?_⟩
  · -- the two mid points coincide
    refine ⟨1 / 2, 1 / 2, by norm_num, by norm_num, by norm_num, by norm_num, ?_⟩
    norm_num [euclideanDistance, segmentPoint]
  · rintro d ⟨s, t, -, -, -, -, rfl⟩
    exact Real.sqrt_nonneg _
  · -- the branch for collinear vectors: the least of the four end-point distances
    rw [calculate_eq_of_cross_isNull _ _ _ _ hce h12 h34 hcn]
    have hs1 : Real.sqrt 6400000000 = 80000 := by
      rw [show (6400000000 : ℝ) = 80000 ^ 2 by norm_num]
      exact Real.sqrt_sq (by norm_num)
    have hs2 : Real.sqrt 40000 = 200 := by
      rw [show (40000 : ℝ) = 200 ^ 2 by norm_num]
      exact Real.sqrt_sq (by norm_num)
    norm_num [DistanceCalculator.calculateMinDistanceBetweenEnds, P3D.distanceToLineSegment,
      V3D.fromPoints, V3D.dotProduct, V3D.crossProduct, V3D.length]
    rw [hs1, hs2]
    norm_num
  · -- ten times larger: the skew branch, the orientation test finds the crossing
    have hce' : DistanceCalculator.haveCommonEndpoint (P3D.mk (-1 / 40 : ℝ) 0 0)
        (P3D.mk (1 / 40) 0 0) (P3D.mk 0 (-1 / 40) 0) (P3D.mk 0 (1 / 40) 0) = false := by
      rw [haveCommonEndpoint_false_iff]
      simp only [P3D.operatorEq_false_iff]
      norm_num [Tolerance_small, abs_lt]
    have ho : DistanceCalculator.orientationTest (P3D.mk (-1 / 40 : ℝ) 0 0)
        (P3D.mk (1 / 40) 0 0) (P3D.mk 0 (-1 / 40) 0) (P3D.mk 0 (1 / 40) 0)
        ((V3D.fromPoints (P3D.mk (-1 / 40 : ℝ) 0 0) (P3D.mk (1 / 40) 0 0)).crossProduct
          (V3D.fromPoints (P3D.mk 0 (-1 / 40) 0) (P3D.mk 0 (1 / 40) 0))) = true := by
      norm_num [DistanceCalculator.orientationTest, V3D.fromPoints, V3D.crossProduct,
        V3D.dotProduct]
    rw [calculate_eq_of_cross_not_isNull _ _ _ _ hce'
      (by rw [V3D.isNull_false_iff]; norm_num [V3D.fromPoints, Tolerance_small, abs_lt])
      (by rw [V3D.isNull_false_iff]; norm_num [V3D.fromPoints, Tolerance_small, abs_lt])
      (by rw [V3D.isNull_false_iff]
          norm_num [V3D.fromPoints, V3D.crossProduct, Tolerance_small, abs_lt]),
      ho, Bool.or_true, if_pos rfl, abs_value_fromPointNormal]
    norm_num [V3D.fromPoints, V3D.crossProduct, V3D.dotProduct]

/-- A sufficient condition for `calculate()` to be exact.  When no end point
is tolerance-shared, neither direction vector is null, the cross product
`v12 × v34` is either exactly zero or not null, and in the latter case the
end points handed to `doLineSegmentsIntersect` (`p1` and the projections of
`p2`, `p3`, `p4`) have no tolerance-shared end point, `calculate()` is the
minimum over `s`, `t` in `[0,1]` of `|p1 + s (p2 - p1) - (p3 + t (p4 - p3))|`. -/
theorem calculate_isLeast_of_decisive (p1 p2 p3 p4 : P3D ℝ)
    (hce : DistanceCalculator.haveCommonEndpoint p1 p2 p3 p4 = false)
    (h12 : (V3D.fromPoints p1 p2).isNull = false)
    (h34 : (V3D.fromPoints p3 p4).isNull = false)
    (hexact : (V3D.fromPoints p1 p2).crossProduct (V3D.fromPoints p3 p4) = V3D.mk 0 0 0 ∨
      ((V3D.fromPoints p1 p2).crossProduct (V3D.fromPoints p3 p4)).isNull = false)
    (hproj : ((V3D.fromPoints p1 p2).crossProduct (V3D.fromPoints p3 p4)).isNull = false →
      DistanceCalculator.haveCommonEndpoint p1
        (DistanceCalculator.projectPointOnPlane Real.sqrt p2
          (Plane3D.fromPointNormal Real.sqrt p1
            ((V3D.fromPoints p1 p2).crossProduct (V3D.fromPoints p3 p4))))
        (DistanceCalculator.projectPointOnPlane Real.sqrt p3
          (Plane3D.fromPointNormal Real.sqrt p1
            ((V3D.fromPoints p1 p2).crossProduct (V3D.fromPoints p3 p4))))
        (DistanceCalculator.projectPointOnPlane Real.sqrt p4
          (Plane3D.fromPointNormal Real.sqrt p1
            ((V3D.fromPoints p1 p2).crossProduct (V3D.fromPoints p3 p4)))) = false) :
    IsLeast (segmentSegmentDistances Real.sqrt p1 p2 p3 p4)
      ((DistanceCalculator.mk p1 p2 p3 p4).calculate Real.sqrt) := by
  rcases hexact with hpar | hc
  · have hcn : ((V3D.fromPoints p1 p2).crossProduct (V3D.fromPoints p3 p4)).isNull = true := by
      rw [hpar]; exact V3D.isNull_zero
    rw [calculate_eq_of_cross_isNull p1 p2 p3 p4 hce h12 h34 hcn]
    exact calculateMinDistanceBetweenEnds_isLeast_parallel p1 p2 p3 p4
      (sumSq_pos_of_not_isNull p1 p2 h12) (sumSq_pos_of_not_isNull p3 p4 h34) hpar
  · have hN := V3D.dot_self_pos_of_not_isNull _ hc
    rw [calculate_eq_of_cross_not_isNull p1 p2 p3 p4 hce h12 h34 hc, hproj hc, Bool.false_or]
    by_cases ho : DistanceCalculator.orientationTest p1 p2 p3 p4
        ((V3D.fromPoints p1 p2).crossProduct (V3D.fromPoints p3 p4)) = true
    · rw [if_pos ho]
      exact planeDistance_isLeast p1 p2 p3 p4 hN ho
    · rw [if_neg ho]
      exact calculateMinDistanceBetweenEnds_isLeast_skew p1 p2 p3 p4
        (sumSq_pos_of_not_isNull p1 p2 h12) (sumSq_pos_of_not_isNull p3 p4 h34) hN
        (by simpa using ho)

/-- Two inputs on which `calculate()` is exact: the skew pair
`(0,0,0)-(1,0,0)`, `(1/2,-1/2,1)-(1/2,1/2,1)`, and the example of the spec,
for which the minimum is `sqrt 2`. -/
theorem calculate_isLeast_of_decisive_examples :
    IsLeast
        (segmentSegmentDistances Real.sqrt (P3D.mk (0 : ℝ) 0 0) (P3D.mk 1 0 0)
          (P3D.mk (1 / 2) (-1 / 2) 1) (P3D.mk (1 / 2) (1 / 2) 1))
        ((DistanceCalculator.mk (P3D.mk 0 0 0) (P3D.mk 1 0 0) (P3D.mk (1 / 2) (-1 / 2) 1)
          (P3D.mk (1 / 2) (1 / 2) 1)).calculate Real.sqrt) ∧
      IsLeast
        (segmentSegmentDistances Real.sqrt (P3D.mk (0 : ℝ) 0 0) (P3D.mk 1 0 0)
          (P3D.mk 0 1 1) (P3D.mk 1 1 1))
        (Real.sqrt 2) :=
  ⟨calculate_isLeast_of_decisive _ _ _ _
    (by
      rw [haveCommonEndpoint_false_iff]
      simp only [P3D.operatorEq_false_iff]
      norm_num [Tolerance_small, abs_lt])
    (by rw [V3D.isNull_false_iff]; norm_num [V3D.fromPoints, Tolerance_small, abs_lt])
    (by rw [V3D.isNull_false_iff]; norm_num [V3D.fromPoints, Tolerance_small, abs_lt])
    (Or.inr (by
      rw [V3D.isNull_false_iff]
      norm_num [V3D.fromPoints, V3D.crossProduct, Tolerance_small, abs_lt]))
    (by
      intro _
      have hpl : Plane3D.fromPointNormal Real.sqrt (P3D.mk (0 : ℝ) 0 0)
          ((V3D.fromPoints (P3D.mk (0 : ℝ) 0 0) (P3D.mk 1 0 0)).crossProduct
            (V3D.fromPoints (P3D.mk (1 / 2) (-1 / 2) 1) (P3D.mk (1 / 2) (1 / 2) 1))) =
          Plane3D.mk 0 0 1 0 := by
        norm_num [Plane3D.fromPointNormal, V3D.fromPoints, V3D.crossProduct, V3D.normal,
          V3D.length]
      rw [hpl]
      have hu : (Plane3D.mk (0 : ℝ) 0 1 0).A ^ 2 + (Plane3D.mk (0 : ℝ) 0 1 0).B ^ 2 +
          (Plane3D.mk (0 : ℝ) 0 1 0).C ^ 2 = 1 := by norm_num
      rw [haveCommonEndpoint_false_iff]
      simp only [projectPointOnPlane_of_unit _ _ hu, P3D.operatorEq_false_iff]
      norm_num [Plane3D.value, projectionShift, P3D.operatorPlus, V3D.operatorMulAssign,
        Tolerance_small, abs_lt]),
   calculate_spec_example_sqrt_two ▸ calculate_isLeast_of_decisive _ _ _ _
    (by
      rw [haveCommonEndpoint_false_iff]
      simp only [P3D.operatorEq_false_iff]
      norm_num [Tolerance_small, abs_lt])
    (by rw [V3D.isNull_false_iff]; norm_num [V3D.fromPoints, Tolerance_small, abs_lt])
    (by rw [V3D.isNull_false_iff]; norm_num [V3D.fromPoints, Tolerance_small, abs_lt])
    (Or.inl (by norm_num [V3D.fromPoints, V3D.crossProduct]))
    (by
      intro h
      rw [V3D.isNull_false_iff] at h
      norm_num [V3D.fromPoints, V3D.crossProduct, Tolerance_small] at h)⟩

/-! ## C2: swapping the two segments -/

theorem haveCommonEndpoint_swap (p1 p2 p3 p4 : P3D ℝ) :
    DistanceCalculator.haveCommonEndpoint p3 p4 p1 p2 =
      DistanceCalculator.haveCommonEndpoint p1 p2 p3 p4 := by
  unfold DistanceCalculator.haveCommonEndpoint
  rw [P3D.operatorEq_comm p3 p1, P3D.operatorEq_comm p3 p2, P3D.operatorEq_comm p4 p1,
    P3D.operatorEq_comm p4 p2]
  cases p1.operatorEq p3 <;> cases p1.operatorEq p4 <;> cases p2.operatorEq p3 <;>
    cases p2.operatorEq p4 <;> rfl

theorem calculateMinDistanceBetweenEnds_swap (p1 p2 p3 p4 : P3D ℝ) :
    DistanceCalculator.calculateMinDistanceBetweenEnds Real.sqrt p3 p4 p1 p2 =
      DistanceCalculator.calculateMinDistanceBetweenEnds Real.sqrt p1 p2 p3 p4 := by
  unfold DistanceCalculator.calculateMinDistanceBetweenEnds
  exact min_comm _ _

theorem V3D.crossProduct_swap (a b : V3D ℝ) :
    b.crossProduct a =
      V3D.mk (-(a.crossProduct b).x) (-(a.crossProduct b).y) (-(a.crossProduct b).z) := by
  simp only [V3D.crossProduct, V3D.mk.injEq]
  refine ⟨by ring, by ring, by ring⟩

theorem V3D.isNull_neg (n : V3D ℝ) : (V3D.mk (-n.x) (-n.y) (-n.z)).isNull = n.isNull := by
  simp only [V3D.isNull, abs_neg]

theorem V3D.length_neg (n : V3D ℝ) :
    (V3D.mk (-n.x) (-n.y) (-n.z)).length Real.sqrt = n.length Real.sqrt := by
  simp only [V3D.length, neg_sq]

theorem V3D.dotProduct_crossProduct_left (a b : V3D ℝ) :
    a.dotProduct (a.crossProduct b) = 0 := by
  simp only [V3D.dotProduct, V3D.crossProduct]; ring

theorem V3D.dotProduct_crossProduct_right (a b : V3D ℝ) :
    b.dotProduct (a.crossProduct b) = 0 := by
  simp only [V3D.dotProduct, V3D.crossProduct]; ring

theorem projectionShift_zero : projectionShift (0 : ℝ) = 0 := by
  simp [projectionShift, Tolerance_small_pos]

/-- Swapping the two segments negates the four orientation values in pairs. -/
theorem orientationTest_swap (p1 p2 p3 p4 : P3D ℝ) (n : V3D ℝ) :
    DistanceCalculator.orientationTest p3 p4 p1 p2 (V3D.mk (-n.x) (-n.y) (-n.z)) =
      DistanceCalculator.orientationTest p1 p2 p3 p4 n := by
  simp only [DistanceCalculator.orientationTest, V3D.fromPoints, V3D.crossProduct,
    V3D.dotProduct]
  rw [Bool.and_comm]
  congr 2
  · congr 1; ring
  · congr 1; ring

/-- The projection used in the skew branch, in coordinates. -/
theorem projectPointOnPlane_fromPointNormal (p q : P3D ℝ) (n : V3D ℝ)
    (hL : 0 < n.length Real.sqrt) :
    DistanceCalculator.projectPointOnPlane Real.sqrt q (Plane3D.fromPointNormal Real.sqrt p n) =
      q.operatorPlus ((n.normal Real.sqrt).operatorMulAssign
        (projectionShift ((V3D.fromPoints p q).dotProduct n / n.length Real.sqrt))) := by
  rw [projectPointOnPlane_of_unit _ _ (Plane3D.fromPointNormal_sumSq p n hL),
    Plane3D.value_fromPointNormal]
  rfl

theorem P3D.operatorPlus_zero (q : P3D ℝ) (v : V3D ℝ) :
    q.operatorPlus (v.operatorMulAssign 0) = q := by
  cases q
  simp [P3D.operatorPlus, V3D.operatorMulAssign]

theorem P3D.operatorEq_operatorPlus_swap (p q : P3D ℝ) (v : V3D ℝ) (c : ℝ) :
    p.operatorEq (q.operatorPlus ((V3D.mk (-v.x) (-v.y) (-v.z)).operatorMulAssign c)) =
      (p.operatorPlus (v.operatorMulAssign c)).operatorEq q := by
  simp only [P3D.operatorEq, P3D.operatorPlus, V3D.operatorMulAssign]
  have hx : p.x - (q.x + -v.x * c) = p.x + v.x * c - q.x := by ring
  have hy : p.y - (q.y + -v.y * c) = p.y + v.y * c - q.y := by ring
  have hz : p.z - (q.z + -v.z * c) = p.z + v.z * c - q.z := by ring
  simp only [hx, hy, hz]


theorem calculate_eq_zero_of_haveCommonEndpoint (p1 p2 p3 p4 : P3D ℝ)
    (hc : DistanceCalculator.haveCommonEndpoint p1 p2 p3 p4 = true) :
    (DistanceCalculator.mk p1 p2 p3 p4).calculate Real.sqrt = 0 := by
  simp [DistanceCalculator.calculate, hc]

/-- The end-point test on the projected points of the skew branch, with the
projections written out: `p2` is not moved, `p3` and `p4` are moved by the
same multiple of the unit normal. -/
theorem haveCommonEndpoint_projected (p1 p2 p3 p4 : P3D ℝ)
    (hL : 0 < ((V3D.fromPoints p1 p2).crossProduct (V3D.fromPoints p3 p4)).length Real.sqrt) :
    DistanceCalculator.haveCommonEndpoint p1
      (DistanceCalculator.projectPointOnPlane Real.sqrt p2
        (Plane3D.fromPointNormal Real.sqrt p1
          ((V3D.fromPoints p1 p2).crossProduct (V3D.fromPoints p3 p4))))
      (DistanceCalculator.projectPointOnPlane Real.sqrt p3
        (Plane3D.fromPointNormal Real.sqrt p1
          ((V3D.fromPoints p1 p2).crossProduct (V3D.fromPoints p3 p4))))
      (DistanceCalculator.projectPointOnPlane Real.sqrt p4
        (Plane3D.fromPointNormal Real.sqrt p1
          ((V3D.fromPoints p1 p2).crossProduct (V3D.fromPoints p3 p4)))) =
    DistanceCalculator.haveCommonEndpoint p1 p2
      (p3.operatorPlus
        ((((V3D.fromPoints p1 p2).crossProduct (V3D.fromPoints p3 p4)).normal
          Real.sqrt).operatorMulAssign
          (projectionShift ((V3D.fromPoints p1 p3).dotProduct
            ((V3D.fromPoints p1 p2).crossProduct (V3D.fromPoints p3 p4)) /
            ((V3D.fromPoints p1 p2).crossProduct (V3D.fromPoints p3 p4)).length Real.sqrt))))
      (p4.operatorPlus
        ((((V3D.fromPoints p1 p2).crossProduct (V3D.fromPoints p3 p4)).normal
          Real.sqrt).operatorMulAssign
          (projectionShift ((V3D.fromPoints p1 p3).dotProduct
            ((V3D.fromPoints p1 p2).crossProduct (V3D.fromPoints p3 p4)) /
            ((V3D.fromPoints p1 p2).crossProduct (V3D.fromPoints p3 p4)).length Real.sqrt)))) := by
  rw [projectPointOnPlane_fromPointNormal p1 p2 _ hL,
    projectPointOnPlane_fromPointNormal p1 p3 _ hL,
    projectPointOnPlane_fromPointNormal p1 p4 _ hL]
  have e2 : (V3D.fromPoints p1 p2).dotProduct
      ((V3D.fromPoints p1 p2).crossProduct (V3D.fromPoints p3 p4)) = 0 :=
    V3D.dotProduct_crossProduct_left _ _
  have e4 : (V3D.fromPoints p1 p4).dotProduct
      ((V3D.fromPoints p1 p2).crossProduct (V3D.fromPoints p3 p4)) =
      (V3D.fromPoints p1 p3).dotProduct
        ((V3D.fromPoints p1 p2).crossProduct (V3D.fromPoints p3 p4)) := by
    simp only [V3D.fromPoints, V3D.dotProduct, V3D.crossProduct]; ring
  rw [e2, e4, zero_div, projectionShift_zero, P3D.operatorPlus_zero]


theorem V3D.normal_neg (n : V3D ℝ) :
    (V3D.mk (-n.x) (-n.y) (-n.z)).normal Real.sqrt =
      V3D.mk (-(n.normal Real.sqrt).x) (-(n.normal Real.sqrt).y) (-(n.normal Real.sqrt).z) := by
  simp only [V3D.normal, V3D.length_neg, neg_div]

theorem V3D.dotProduct_neg_swap (p q : P3D ℝ) (n : V3D ℝ) :
    (V3D.fromPoints q p).dotProduct (V3D.mk (-n.x) (-n.y) (-n.z)) =
      (V3D.fromPoints p q).dotProduct n := by
  simp only [V3D.fromPoints, V3D.dotProduct]; ring

theorem V3D.dotProduct_neg_neg (n : V3D ℝ) :
    (V3D.mk (-n.x) (-n.y) (-n.z)).dotProduct (V3D.mk (-n.x) (-n.y) (-n.z)) =
      n.dotProduct n := by
  simp only [V3D.dotProduct]; ring

theorem haveCommonEndpoint_shift_swap (p1 p2 p3 p4 : P3D ℝ) (v : V3D ℝ) (c : ℝ) :
    DistanceCalculator.haveCommonEndpoint p3 p4
        (p1.operatorPlus ((V3D.mk (-v.x) (-v.y) (-v.z)).operatorMulAssign c))
        (p2.operatorPlus ((V3D.mk (-v.x) (-v.y) (-v.z)).operatorMulAssign c)) =
      DistanceCalculator.haveCommonEndpoint p1 p2
        (p3.operatorPlus (v.operatorMulAssign c)) (p4.operatorPlus (v.operatorMulAssign c)) := by
  unfold DistanceCalculator.haveCommonEndpoint
  rw [P3D.operatorEq_operatorPlus_swap p3 p1, P3D.operatorEq_operatorPlus_swap p3 p2,
    P3D.operatorEq_operatorPlus_swap p4 p1, P3D.operatorEq_operatorPlus_swap p4 p2,
    P3D.operatorEq_comm _ p1, P3D.operatorEq_comm _ p2,
    P3D.operatorEq_comm (p4.operatorPlus (v.operatorMulAssign c)) p1,
    P3D.operatorEq_comm (p4.operatorPlus (v.operatorMulAssign c)) p2]
  cases p1.operatorEq (p3.operatorPlus (v.operatorMulAssign c)) <;>
    cases p1.operatorEq (p4.operatorPlus (v.operatorMulAssign c)) <;>
    cases p2.operatorEq (p3.operatorPlus (v.operatorMulAssign c)) <;>
    cases p2.operatorEq (p4.operatorPlus (v.operatorMulAssign c)) <;> rfl

/-- Swapping the two segments does not change the result of `calculate()`,
for all inputs. -/
theorem calculate_comm_segments (p1 p2 p3 p4 : P3D ℝ) :
    (DistanceCalculator.mk p3 p4 p1 p2).calculate Real.sqrt =
      (DistanceCalculator.mk p1 p2 p3 p4).calculate Real.sqrt := by
  cases hce : DistanceCalculator.haveCommonEndpoint p1 p2 p3 p4
  swap
  · rw [calculate_eq_zero_of_haveCommonEndpoint p1 p2 p3 p4 hce,
      calculate_eq_zero_of_haveCommonEndpoint p3 p4 p1 p2
        (by rw [haveCommonEndpoint_swap]; exact hce)]
  have hce' : DistanceCalculator.haveCommonEndpoint p3 p4 p1 p2 = false := by
    rw [haveCommonEndpoint_swap]; exact hce
  cases h12 : (V3D.fromPoints p1 p2).isNull
  swap
  · simp [DistanceCalculator.calculate, hce, hce', h12]
  cases h34 : (V3D.fromPoints p3 p4).isNull
  swap
  · simp [DistanceCalculator.calculate, hce, hce', h34]
  have hsw := V3D.crossProduct_swap (V3D.fromPoints p1 p2) (V3D.fromPoints p3 p4)
  cases hc : ((V3D.fromPoints p1 p2).crossProduct (V3D.fromPoints p3 p4)).isNull
  swap
  · have hc' : ((V3D.fromPoints p3 p4).crossProduct (V3D.fromPoints p1 p2)).isNull = true := by
      rw [hsw, V3D.isNull_neg]; exact hc
    rw [calculate_eq_of_cross_isNull p1 p2 p3 p4 hce h12 h34 hc,
      calculate_eq_of_cross_isNull p3 p4 p1 p2 hce' h34 h12 hc',
      calculateMinDistanceBetweenEnds_swap]
  have hc' : ((V3D.fromPoints p3 p4).crossProduct (V3D.fromPoints p1 p2)).isNull = false := by
    rw [hsw, V3D.isNull_neg]; exact hc
  have hL := V3D.length_pos_of_not_isNull _ hc
  have hL' := V3D.length_pos_of_not_isNull _ hc'
  rw [calculate_eq_of_cross_not_isNull p1 p2 p3 p4 hce h12 h34 hc,
    calculate_eq_of_cross_not_isNull p3 p4 p1 p2 hce' h34 h12 hc',
    haveCommonEndpoint_projected p1 p2 p3 p4 hL, haveCommonEndpoint_projected p3 p4 p1 p2 hL',
    abs_value_fromPointNormal, abs_value_fromPointNormal, calculateMinDistanceBetweenEnds_swap]
  simp only [hsw, V3D.normal_neg, V3D.length_neg, V3D.dotProduct_neg_swap,
    V3D.dotProduct_neg_neg, orientationTest_swap, haveCommonEndpoint_shift_swap]

/-- C2: when both direction vectors are not null,
`DistanceCalculator(p1,p2,p3,p4).calculate()` equals
`DistanceCalculator(p3,p4,p1,p2).calculate()`. -/
theorem calculate_swap (p1 p2 p3 p4 : P3D ℝ)
    (_h12 : (V3D.fromPoints p1 p2).isNull = false)
    (_h34 : (V3D.fromPoints p3 p4).isNull = false) :
    (DistanceCalculator.mk p1 p2 p3 p4).calculate Real.sqrt =
      (DistanceCalculator.mk p3 p4 p1 p2).calculate Real.sqrt :=
  (calculate_comm_segments p1 p2 p3 p4).symm

/-- A skew pair for C2: `(0,0,0)-(1,0,0)` and `(1/2,-1/2,1)-(1/2,1/2,1)`. -/
theorem calculate_swap_witness :
    (DistanceCalculator.mk (P3D.mk 0 0 0) (P3D.mk 1 0 0) (P3D.mk (1 / 2) (-1 / 2) 1)
        (P3D.mk (1 / 2) (1 / 2) 1)).calculate Real.sqrt =
      (DistanceCalculator.mk (P3D.mk (1 / 2) (-1 / 2) 1) (P3D.mk (1 / 2) (1 / 2) 1)
        (P3D.mk (0 : ℝ) 0 0) (P3D.mk 1 0 0)).calculate Real.sqrt :=
  calculate_swap _ _ _ _
    (by rw [V3D.isNull_false_iff]; norm_num [V3D.fromPoints, Tolerance_small, abs_lt])
    (by rw [V3D.isNull_false_iff]; norm_num [V3D.fromPoints, Tolerance_small, abs_lt])

/-! ## C11 and C12: the plane built from a point and a normal -/

/-- C11: for a reference point `p0` and a normal `n` that is not null, the plane
`Plane3D(p0, n)` has `A^2 + B^2 + C^2 = 1`, `(A,B,C) = n / |n|`,
`D = -(A p0.x + B p0.y + C p0.z)`, and the reference point satisfies the plane
equation: `distanceToPoint(p0) = 0` and `isOn(p0)` is true. -/
theorem fromPointNormal_spec (p0 : P3D ℝ) (n : V3D ℝ) (h : n.isNull = false) :
    (Plane3D.fromPointNormal Real.sqrt p0 n).A ^ 2 +
        (Plane3D.fromPointNormal Real.sqrt p0 n).B ^ 2 +
        (Plane3D.fromPointNormal Real.sqrt p0 n).C ^ 2 = 1 ∧
      (Plane3D.fromPointNormal Real.sqrt p0 n).A = n.x / n.length Real.sqrt ∧
      (Plane3D.fromPointNormal Real.sqrt p0 n).B = n.y / n.length Real.sqrt ∧
      (Plane3D.fromPointNormal Real.sqrt p0 n).C = n.z / n.length Real.sqrt ∧
      (Plane3D.fromPointNormal Real.sqrt p0 n).D =
        -((Plane3D.fromPointNormal Real.sqrt p0 n).A * p0.x +
          (Plane3D.fromPointNormal Real.sqrt p0 n).B * p0.y +
          (Plane3D.fromPointNormal Real.sqrt p0 n).C * p0.z) ∧
      (Plane3D.fromPointNormal Real.sqrt p0 n).distanceToPoint Real.sqrt p0 = 0 ∧
      (Plane3D.fromPointNormal Real.sqrt p0 n).isOn p0 = true := by
  have hL := n.length_pos_of_not_isNull h
  have hu := Plane3D.fromPointNormal_sumSq p0 n hL
  refine ⟨hu, rfl, rfl, rfl, ?_, ?_, Plane3D.isOn_fromPointNormal_self p0 n⟩
  · simp only [Plane3D.fromPointNormal]
    ring
  · rw [Plane3D.distanceToPoint_of_unit _ _ hu, Plane3D.value_fromPointNormal_self, abs_zero]

/-- The plane through `(1,2,3)` with normal `(3,0,4)` for C11. -/
theorem fromPointNormal_spec_witness :
    (Plane3D.fromPointNormal Real.sqrt (P3D.mk 1 2 3) (V3D.mk 3 0 4)).A ^ 2 +
        (Plane3D.fromPointNormal Real.sqrt (P3D.mk 1 2 3) (V3D.mk 3 0 4)).B ^ 2 +
        (Plane3D.fromPointNormal Real.sqrt (P3D.mk 1 2 3) (V3D.mk 3 0 4)).C ^ 2 = 1 ∧
      (Plane3D.fromPointNormal Real.sqrt (P3D.mk 1 2 3) (V3D.mk 3 0 4)).A =
        (V3D.mk (3 : ℝ) 0 4).x / (V3D.mk (3 : ℝ) 0 4).length Real.sqrt ∧
      (Plane3D.fromPointNormal Real.sqrt (P3D.mk 1 2 3) (V3D.mk 3 0 4)).B =
        (V3D.mk (3 : ℝ) 0 4).y / (V3D.mk (3 : ℝ) 0 4).length Real.sqrt ∧
      (Plane3D.fromPointNormal Real.sqrt (P3D.mk 1 2 3) (V3D.mk 3 0 4)).C =
        (V3D.mk (3 : ℝ) 0 4).z / (V3D.mk (3 : ℝ) 0 4).length Real.sqrt ∧
      (Plane3D.fromPointNormal Real.sqrt (P3D.mk 1 2 3) (V3D.mk 3 0 4)).D =
        -((Plane3D.fromPointNormal Real.sqrt (P3D.mk 1 2 3) (V3D.mk 3 0 4)).A * (P3D.mk (1 : ℝ) 2 3).x +
          (Plane3D.fromPointNormal Real.sqrt (P3D.mk 1 2 3) (V3D.mk 3 0 4)).B * (P3D.mk (1 : ℝ) 2 3).y +
          (Plane3D.fromPointNormal Real.sqrt (P3D.mk 1 2 3) (V3D.mk 3 0 4)).C * (P3D.mk (1 : ℝ) 2 3).z) ∧
      (Plane3D.fromPointNormal Real.sqrt (P3D.mk 1 2 3) (V3D.mk 3 0 4)).distanceToPoint
        Real.sqrt (P3D.mk 1 2 3) = 0 ∧
      (Plane3D.fromPointNormal Real.sqrt (P3D.mk (1 : ℝ) 2 3) (V3D.mk 3 0 4)).isOn
        (P3D.mk 1 2 3) = true :=
  fromPointNormal_spec _ _ (by
    rw [V3D.isNull_false_iff]; norm_num [Tolerance_small, abs_lt])

/-- C12: for the plane `Plane3D(p0, n)` with `n` not null and every point `P`,
the normalisation factor is `1`, `distanceToPoint(P)` equals
`|A P.x + B P.y + C P.z + D|`, which is the Euclidean distance
`|n . (P - p0)| / |n|` from `P` to the plane, and `isOn(P)` holds iff
`distanceToPoint(P) < 1e-4`. -/
theorem distanceToPoint_spec (p0 q : P3D ℝ) (n : V3D ℝ) (h : n.isNull = false) :
    Real.sqrt ((Plane3D.fromPointNormal Real.sqrt p0 n).A ^ 2 +
        (Plane3D.fromPointNormal Real.sqrt p0 n).B ^ 2 +
        (Plane3D.fromPointNormal Real.sqrt p0 n).C ^ 2) = 1 ∧
      (Plane3D.fromPointNormal Real.sqrt p0 n).distanceToPoint Real.sqrt q =
        |(Plane3D.fromPointNormal Real.sqrt p0 n).A * q.x +
          (Plane3D.fromPointNormal Real.sqrt p0 n).B * q.y +
          (Plane3D.fromPointNormal Real.sqrt p0 n).C * q.z +
          (Plane3D.fromPointNormal Real.sqrt p0 n).D| ∧
      (Plane3D.fromPointNormal Real.sqrt p0 n).distanceToPoint Real.sqrt q =
        |n.dotProduct (V3D.fromPoints p0 q)| / n.length Real.sqrt ∧
      ((Plane3D.fromPointNormal Real.sqrt p0 n).isOn q = true ↔
        (Plane3D.fromPointNormal Real.sqrt p0 n).distanceToPoint Real.sqrt q < 1 / 10000) := by
  have hL := n.length_pos_of_not_isNull h
  have hu := Plane3D.fromPointNormal_sumSq p0 n hL
  have hd := Plane3D.distanceToPoint_of_unit _ q hu
  refine ⟨by rw [hu, Real.sqrt_one], hd, ?_, ?_⟩
  · rw [hd, Plane3D.value_fromPointNormal, abs_div, abs_of_pos hL]
    congr 2
    simp only [V3D.dotProduct]; ring
  · rw [hd, Plane3D.isOn_iff]
    simp only [Tolerance_small]

/-- The plane through `(1,2,3)` with normal `(3,0,4)` and the point `(4,2,7)`
for C12. -/
theorem distanceToPoint_spec_witness :
    Real.sqrt ((Plane3D.fromPointNormal Real.sqrt (P3D.mk 1 2 3) (V3D.mk 3 0 4)).A ^ 2 +
        (Plane3D.fromPointNormal Real.sqrt (P3D.mk 1 2 3) (V3D.mk 3 0 4)).B ^ 2 +
        (Plane3D.fromPointNormal Real.sqrt (P3D.mk 1 2 3) (V3D.mk 3 0 4)).C ^ 2) = 1 ∧
      (Plane3D.fromPointNormal Real.sqrt (P3D.mk 1 2 3) (V3D.mk 3 0 4)).distanceToPoint
          Real.sqrt (P3D.mk 4 2 7) =
        |(Plane3D.fromPointNormal Real.sqrt (P3D.mk 1 2 3) (V3D.mk 3 0 4)).A * (P3D.mk (4 : ℝ) 2 7).x +
          (Plane3D.fromPointNormal Real.sqrt (P3D.mk 1 2 3) (V3D.mk 3 0 4)).B * (P3D.mk (4 : ℝ) 2 7).y +
          (Plane3D.fromPointNormal Real.sqrt (P3D.mk 1 2 3) (V3D.mk 3 0 4)).C * (P3D.mk (4 : ℝ) 2 7).z +
          (Plane3D.fromPointNormal Real.sqrt (P3D.mk 1 2 3) (V3D.mk 3 0 4)).D| ∧
      (Plane3D.fromPointNormal Real.sqrt (P3D.mk 1 2 3) (V3D.mk 3 0 4)).distanceToPoint
          Real.sqrt (P3D.mk 4 2 7) =
        |(V3D.mk (3 : ℝ) 0 4).dotProduct (V3D.fromPoints (P3D.mk 1 2 3) (P3D.mk 4 2 7))| /
          (V3D.mk (3 : ℝ) 0 4).length Real.sqrt ∧
      ((Plane3D.fromPointNormal Real.sqrt (P3D.mk (1 : ℝ) 2 3) (V3D.mk 3 0 4)).isOn
          (P3D.mk 4 2 7) = true ↔
        (Plane3D.fromPointNormal Real.sqrt (P3D.mk 1 2 3) (V3D.mk 3 0 4)).distanceToPoint
          Real.sqrt (P3D.mk 4 2 7) < 1 / 10000) :=
  distanceToPoint_spec _ _ _ (by
    rw [V3D.isNull_false_iff]; norm_num [Tolerance_small, abs_lt])

/-- The point `(4,2,7)` is at distance `5` from the plane through `(1,2,3)`
with normal `(3,0,4)`. -/
theorem distanceToPoint_example :
    (Plane3D.fromPointNormal Real.sqrt (P3D.mk 1 2 3) (V3D.mk 3 0 4)).distanceToPoint
      Real.sqrt (P3D.mk 4 2 7) = 5 := by
  have h25 : Real.sqrt 25 = 5 := by
    rw [show (25 : ℝ) = 5 ^ 2 by norm_num]
    exact Real.sqrt_sq (by norm_num)
  have hL : (V3D.mk (3 : ℝ) 0 4).length Real.sqrt = 5 := by
    norm_num [V3D.length, h25]
  have hu := Plane3D.fromPointNormal_sumSq (P3D.mk 1 2 3) (V3D.mk 3 0 4) (by rw [hL]; norm_num)
  rw [Plane3D.distanceToPoint_of_unit _ _ hu, Plane3D.value_fromPointNormal, hL]
  norm_num [V3D.fromPoints, V3D.dotProduct]

/-! ## C13 and C14: the two outcomes of the skew branch -/

/-- In the skew branch `doLineSegmentsIntersect`, called on `p1` and the
projected points, is the end-point test on the projected points or the
orientation test, which can be evaluated on the points before projection. -/
theorem doLineSegmentsIntersect_projected (p1 p2 p3 p4 : P3D ℝ) (n : V3D ℝ)
    (hL : 0 < n.length Real.sqrt) :
    DistanceCalculator.doLineSegmentsIntersect Real.sqrt p1
        (DistanceCalculator.projectPointOnPlane Real.sqrt p2
          (Plane3D.fromPointNormal Real.sqrt p1 n))
        (DistanceCalculator.projectPointOnPlane Real.sqrt p3
          (Plane3D.fromPointNormal Real.sqrt p1 n))
        (DistanceCalculator.projectPointOnPlane Real.sqrt p4
          (Plane3D.fromPointNormal Real.sqrt p1 n)) n =
      (DistanceCalculator.haveCommonEndpoint p1
          (DistanceCalculator.projectPointOnPlane Real.sqrt p2
            (Plane3D.fromPointNormal Real.sqrt p1 n))
          (DistanceCalculator.projectPointOnPlane Real.sqrt p3
            (Plane3D.fromPointNormal Real.sqrt p1 n))
          (DistanceCalculator.projectPointOnPlane Real.sqrt p4
            (Plane3D.fromPointNormal Real.sqrt p1 n)) ||
        DistanceCalculator.orientationTest p1 p2 p3 p4 n) := by
  set pl := Plane3D.fromPointNormal Real.sqrt p1 n with hpl
  have hu : pl.A ^ 2 + pl.B ^ 2 + pl.C ^ 2 = 1 := Plane3D.fromPointNormal_sumSq p1 n hL
  rw [doLineSegmentsIntersect_of_isOn p1 _ _ _ n
    (Plane3D.isOn_fromPointNormal_self p1 n)
    (isOn_projectPointOnPlane pl p2 hu) (isOn_projectPointOnPlane pl p3 hu)
    (isOn_projectPointOnPlane pl p4 hu)]
  congr 1
  rw [projectPointOnPlane_of_unit pl p2 hu, projectPointOnPlane_of_unit pl p3 hu,
    projectPointOnPlane_of_unit pl p4 hu]
  exact orientationTest_shift p1 p2 p3 p4 n (n.length Real.sqrt) _ _ _

/-- In the skew branch `calculate()` returns the plane distance or the
end-point minimum according to `doLineSegmentsIntersect`. -/
theorem calculate_eq_of_doLineSegmentsIntersect (p1 p2 p3 p4 : P3D ℝ)
    (hce : DistanceCalculator.haveCommonEndpoint p1 p2 p3 p4 = false)
    (h12 : (V3D.fromPoints p1 p2).isNull = false)
    (h34 : (V3D.fromPoints p3 p4).isNull = false)
    (hc : ((V3D.fromPoints p1 p2).crossProduct (V3D.fromPoints p3 p4)).isNull = false) :
    (DistanceCalculator.mk p1 p2 p3 p4).calculate Real.sqrt =
      if DistanceCalculator.doLineSegmentsIntersect Real.sqrt p1
          (DistanceCalculator.projectPointOnPlane Real.sqrt p2
            (Plane3D.fromPointNormal Real.sqrt p1
              ((V3D.fromPoints p1 p2).crossProduct (V3D.fromPoints p3 p4))))
          (DistanceCalculator.projectPointOnPlane Real.sqrt p3
            (Plane3D.fromPointNormal Real.sqrt p1
              ((V3D.fromPoints p1 p2).crossProduct (V3D.fromPoints p3 p4))))
          (DistanceCalculator.projectPointOnPlane Real.sqrt p4
            (Plane3D.fromPointNormal Real.sqrt p1
              ((V3D.fromPoints p1 p2).crossProduct (V3D.fromPoints p3 p4))))
          ((V3D.fromPoints p1 p2).crossProduct (V3D.fromPoints p3 p4)) = true
      then (Plane3D.fromPointNormal Real.sqrt p1
          ((V3D.fromPoints p1 p2).crossProduct (V3D.fromPoints p3 p4))).distanceToPoint
            Real.sqrt p3
      else DistanceCalculator.calculateMinDistanceBetweenEnds Real.sqrt p1 p2 p3 p4 := by
  have hL := V3D.length_pos_of_not_isNull _ hc
  rw [calculate_eq_of_cross_not_isNull p1 p2 p3 p4 hce h12 h34 hc,
    doLineSegmentsIntersect_projected p1 p2 p3 p4 _ hL,
    Plane3D.distanceToPoint_of_unit _ _ (Plane3D.fromPointNormal_sumSq p1 _ hL)]

/-- The distance of `p3` from the plane through `p1` with normal `n` is below
the distance of any two points of the lines `p1 p2` and `p3 p4` when
`n = v12 × v34`. -/
theorem planeDistance_le (p1 p2 p3 p4 : P3D ℝ)
    (hN : 0 < ((V3D.fromPoints p1 p2).crossProduct (V3D.fromPoints p3 p4)).dotProduct
      ((V3D.fromPoints p1 p2).crossProduct (V3D.fromPoints p3 p4)))
    (d : ℝ) (hd : d ∈ segmentSegmentDistances Real.sqrt p1 p2 p3 p4) :
    |(Plane3D.fromPointNormal Real.sqrt p1
        ((V3D.fromPoints p1 p2).crossProduct (V3D.fromPoints p3 p4))).value p3| ≤ d := by
  obtain ⟨s, t, -, -, -, -, rfl⟩ := hd
  rw [abs_value_fromPointNormal, euclideanDistance_segmentPoint]
  exact Real.sqrt_le_sqrt (separationSq_ge_normal _ _ _ s t hN)

/-- C14: in the skew branch (no tolerance-shared end point, both direction
vectors and their cross product not null), when `doLineSegmentsIntersect`
reports the projected segments as not intersecting, `calculate()` returns the
minimum of the four end-point-to-opposite-segment distances, and this value
is the minimum Euclidean distance between the two closed segments. -/
theorem calculate_skew_not_intersecting (p1 p2 p3 p4 : P3D ℝ)
    (hce : DistanceCalculator.haveCommonEndpoint p1 p2 p3 p4 = false)
    (h12 : (V3D.fromPoints p1 p2).isNull = false)
    (h34 : (V3D.fromPoints p3 p4).isNull = false)
    (hc : ((V3D.fromPoints p1 p2).crossProduct (V3D.fromPoints p3 p4)).isNull = false)
    (hd : DistanceCalculator.doLineSegmentsIntersect Real.sqrt p1
        (DistanceCalculator.projectPointOnPlane Real.sqrt p2
          (Plane3D.fromPointNormal Real.sqrt p1
            ((V3D.fromPoints p1 p2).crossProduct (V3D.fromPoints p3 p4))))
        (DistanceCalculator.projectPointOnPlane Real.sqrt p3
          (Plane3D.fromPointNormal Real.sqrt p1
            ((V3D.fromPoints p1 p2).crossProduct (V3D.fromPoints p3 p4))))
        (DistanceCalculator.projectPointOnPlane Real.sqrt p4
          (Plane3D.fromPointNormal Real.sqrt p1
            ((V3D.fromPoints p1 p2).crossProduct (V3D.fromPoints p3 p4))))
        ((V3D.fromPoints p1 p2).crossProduct (V3D.fromPoints p3 p4)) = false) :
    (DistanceCalculator.mk p1 p2 p3 p4).calculate Real.sqrt =
        DistanceCalculator.calculateMinDistanceBetweenEnds Real.sqrt p1 p2 p3 p4 ∧
      IsLeast (segmentSegmentDistances Real.sqrt p1 p2 p3 p4)
        ((DistanceCalculator.mk p1 p2 p3 p4).calculate Real.sqrt) := by
  have hL := V3D.length_pos_of_not_isNull _ hc
  have hN := V3D.dot_self_pos_of_not_isNull _ hc
  have he : (DistanceCalculator.mk p1 p2 p3 p4).calculate Real.sqrt =
      DistanceCalculator.calculateMinDistanceBetweenEnds Real.sqrt p1 p2 p3 p4 := by
    rw [calculate_eq_of_doLineSegmentsIntersect p1 p2 p3 p4 hce h12 h34 hc, hd]
    simp
  refine ⟨he, ?_⟩
  rw [he]
  rw [doLineSegmentsIntersect_projected p1 p2 p3 p4 _ hL, Bool.or_eq_false_iff] at hd
  exact calculateMinDistanceBetweenEnds_isLeast_skew p1 p2 p3 p4
    (sumSq_pos_of_not_isNull p1 p2 h12) (sumSq_pos_of_not_isNull p3 p4 h34) hN hd.2

/-- C13, amended: in the skew branch, when `doLineSegmentsIntersect` reports the
projected segments as intersecting, `calculate()` returns the distance from
`p3` to the plane through `p1` with normal `v12 × v34`, namely
`|(p3 - p1) . (v12 × v34)| / |v12 × v34|`; this value is a lower bound of the
distance of any two points of the segments, and it is the minimum Euclidean
distance between the segments when the points handed to
`doLineSegmentsIntersect` have no tolerance-shared end point (the
intersection is then reported by the orientation test). -/
theorem calculate_skew_intersecting (p1 p2 p3 p4 : P3D ℝ)
    (hce : DistanceCalculator.haveCommonEndpoint p1 p2 p3 p4 = false)
    (h12 : (V3D.fromPoints p1 p2).isNull = false)
    (h34 : (V3D.fromPoints p3 p4).isNull = false)
    (hc : ((V3D.fromPoints p1 p2).crossProduct (V3D.fromPoints p3 p4)).isNull = false)
    (hd : DistanceCalculator.doLineSegmentsIntersect Real.sqrt p1
        (DistanceCalculator.projectPointOnPlane Real.sqrt p2
          (Plane3D.fromPointNormal Real.sqrt p1
            ((V3D.fromPoints p1 p2).crossProduct (V3D.fromPoints p3 p4))))
        (DistanceCalculator.projectPointOnPlane Real.sqrt p3
          (Plane3D.fromPointNormal Real.sqrt p1
            ((V3D.fromPoints p1 p2).crossProduct (V3D.fromPoints p3 p4))))
        (DistanceCalculator.projectPointOnPlane Real.sqrt p4
          (Plane3D.fromPointNormal Real.sqrt p1
            ((V3D.fromPoints p1 p2).crossProduct (V3D.fromPoints p3 p4))))
        ((V3D.fromPoints p1 p2).crossProduct (V3D.fromPoints p3 p4)) = true) :
    (DistanceCalculator.mk p1 p2 p3 p4).calculate Real.sqrt =
        (Plane3D.fromPointNormal Real.sqrt p1
          ((V3D.fromPoints p1 p2).crossProduct (V3D.fromPoints p3 p4))).distanceToPoint
            Real.sqrt p3 ∧
      (DistanceCalculator.mk p1 p2 p3 p4).calculate Real.sqrt =
        |(V3D.fromPoints p1 p3).dotProduct
            ((V3D.fromPoints p1 p2).crossProduct (V3D.fromPoints p3 p4))| /
          ((V3D.fromPoints p1 p2).crossProduct (V3D.fromPoints p3 p4)).length Real.sqrt ∧
      (∀ d ∈ segmentSegmentDistances Real.sqrt p1 p2 p3 p4,
        (DistanceCalculator.mk p1 p2 p3 p4).calculate Real.sqrt ≤ d) ∧
      (DistanceCalculator.haveCommonEndpoint p1
          (DistanceCalculator.projectPointOnPlane Real.sqrt p2
            (Plane3D.fromPointNormal Real.sqrt p1
              ((V3D.fromPoints p1 p2).crossProduct (V3D.fromPoints p3 p4))))
          (DistanceCalculator.projectPointOnPlane Real.sqrt p3
            (Plane3D.fromPointNormal Real.sqrt p1
              ((V3D.fromPoints p1 p2).crossProduct (V3D.fromPoints p3 p4))))
          (DistanceCalculator.projectPointOnPlane Real.sqrt p4
            (Plane3D.fromPointNormal Real.sqrt p1
              ((V3D.fromPoints p1 p2).crossProduct (V3D.fromPoints p3 p4)))) = false →
        IsLeast (segmentSegmentDistances Real.sqrt p1 p2 p3 p4)
          ((DistanceCalculator.mk p1 p2 p3 p4).calculate Real.sqrt)) := by
  have hL := V3D.length_pos_of_not_isNull _ hc
  have hN := V3D.dot_self_pos_of_not_isNull _ hc
  have hu := Plane3D.fromPointNormal_sumSq p1 _ hL
  have he : (DistanceCalculator.mk p1 p2 p3 p4).calculate Real.sqrt =
      (Plane3D.fromPointNormal Real.sqrt p1
        ((V3D.fromPoints p1 p2).crossProduct (V3D.fromPoints p3 p4))).distanceToPoint
          Real.sqrt p3 := by
    rw [calculate_eq_of_doLineSegmentsIntersect p1 p2 p3 p4 hce h12 h34 hc, hd]
    simp
  have hv := Plane3D.distanceToPoint_of_unit _ p3 hu
  refine ⟨he, ?_, ?_, ?_⟩
  · rw [he, hv, Plane3D.value_fromPointNormal, abs_div, abs_of_pos hL]
  · intro d hdm
    rw [he, hv]
    exact planeDistance_le p1 p2 p3 p4 hN d hdm
  · intro hpe
    rw [he, hv]
    rw [doLineSegmentsIntersect_projected p1 p2 p3 p4 _ hL, hpe, Bool.false_or] at hd
    exact planeDistance_isLeast p1 p2 p3 p4 hN hd

theorem V3D.isNull_unitZ : (V3D.mk (0 : ℝ) 0 1).isNull = false := by
  rw [V3D.isNull_false_iff]; norm_num [Tolerance_small, abs_lt]

theorem Plane3D.fromPointNormal_unitZ (p : P3D ℝ) :
    Plane3D.fromPointNormal Real.sqrt p (V3D.mk 0 0 1) = Plane3D.mk 0 0 1 (-p.z) := by
  norm_num [Plane3D.fromPointNormal, V3D.normal, V3D.length]

/-- On the plane `z = c` the projection replaces the `z` coordinate by `c`,
unless the point is less than `eps / 2` above the plane. -/
theorem projectPointOnPlane_unitZ (q : P3D ℝ) (c : ℝ)
    (h : q.z - c ≤ 0 ∨ Tolerance_small / 2 ≤ q.z - c) :
    DistanceCalculator.projectPointOnPlane Real.sqrt q (Plane3D.mk 0 0 1 (-c)) =
      P3D.mk q.x q.y c := by
  have hu : (Plane3D.mk (0 : ℝ) 0 1 (-c)).A ^ 2 + (Plane3D.mk (0 : ℝ) 0 1 (-c)).B ^ 2 +
      (Plane3D.mk (0 : ℝ) 0 1 (-c)).C ^ 2 = 1 := by norm_num
  rw [projectPointOnPlane_of_unit _ _ hu]
  have hv : (Plane3D.mk (0 : ℝ) 0 1 (-c)).value q = q.z - c := by
    simp only [Plane3D.value]; ring
  have hs : projectionShift (q.z - c) = -(q.z - c) := by
    unfold projectionShift
    rcases h with h | h
    · rw [abs_of_nonpos h]
      simp [Tolerance_small_pos]
    · have hpos : 0 < q.z - c := lt_of_lt_of_le (half_pos Tolerance_small_pos) h
      rw [abs_of_pos hpos, if_neg]
      rw [abs_of_pos (by linarith)]
      linarith
  rw [hv, hs]
  simp only [P3D.operatorPlus, V3D.operatorMulAssign, P3D.mk.injEq]
  refine ⟨by ring, by ring, by ring⟩

/-! ### The near-touching pair `(0,0,0)-(1,0,0)`, `(-1/20000,0,1)-(-1/20000,1,1)` -/

theorem nearTouch_cross :
    (V3D.fromPoints (P3D.mk (0 : ℝ) 0 0) (P3D.mk 1 0 0)).crossProduct
      (V3D.fromPoints (P3D.mk (-1 / 20000) 0 1) (P3D.mk (-1 / 20000) 1 1)) = V3D.mk 0 0 1 := by
  norm_num [V3D.fromPoints, V3D.crossProduct]

theorem nearTouch_haveCommonEndpoint :
    DistanceCalculator.haveCommonEndpoint (P3D.mk (0 : ℝ) 0 0) (P3D.mk 1 0 0)
      (P3D.mk (-1 / 20000) 0 1) (P3D.mk (-1 / 20000) 1 1) = false := by
  rw [haveCommonEndpoint_false_iff]
  simp only [P3D.operatorEq_false_iff]
  norm_num [Tolerance_small, abs_lt]

/-- The direction vector of `(0,0,0)-(1,0,0)` is not null. -/
theorem unitSegment_isNull :
    (V3D.fromPoints (P3D.mk (0 : ℝ) 0 0) (P3D.mk 1 0 0)).isNull = false := by
  rw [V3D.isNull_false_iff]; norm_num [V3D.fromPoints, Tolerance_small, abs_lt]

theorem nearTouch_isNull34 :
    (V3D.fromPoints (P3D.mk (-1 / 20000 : ℝ) 0 1) (P3D.mk (-1 / 20000) 1 1)).isNull = false := by
  rw [V3D.isNull_false_iff]; norm_num [V3D.fromPoints, Tolerance_small, abs_lt]

theorem nearTouch_doLineSegmentsIntersect :
    DistanceCalculator.doLineSegmentsIntersect Real.sqrt (P3D.mk (0 : ℝ) 0 0)
      (DistanceCalculator.projectPointOnPlane Real.sqrt (P3D.mk 1 0 0)
        (Plane3D.fromPointNormal Real.sqrt (P3D.mk 0 0 0) (V3D.mk 0 0 1)))
      (DistanceCalculator.projectPointOnPlane Real.sqrt (P3D.mk (-1 / 20000) 0 1)
        (Plane3D.fromPointNormal Real.sqrt (P3D.mk 0 0 0) (V3D.mk 0 0 1)))
      (DistanceCalculator.projectPointOnPlane Real.sqrt (P3D.mk (-1 / 20000) 1 1)
        (Plane3D.fromPointNormal Real.sqrt (P3D.mk 0 0 0) (V3D.mk 0 0 1)))
      (V3D.mk 0 0 1) = true := by
  rw [doLineSegmentsIntersect_projected _ _ _ _ _ (V3D.length_pos_of_not_isNull _ V3D.isNull_unitZ),
    Bool.or_eq_true]
  left
  rw [Plane3D.fromPointNormal_unitZ, haveCommonEndpoint_iff]
  left
  have h3 := projectPointOnPlane_unitZ (P3D.mk (-1 / 20000) 0 1) 0
    (Or.inr (by norm_num [Tolerance_small]))
  simp only [neg_zero] at h3 ⊢
  rw [h3, P3D.operatorEq_iff]
  norm_num [Tolerance_small, abs_lt]

/-- For the near-touching pair `calculate()` returns the plane distance `1`. -/
theorem nearTouch_value :
    (DistanceCalculator.mk (P3D.mk 0 0 0) (P3D.mk 1 0 0) (P3D.mk (-1 / 20000) 0 1)
      (P3D.mk (-1 / 20000) 1 1)).calculate Real.sqrt = (1 : ℝ) := by
  have hc : ((V3D.fromPoints (P3D.mk (0 : ℝ) 0 0) (P3D.mk 1 0 0)).crossProduct
      (V3D.fromPoints (P3D.mk (-1 / 20000) 0 1) (P3D.mk (-1 / 20000) 1 1))).isNull = false := by
    rw [nearTouch_cross]; exact V3D.isNull_unitZ
  rw [calculate_eq_of_doLineSegmentsIntersect _ _ _ _ nearTouch_haveCommonEndpoint
    unitSegment_isNull nearTouch_isNull34 hc]
  simp only [nearTouch_cross, nearTouch_doLineSegmentsIntersect, if_true]
  rw [Plane3D.fromPointNormal_unitZ]
  norm_num [Plane3D.distanceToPoint]

/-- No two points of the near-touching pair are at distance `1`. -/
theorem nearTouch_not_isLeast :
    ¬ IsLeast
      (segmentSegmentDistances Real.sqrt (P3D.mk (0 : ℝ) 0 0) (P3D.mk 1 0 0)
        (P3D.mk (-1 / 20000) 0 1) (P3D.mk (-1 / 20000) 1 1)) 1 := by
  intro hl
  obtain ⟨s, t, hs0, -, -, -, hst⟩ := hl.1
  have h1 := hst.symm
  unfold euclideanDistance segmentPoint at h1
  rw [Real.sqrt_eq_one] at h1
  simp only at h1
  nlinarith [sq_nonneg (0 + t * (1 - 0)), sq_nonneg (0 + s * (0 - 0) - (1 + t * (1 - 1))),
    sq_nonneg s]

/-! ### The crossing pair `(0,0,0)-(1,0,0)`, `(1/2,-1/2,1)-(1/2,1/2,1)` -/

theorem crossing_cross :
    (V3D.fromPoints (P3D.mk (0 : ℝ) 0 0) (P3D.mk 1 0 0)).crossProduct
      (V3D.fromPoints (P3D.mk (1 / 2) (-1 / 2) 1) (P3D.mk (1 / 2) (1 / 2) 1)) =
      V3D.mk 0 0 1 := by
  norm_num [V3D.fromPoints, V3D.crossProduct]

theorem crossing_haveCommonEndpoint :
    DistanceCalculator.haveCommonEndpoint (P3D.mk (0 : ℝ) 0 0) (P3D.mk 1 0 0)
      (P3D.mk (1 / 2) (-1 / 2) 1) (P3D.mk (1 / 2) (1 / 2) 1) = false := by
  rw [haveCommonEndpoint_false_iff]
  simp only [P3D.operatorEq_false_iff]
  norm_num [Tolerance_small, abs_lt]

theorem crossing_isNull34 :
    (V3D.fromPoints (P3D.mk (1 / 2 : ℝ) (-1 / 2) 1) (P3D.mk (1 / 2) (1 / 2) 1)).isNull =
      false := by
  rw [V3D.isNull_false_iff]; norm_num [V3D.fromPoints, Tolerance_small, abs_lt]

theorem crossing_haveCommonEndpoint_projected :
    DistanceCalculator.haveCommonEndpoint (P3D.mk (0 : ℝ) 0 0)
      (DistanceCalculator.projectPointOnPlane Real.sqrt (P3D.mk 1 0 0)
        (Plane3D.fromPointNormal Real.sqrt (P3D.mk 0 0 0) (V3D.mk 0 0 1)))
      (DistanceCalculator.projectPointOnPlane Real.sqrt (P3D.mk (1 / 2) (-1 / 2) 1)
        (Plane3D.fromPointNormal Real.sqrt (P3D.mk 0 0 0) (V3D.mk 0 0 1)))
      (DistanceCalculator.projectPointOnPlane Real.sqrt (P3D.mk (1 / 2) (1 / 2) 1)
        (Plane3D.fromPointNormal Real.sqrt (P3D.mk 0 0 0) (V3D.mk 0 0 1))) = false := by
  rw [Plane3D.fromPointNormal_unitZ]
  have h2 := projectPointOnPlane_unitZ (P3D.mk 1 0 0) 0 (Or.inl (by norm_num))
  have h3 := projectPointOnPlane_unitZ (P3D.mk (1 / 2) (-1 / 2) 1) 0
    (Or.inr (by norm_num [Tolerance_small]))
  have h4 := projectPointOnPlane_unitZ (P3D.mk (1 / 2) (1 / 2) 1) 0
    (Or.inr (by norm_num [Tolerance_small]))
  simp only [neg_zero] at h2 h3 h4 ⊢
  rw [h2, h3, h4, haveCommonEndpoint_false_iff]
  simp only [P3D.operatorEq_false_iff]
  norm_num [Tolerance_small, abs_lt]

theorem crossing_doLineSegmentsIntersect :
    DistanceCalculator.doLineSegmentsIntersect Real.sqrt (P3D.mk (0 : ℝ) 0 0)
      (DistanceCalculator.projectPointOnPlane Real.sqrt (P3D.mk 1 0 0)
        (Plane3D.fromPointNormal Real.sqrt (P3D.mk 0 0 0) (V3D.mk 0 0 1)))
      (DistanceCalculator.projectPointOnPlane Real.sqrt (P3D.mk (1 / 2) (-1 / 2) 1)
        (Plane3D.fromPointNormal Real.sqrt (P3D.mk 0 0 0) (V3D.mk 0 0 1)))
      (DistanceCalculator.projectPointOnPlane Real.sqrt (P3D.mk (1 / 2) (1 / 2) 1)
        (Plane3D.fromPointNormal Real.sqrt (P3D.mk 0 0 0) (V3D.mk 0 0 1)))
      (V3D.mk 0 0 1) = true := by
  rw [doLineSegmentsIntersect_projected _ _ _ _ _ (V3D.length_pos_of_not_isNull _ V3D.isNull_unitZ),
    Bool.or_eq_true]
  right
  norm_num [DistanceCalculator.orientationTest, V3D.fromPoints, V3D.crossProduct,
    V3D.dotProduct]

/-! ### The pair `(0,0,0)-(1,0,0)`, `(3,-1/2,1)-(3,1/2,1)`, whose projections do not meet -/

theorem apart_cross :
    (V3D.fromPoints (P3D.mk (0 : ℝ) 0 0) (P3D.mk 1 0 0)).crossProduct
      (V3D.fromPoints (P3D.mk 3 (-1 / 2) 1) (P3D.mk 3 (1 / 2) 1)) = V3D.mk 0 0 1 := by
  norm_num [V3D.fromPoints, V3D.crossProduct]

theorem apart_haveCommonEndpoint :
    DistanceCalculator.haveCommonEndpoint (P3D.mk (0 : ℝ) 0 0) (P3D.mk 1 0 0)
      (P3D.mk 3 (-1 / 2) 1) (P3D.mk 3 (1 / 2) 1) = false := by
  rw [haveCommonEndpoint_false_iff]
  simp only [P3D.operatorEq_false_iff]
  norm_num [Tolerance_small, abs_lt]

theorem apart_isNull34 :
    (V3D.fromPoints (P3D.mk (3 : ℝ) (-1 / 2) 1) (P3D.mk 3 (1 / 2) 1)).isNull = false := by
  rw [V3D.isNull_false_iff]; norm_num [V3D.fromPoints, Tolerance_small, abs_lt]

theorem apart_doLineSegmentsIntersect :
    DistanceCalculator.doLineSegmentsIntersect Real.sqrt (P3D.mk (0 : ℝ) 0 0)
      (DistanceCalculator.projectPointOnPlane Real.sqrt (P3D.mk 1 0 0)
        (Plane3D.fromPointNormal Real.sqrt (P3D.mk 0 0 0) (V3D.mk 0 0 1)))
      (DistanceCalculator.projectPointOnPlane Real.sqrt (P3D.mk 3 (-1 / 2) 1)
        (Plane3D.fromPointNormal Real.sqrt (P3D.mk 0 0 0) (V3D.mk 0 0 1)))
      (DistanceCalculator.projectPointOnPlane Real.sqrt (P3D.mk 3 (1 / 2) 1)
        (Plane3D.fromPointNormal Real.sqrt (P3D.mk 0 0 0) (V3D.mk 0 0 1)))
      (V3D.mk 0 0 1) = false := by
  rw [doLineSegmentsIntersect_projected _ _ _ _ _ (V3D.length_pos_of_not_isNull _ V3D.isNull_unitZ),
    Bool.or_eq_false_iff]
  constructor
  · rw [Plane3D.fromPointNormal_unitZ]
    have h2 := projectPointOnPlane_unitZ (P3D.mk 1 0 0) 0 (Or.inl (by norm_num))
    have h3 := projectPointOnPlane_unitZ (P3D.mk 3 (-1 / 2) 1) 0
      (Or.inr (by norm_num [Tolerance_small]))
    have h4 := projectPointOnPlane_unitZ (P3D.mk 3 (1 / 2) 1) 0
      (Or.inr (by norm_num [Tolerance_small]))
    simp only [neg_zero] at h2 h3 h4 ⊢
    rw [h2, h3, h4, haveCommonEndpoint_false_iff]
    simp only [P3D.operatorEq_false_iff]
    norm_num [Tolerance_small, abs_lt]
  · norm_num [DistanceCalculator.orientationTest, V3D.fromPoints, V3D.crossProduct,
      V3D.dotProduct]

/-- C13 as stated fails: for `(0,0,0)-(1,0,0)` and
`(-1/20000,0,1)-(-1/20000,1,1)` the skew branch is reached and
`doLineSegmentsIntersect` reports an intersection, because the projection of
`p3` is tolerance-equal to `p1`; the value returned, the plane distance `1`,
is not the minimum distance: no two points of the segments are at distance
`1`. -/
theorem calculate_skew_intersecting_counterexample :
    DistanceCalculator.haveCommonEndpoint (P3D.mk (0 : ℝ) 0 0) (P3D.mk 1 0 0)
        (P3D.mk (-1 / 20000) 0 1) (P3D.mk (-1 / 20000) 1 1) = false ∧
      (V3D.fromPoints (P3D.mk (0 : ℝ) 0 0) (P3D.mk 1 0 0)).isNull = false ∧
      (V3D.fromPoints (P3D.mk (-1 / 20000 : ℝ) 0 1) (P3D.mk (-1 / 20000) 1 1)).isNull = false ∧
      ((V3D.fromPoints (P3D.mk (0 : ℝ) 0 0) (P3D.mk 1 0 0)).crossProduct
        (V3D.fromPoints (P3D.mk (-1 / 20000) 0 1) (P3D.mk (-1 / 20000) 1 1))).isNull = false ∧
      DistanceCalculator.doLineSegmentsIntersect Real.sqrt (P3D.mk (0 : ℝ) 0 0)
        (DistanceCalculator.projectPointOnPlane Real.sqrt (P3D.mk 1 0 0)
          (Plane3D.fromPointNormal Real.sqrt (P3D.mk 0 0 0)
            ((V3D.fromPoints (P3D.mk (0 : ℝ) 0 0) (P3D.mk 1 0 0)).crossProduct
              (V3D.fromPoints (P3D.mk (-1 / 20000) 0 1) (P3D.mk (-1 / 20000) 1 1)))))
        (DistanceCalculator.projectPointOnPlane Real.sqrt (P3D.mk (-1 / 20000) 0 1)
          (Plane3D.fromPointNormal Real.sqrt (P3D.mk 0 0 0)
            ((V3D.fromPoints (P3D.mk (0 : ℝ) 0 0) (P3D.mk 1 0 0)).crossProduct
              (V3D.fromPoints (P3D.mk (-1 / 20000) 0 1) (P3D.mk (-1 / 20000) 1 1)))))
        (DistanceCalculator.projectPointOnPlane Real.sqrt (P3D.mk (-1 / 20000) 1 1)
          (Plane3D.fromPointNormal Real.sqrt (P3D.mk 0 0 0)
            ((V3D.fromPoints (P3D.mk (0 : ℝ) 0 0) (P3D.mk 1 0 0)).crossProduct
              (V3D.fromPoints (P3D.mk (-1 / 20000) 0 1) (P3D.mk (-1 / 20000) 1 1)))))
        ((V3D.fromPoints (P3D.mk (0 : ℝ) 0 0) (P3D.mk 1 0 0)).crossProduct
          (V3D.fromPoints (P3D.mk (-1 / 20000) 0 1) (P3D.mk (-1 / 20000) 1 1))) = true ∧
      ¬ IsLeast
        (segmentSegmentDistances Real.sqrt (P3D.mk (0 : ℝ) 0 0) (P3D.mk 1 0 0)
          (P3D.mk (-1 / 20000) 0 1) (P3D.mk (-1 / 20000) 1 1))
        ((DistanceCalculator.mk (P3D.mk 0 0 0) (P3D.mk 1 0 0) (P3D.mk (-1 / 20000) 0 1)
          (P3D.mk (-1 / 20000) 1 1)).calculate Real.sqrt) := by
  refine ⟨nearTouch_haveCommonEndpoint, unitSegment_isNull, nearTouch_isNull34, ?_, ?_, ?_⟩
  · rw [nearTouch_cross]; exact V3D.isNull_unitZ
  · rw [nearTouch_cross]; exact nearTouch_doLineSegmentsIntersect
  · rw [nearTouch_value]; exact nearTouch_not_isLeast

/-- The crossing pair `(0,0,0)-(1,0,0)`, `(1/2,-1/2,1)-(1/2,1/2,1)` for amended
C13. -/
theorem calculate_skew_intersecting_witness :
    IsLeast
      (segmentSegmentDistances Real.sqrt (P3D.mk (0 : ℝ) 0 0) (P3D.mk 1 0 0)
        (P3D.mk (1 / 2) (-1 / 2) 1) (P3D.mk (1 / 2) (1 / 2) 1))
      ((DistanceCalculator.mk (P3D.mk 0 0 0) (P3D.mk 1 0 0) (P3D.mk (1 / 2) (-1 / 2) 1)
        (P3D.mk (1 / 2) (1 / 2) 1)).calculate Real.sqrt) :=
  (calculate_skew_intersecting _ _ _ _ crossing_haveCommonEndpoint unitSegment_isNull
    crossing_isNull34 (by rw [crossing_cross]; exact V3D.isNull_unitZ)
    (by rw [crossing_cross]; exact crossing_doLineSegmentsIntersect)).2.2.2
    (by rw [crossing_cross]; exact crossing_haveCommonEndpoint_projected)

/-- The pair `(0,0,0)-(1,0,0)`, `(3,-1/2,1)-(3,1/2,1)` for C14. -/
theorem calculate_skew_not_intersecting_witness :
    (DistanceCalculator.mk (P3D.mk 0 0 0) (P3D.mk 1 0 0) (P3D.mk 3 (-1 / 2) 1)
        (P3D.mk 3 (1 / 2) 1)).calculate Real.sqrt =
        DistanceCalculator.calculateMinDistanceBetweenEnds Real.sqrt (P3D.mk (0 : ℝ) 0 0)
          (P3D.mk 1 0 0) (P3D.mk 3 (-1 / 2) 1) (P3D.mk 3 (1 / 2) 1) ∧
      IsLeast
        (segmentSegmentDistances Real.sqrt (P3D.mk (0 : ℝ) 0 0) (P3D.mk 1 0 0)
          (P3D.mk 3 (-1 / 2) 1) (P3D.mk 3 (1 / 2) 1))
        ((DistanceCalculator.mk (P3D.mk 0 0 0) (P3D.mk 1 0 0) (P3D.mk 3 (-1 / 2) 1)
          (P3D.mk 3 (1 / 2) 1)).calculate Real.sqrt) :=
  calculate_skew_not_intersecting _ _ _ _ apart_haveCommonEndpoint unitSegment_isNull
    apart_isNull34 (by rw [apart_cross]; exact V3D.isNull_unitZ)
    (by rw [apart_cross]; exact apart_doLineSegmentsIntersect)

/-! ## C15 and C16: the projection onto the plane -/

/-- For a plane value `e <= 0` or `e >= eps / 2` the shift of
`projectPointOnPlane` is `-e`, the one of the orthogonal projection. -/
theorem projectionShift_of_nonpos_or_ge (e : ℝ) (h : e ≤ 0 ∨ Tolerance_small / 2 ≤ e) :
    projectionShift e = -e := by
  unfold projectionShift
  rcases h with h | h
  · rw [abs_of_nonpos h]
    simp [Tolerance_small_pos]
  · have hpos : 0 < e := lt_of_lt_of_le (half_pos Tolerance_small_pos) h
    rw [abs_of_pos hpos, if_neg]
    rw [abs_of_pos (by linarith)]
    linarith

/-- C15, amended: for a plane built from a normal that is not null and every
point `P`, `projectPointOnPlane(P, plane)` differs from `P` by a multiple of
the plane normal and lies on the plane within the tolerance (`isOn` holds,
`distanceToPoint` of the result is below `1e-4`); it lies exactly on the
plane (`distanceToPoint` of the result is `0`) when the plane value
`A x + B y + C z + D` of `P` is `<= 0` (`P` on the plane or on the negative
side) or `>= eps / 2`. -/
theorem projectPointOnPlane_spec (p0 q : P3D ℝ) (n : V3D ℝ) (h : n.isNull = false) :
    (∃ c : ℝ, DistanceCalculator.projectPointOnPlane Real.sqrt q
        (Plane3D.fromPointNormal Real.sqrt p0 n) =
      q.operatorPlus (((Plane3D.fromPointNormal Real.sqrt p0 n).normal
        Real.sqrt).operatorMulAssign c)) ∧
    (Plane3D.fromPointNormal Real.sqrt p0 n).isOn
      (DistanceCalculator.projectPointOnPlane Real.sqrt q
        (Plane3D.fromPointNormal Real.sqrt p0 n)) = true ∧
    (Plane3D.fromPointNormal Real.sqrt p0 n).distanceToPoint Real.sqrt
      (DistanceCalculator.projectPointOnPlane Real.sqrt q
        (Plane3D.fromPointNormal Real.sqrt p0 n)) < 1 / 10000 ∧
    ((Plane3D.fromPointNormal Real.sqrt p0 n).value q ≤ 0 ∨
        1 / 20000 ≤ (Plane3D.fromPointNormal Real.sqrt p0 n).value q →
      (Plane3D.fromPointNormal Real.sqrt p0 n).distanceToPoint Real.sqrt
        (DistanceCalculator.projectPointOnPlane Real.sqrt q
          (Plane3D.fromPointNormal Real.sqrt p0 n)) = 0) := by
  have hL := n.length_pos_of_not_isNull h
  have hu := Plane3D.fromPointNormal_sumSq p0 n hL
  have hp := projectPointOnPlane_of_unit (Plane3D.fromPointNormal Real.sqrt p0 n) q hu
  have hon := isOn_projectPointOnPlane (Plane3D.fromPointNormal Real.sqrt p0 n) q hu
  refine ⟨⟨_, by rw [Plane3D.normal_of_unit _ hu]; exact hp⟩, hon, ?_, ?_⟩
  · rw [Plane3D.distanceToPoint_of_unit _ _ hu]
    have := (Plane3D.isOn_iff _ _).1 hon
    simpa [Tolerance_small] using this
  · intro hv
    rw [Plane3D.distanceToPoint_of_unit _ _ hu, hp, Plane3D.value_operatorPlus _ _ _ hu,
      projectionShift_of_nonpos_or_ge _ (by
        rcases hv with hv | hv
        · exact Or.inl hv
        · right; simp only [Tolerance_small]; linarith)]
    simp

/-- C15 as stated fails: for the plane through `(0,0,0)` with normal `(0,0,1)`
and `P = (0,0,1/40000)` the first candidate `P + dist * normal =
(0,0,1/20000)` passes the tolerance test `isOn` and is returned; its distance
to the plane is `1/20000`, not `0`. -/
theorem projectPointOnPlane_spec_counterexample :
    (V3D.mk (0 : ℝ) 0 1).isNull = false ∧
      (Plane3D.fromPointNormal Real.sqrt (P3D.mk 0 0 0) (V3D.mk 0 0 1)).distanceToPoint Real.sqrt
        (DistanceCalculator.projectPointOnPlane Real.sqrt (P3D.mk 0 0 (1 / 40000))
          (Plane3D.fromPointNormal Real.sqrt (P3D.mk 0 0 0) (V3D.mk 0 0 1))) = 1 / 20000 ∧
      ¬ ((Plane3D.fromPointNormal Real.sqrt (P3D.mk 0 0 0) (V3D.mk 0 0 1)).distanceToPoint
        Real.sqrt
        (DistanceCalculator.projectPointOnPlane Real.sqrt (P3D.mk 0 0 (1 / 40000))
          (Plane3D.fromPointNormal Real.sqrt (P3D.mk 0 0 0) (V3D.mk 0 0 1))) = 0) := by
  have hval : (Plane3D.fromPointNormal Real.sqrt (P3D.mk 0 0 0)
      (V3D.mk 0 0 1)).distanceToPoint Real.sqrt
      (DistanceCalculator.projectPointOnPlane Real.sqrt (P3D.mk 0 0 (1 / 40000))
        (Plane3D.fromPointNormal Real.sqrt (P3D.mk 0 0 0) (V3D.mk 0 0 1))) = 1 / 20000 := by
    rw [Plane3D.fromPointNormal_unitZ]
    have hu : (Plane3D.mk (0 : ℝ) 0 1 (-(P3D.mk (0 : ℝ) 0 0).z)).A ^ 2 +
        (Plane3D.mk (0 : ℝ) 0 1 (-(P3D.mk (0 : ℝ) 0 0).z)).B ^ 2 +
        (Plane3D.mk (0 : ℝ) 0 1 (-(P3D.mk (0 : ℝ) 0 0).z)).C ^ 2 = 1 := by norm_num
    rw [Plane3D.distanceToPoint_of_unit _ _ hu, projectPointOnPlane_of_unit _ _ hu,
      Plane3D.value_operatorPlus _ _ _ hu]
    have ha : |(1 / 40000 : ℝ)| = 1 / 40000 := abs_of_pos (by norm_num)
    norm_num [Plane3D.value, projectionShift, Tolerance_small, abs_lt, ha]
  refine ⟨V3D.isNull_unitZ, hval, ?_⟩
  rw [hval]
  norm_num

/-- The plane `z = 0` and the point `(1/2,-1/2,1)` for amended C15. -/
theorem projectPointOnPlane_spec_witness :
    (Plane3D.fromPointNormal Real.sqrt (P3D.mk 0 0 0) (V3D.mk 0 0 1)).isOn
      (DistanceCalculator.projectPointOnPlane Real.sqrt (P3D.mk (1 / 2) (-1 / 2) 1)
        (Plane3D.fromPointNormal Real.sqrt (P3D.mk 0 0 0) (V3D.mk 0 0 1))) = true :=
  (projectPointOnPlane_spec (P3D.mk 0 0 0) (P3D.mk (1 / 2) (-1 / 2) 1) (V3D.mk 0 0 1)
    V3D.isNull_unitZ).2.1

/-- C16: in the skew branch the four points handed to
`doLineSegmentsIntersect` (`p1` and the projections of `p2`, `p3`, `p4` onto
the plane through `p1` with normal `v12 × v34`) all satisfy `isOn` for that
plane, so the early `return false` is not taken: the result is the end-point
test or the orientation test. -/
theorem isOn_check_never_fails (p1 p2 p3 p4 : P3D ℝ)
    (_hce : DistanceCalculator.haveCommonEndpoint p1 p2 p3 p4 = false)
    (_h12 : (V3D.fromPoints p1 p2).isNull = false)
    (_h34 : (V3D.fromPoints p3 p4).isNull = false)
    (hc : ((V3D.fromPoints p1 p2).crossProduct (V3D.fromPoints p3 p4)).isNull = false) :
    (Plane3D.fromPointNormal Real.sqrt p1
        ((V3D.fromPoints p1 p2).crossProduct (V3D.fromPoints p3 p4))).isOn p1 = true ∧
      (Plane3D.fromPointNormal Real.sqrt p1
        ((V3D.fromPoints p1 p2).crossProduct (V3D.fromPoints p3 p4))).isOn
        (DistanceCalculator.projectPointOnPlane Real.sqrt p2
          (Plane3D.fromPointNormal Real.sqrt p1
            ((V3D.fromPoints p1 p2).crossProduct (V3D.fromPoints p3 p4)))) = true ∧
      (Plane3D.fromPointNormal Real.sqrt p1
        ((V3D.fromPoints p1 p2).crossProduct (V3D.fromPoints p3 p4))).isOn
        (DistanceCalculator.projectPointOnPlane Real.sqrt p3
          (Plane3D.fromPointNormal Real.sqrt p1
            ((V3D.fromPoints p1 p2).crossProduct (V3D.fromPoints p3 p4)))) = true ∧
      (Plane3D.fromPointNormal Real.sqrt p1
        ((V3D.fromPoints p1 p2).crossProduct (V3D.fromPoints p3 p4))).isOn
        (DistanceCalculator.projectPointOnPlane Real.sqrt p4
          (Plane3D.fromPointNormal Real.sqrt p1
            ((V3D.fromPoints p1 p2).crossProduct (V3D.fromPoints p3 p4)))) = true ∧
      DistanceCalculator.doLineSegmentsIntersect Real.sqrt p1
          (DistanceCalculator.projectPointOnPlane Real.sqrt p2
            (Plane3D.fromPointNormal Real.sqrt p1
              ((V3D.fromPoints p1 p2).crossProduct (V3D.fromPoints p3 p4))))
          (DistanceCalculator.projectPointOnPlane Real.sqrt p3
            (Plane3D.fromPointNormal Real.sqrt p1
              ((V3D.fromPoints p1 p2).crossProduct (V3D.fromPoints p3 p4))))
          (DistanceCalculator.projectPointOnPlane Real.sqrt p4
            (Plane3D.fromPointNormal Real.sqrt p1
              ((V3D.fromPoints p1 p2).crossProduct (V3D.fromPoints p3 p4))))
          ((V3D.fromPoints p1 p2).crossProduct (V3D.fromPoints p3 p4)) =
        (DistanceCalculator.haveCommonEndpoint p1
            (DistanceCalculator.projectPointOnPlane Real.sqrt p2
              (Plane3D.fromPointNormal Real.sqrt p1
                ((V3D.fromPoints p1 p2).crossProduct (V3D.fromPoints p3 p4))))
            (DistanceCalculator.projectPointOnPlane Real.sqrt p3
              (Plane3D.fromPointNormal Real.sqrt p1
                ((V3D.fromPoints p1 p2).crossProduct (V3D.fromPoints p3 p4))))
            (DistanceCalculator.projectPointOnPlane Real.sqrt p4
              (Plane3D.fromPointNormal Real.sqrt p1
                ((V3D.fromPoints p1 p2).crossProduct (V3D.fromPoints p3 p4)))) ||
          DistanceCalculator.orientationTest p1
            (DistanceCalculator.projectPointOnPlane Real.sqrt p2
              (Plane3D.fromPointNormal Real.sqrt p1
                ((V3D.fromPoints p1 p2).crossProduct (V3D.fromPoints p3 p4))))
            (DistanceCalculator.projectPointOnPlane Real.sqrt p3
              (Plane3D.fromPointNormal Real.sqrt p1
                ((V3D.fromPoints p1 p2).crossProduct (V3D.fromPoints p3 p4))))
            (DistanceCalculator.projectPointOnPlane Real.sqrt p4
              (Plane3D.fromPointNormal Real.sqrt p1
                ((V3D.fromPoints p1 p2).crossProduct (V3D.fromPoints p3 p4))))
            ((V3D.fromPoints p1 p2).crossProduct (V3D.fromPoints p3 p4))) := by
  have hL := V3D.length_pos_of_not_isNull _ hc
  have hu := Plane3D.fromPointNormal_sumSq p1 _ hL
  have h1 := Plane3D.isOn_fromPointNormal_self p1
    ((V3D.fromPoints p1 p2).crossProduct (V3D.fromPoints p3 p4))
  have h2 := isOn_projectPointOnPlane _ p2 hu
  have h3 := isOn_projectPointOnPlane _ p3 hu
  have h4 := isOn_projectPointOnPlane _ p4 hu
  exact ⟨h1, h2, h3, h4, doLineSegmentsIntersect_of_isOn _ _ _ _ _ h1 h2 h3 h4⟩

/-- The pair `(0,0,0)-(1,0,0)`, `(3,-1/2,1)-(3,1/2,1)` for C16. -/
theorem isOn_check_never_fails_witness :
    (Plane3D.fromPointNormal Real.sqrt (P3D.mk 0 0 0)
        ((V3D.fromPoints (P3D.mk (0 : ℝ) 0 0) (P3D.mk 1 0 0)).crossProduct
          (V3D.fromPoints (P3D.mk 3 (-1 / 2) 1) (P3D.mk 3 (1 / 2) 1)))).isOn
      (DistanceCalculator.projectPointOnPlane Real.sqrt (P3D.mk 3 (-1 / 2) 1)
        (Plane3D.fromPointNormal Real.sqrt (P3D.mk 0 0 0)
          ((V3D.fromPoints (P3D.mk (0 : ℝ) 0 0) (P3D.mk 1 0 0)).crossProduct
            (V3D.fromPoints (P3D.mk 3 (-1 / 2) 1) (P3D.mk 3 (1 / 2) 1))))) = true :=
  (isOn_check_never_fails _ _ _ _ apart_haveCommonEndpoint unitSegment_isNull
    apart_isNull34 (by rw [apart_cross]; exact V3D.isNull_unitZ)).2.2.1

/-! ## C17: no division by zero in `calculate()`, in exact arithmetic -/

theorem checkedDiv_of_ne (a b : ℝ) (h : b ≠ 0) : checkedDiv a b = some (a / b) := by
  simp [checkedDiv, h]

theorem V3D.normalChecked_of_pos (v : V3D ℝ) (h : 0 < v.length Real.sqrt) :
    v.normalChecked Real.sqrt = some (v.normal Real.sqrt) := by
  have hne : v.length Real.sqrt ≠ 0 := ne_of_gt h
  simp [V3D.normalChecked, V3D.normal, checkedDiv_of_ne _ _ hne]

theorem P3D.distanceToLineSegmentChecked_of_pos (p a b : P3D ℝ)
    (h : 0 < (V3D.fromPoints a b).length Real.sqrt) :
    p.distanceToLineSegmentChecked Real.sqrt a b =
      some (p.distanceToLineSegment Real.sqrt a b) := by
  have hne : (V3D.fromPoints a b).length Real.sqrt ≠ 0 := ne_of_gt h
  unfold P3D.distanceToLineSegmentChecked P3D.distanceToLineSegment
  simp only [checkedDiv_of_ne _ _ hne]
  split_ifs <;> rfl

theorem Plane3D.fromPointNormalChecked_of_pos (p : P3D ℝ) (n : V3D ℝ)
    (h : 0 < n.length Real.sqrt) :
    Plane3D.fromPointNormalChecked Real.sqrt p n =
      some (Plane3D.fromPointNormal Real.sqrt p n) := by
  simp [Plane3D.fromPointNormalChecked, Plane3D.fromPointNormal, V3D.normalChecked_of_pos n h]

theorem Plane3D.distanceToPointChecked_of_unit (pl : Plane3D ℝ) (q : P3D ℝ)
    (hu : pl.A ^ 2 + pl.B ^ 2 + pl.C ^ 2 = 1) :
    pl.distanceToPointChecked Real.sqrt q = some (pl.distanceToPoint Real.sqrt q) := by
  unfold Plane3D.distanceToPointChecked Plane3D.distanceToPoint
  simp only
  rw [checkedDiv_of_ne]
  rw [hu, Real.sqrt_one]
  exact one_ne_zero

theorem Plane3D.normalChecked_of_unit (pl : Plane3D ℝ)
    (hu : pl.A ^ 2 + pl.B ^ 2 + pl.C ^ 2 = 1) :
    pl.normalChecked Real.sqrt = some (pl.normal Real.sqrt) := by
  unfold Plane3D.normalChecked Plane3D.normal
  apply V3D.normalChecked_of_pos
  simp [V3D.length, hu]

theorem projectPointOnPlaneChecked_of_unit (pl : Plane3D ℝ) (q : P3D ℝ)
    (hu : pl.A ^ 2 + pl.B ^ 2 + pl.C ^ 2 = 1) :
    DistanceCalculator.projectPointOnPlaneChecked Real.sqrt q pl =
      some (DistanceCalculator.projectPointOnPlane Real.sqrt q pl) := by
  unfold DistanceCalculator.projectPointOnPlaneChecked DistanceCalculator.projectPointOnPlane
  simp only [Plane3D.distanceToPointChecked_of_unit pl q hu, Plane3D.normalChecked_of_unit pl hu,
    Option.bind_eq_bind, Option.some_bind, Option.pure_def]
  split_ifs <;> rfl

theorem doLineSegmentsIntersectChecked_of_pos (p1 p2 p3 p4 : P3D ℝ) (dir : V3D ℝ)
    (h : 0 < dir.length Real.sqrt) :
    DistanceCalculator.doLineSegmentsIntersectChecked Real.sqrt p1 p2 p3 p4 dir =
      some (DistanceCalculator.doLineSegmentsIntersect Real.sqrt p1 p2 p3 p4 dir) := by
  unfold DistanceCalculator.doLineSegmentsIntersectChecked
    DistanceCalculator.doLineSegmentsIntersect
  simp only [Plane3D.fromPointNormalChecked_of_pos p1 dir h, Option.bind_eq_bind,
    Option.some_bind, Option.pure_def]
  split_ifs <;> rfl

theorem calculateMinDistanceBetweenEndsChecked_of_pos (p1 p2 p3 p4 : P3D ℝ)
    (h12 : 0 < (V3D.fromPoints p1 p2).length Real.sqrt)
    (h34 : 0 < (V3D.fromPoints p3 p4).length Real.sqrt) :
    DistanceCalculator.calculateMinDistanceBetweenEndsChecked Real.sqrt p1 p2 p3 p4 =
      some (DistanceCalculator.calculateMinDistanceBetweenEnds Real.sqrt p1 p2 p3 p4) := by
  unfold DistanceCalculator.calculateMinDistanceBetweenEndsChecked
    DistanceCalculator.calculateMinDistanceBetweenEnds
  simp only [P3D.distanceToLineSegmentChecked_of_pos _ _ _ h12,
    P3D.distanceToLineSegmentChecked_of_pos _ _ _ h34, Option.bind_eq_bind,
    Option.some_bind, Option.pure_def]

/-- The checked `calculate()` never meets a division by zero and returns the
value of `calculate()`. -/
theorem calculateChecked_eq (p1 p2 p3 p4 : P3D ℝ) :
    (DistanceCalculator.mk p1 p2 p3 p4).calculateChecked Real.sqrt =
      some ((DistanceCalculator.mk p1 p2 p3 p4).calculate Real.sqrt) := by
  unfold DistanceCalculator.calculateChecked DistanceCalculator.calculate
  simp only
  by_cases hce : DistanceCalculator.haveCommonEndpoint p1 p2 p3 p4 = true
  · rw [if_pos hce, if_pos hce]
  rw [if_neg hce, if_neg hce]
  by_cases hn : ((V3D.fromPoints p1 p2).isNull || (V3D.fromPoints p3 p4).isNull) = true
  · rw [if_pos hn, if_pos hn]
  rw [if_neg hn, if_neg hn]
  have h12 : (V3D.fromPoints p1 p2).isNull = false := by
    cases h : (V3D.fromPoints p1 p2).isNull
    · rfl
    · simp [h] at hn
  have h34 : (V3D.fromPoints p3 p4).isNull = false := by
    cases h : (V3D.fromPoints p3 p4).isNull
    · rfl
    · simp [h] at hn
  have he := calculateMinDistanceBetweenEndsChecked_of_pos p1 p2 p3 p4
    (V3D.length_pos_of_not_isNull _ h12) (V3D.length_pos_of_not_isNull _ h34)
  by_cases hc : ((V3D.fromPoints p1 p2).crossProduct (V3D.fromPoints p3 p4)).isNull = true
  · rw [if_pos hc, if_pos hc]
    exact he
  rw [if_neg hc, if_neg hc]
  have hcn : ((V3D.fromPoints p1 p2).crossProduct (V3D.fromPoints p3 p4)).isNull = false := by
    simpa using hc
  have hL := V3D.length_pos_of_not_isNull _ hcn
  have hu := Plane3D.fromPointNormal_sumSq p1 _ hL
  simp only [Plane3D.fromPointNormalChecked_of_pos p1 _ hL,
    Plane3D.distanceToPointChecked_of_unit _ _ hu, projectPointOnPlaneChecked_of_unit _ _ hu,
    doLineSegmentsIntersectChecked_of_pos _ _ _ _ _ hL, Option.bind_eq_bind,
    Option.some_bind, Option.pure_def, he]
  split_ifs <;> rfl

/-- The checks are not vacuous: normalising the zero vector is refused. -/
theorem normalChecked_zero : (V3D.mk (0 : ℝ) 0 0).normalChecked Real.sqrt = none := by
  simp [V3D.normalChecked, V3D.length, checkedDiv]

/-- The checks are not vacuous: the distance to a segment whose end points
coincide is refused. -/
theorem distanceToLineSegmentChecked_degenerate (p a : P3D ℝ) :
    p.distanceToLineSegmentChecked Real.sqrt a a = none := by
  simp [P3D.distanceToLineSegmentChecked, V3D.fromPoints, V3D.dotProduct, V3D.length,
    checkedDiv]

/-- C17, amended: in exact real arithmetic no division by zero is reachable
inside `calculate()`: the checked evaluation always returns the value of
`calculate()`; behind the guards the two segments handed to
`distanceToLineSegment` have positive length, and in the skew branch the
cross product that is normalised has positive length, the vector `(A,B,C)`
normalised by `Plane3D::normal` has positive length and the normalisation
factor of `distanceToPoint` is not zero. -/
theorem calculate_no_division_by_zero (p1 p2 p3 p4 : P3D ℝ) :
    (DistanceCalculator.mk p1 p2 p3 p4).calculateChecked Real.sqrt =
        some ((DistanceCalculator.mk p1 p2 p3 p4).calculate Real.sqrt) ∧
      (DistanceCalculator.haveCommonEndpoint p1 p2 p3 p4 = false →
        (V3D.fromPoints p1 p2).isNull = false → (V3D.fromPoints p3 p4).isNull = false →
        0 < (V3D.fromPoints p1 p2).length Real.sqrt ∧
        0 < (V3D.fromPoints p3 p4).length Real.sqrt ∧
        (((V3D.fromPoints p1 p2).crossProduct (V3D.fromPoints p3 p4)).isNull = false →
          0 < ((V3D.fromPoints p1 p2).crossProduct (V3D.fromPoints p3 p4)).length Real.sqrt ∧
          0 < (V3D.mk
              (Plane3D.fromPointNormal Real.sqrt p1
                ((V3D.fromPoints p1 p2).crossProduct (V3D.fromPoints p3 p4))).A
              (Plane3D.fromPointNormal Real.sqrt p1
                ((V3D.fromPoints p1 p2).crossProduct (V3D.fromPoints p3 p4))).B
              (Plane3D.fromPointNormal Real.sqrt p1
                ((V3D.fromPoints p1 p2).crossProduct (V3D.fromPoints p3 p4))).C).length
              Real.sqrt ∧
          Real.sqrt
            ((Plane3D.fromPointNormal Real.sqrt p1
                ((V3D.fromPoints p1 p2).crossProduct (V3D.fromPoints p3 p4))).A ^ 2 +
              (Plane3D.fromPointNormal Real.sqrt p1
                ((V3D.fromPoints p1 p2).crossProduct (V3D.fromPoints p3 p4))).B ^ 2 +
              (Plane3D.fromPointNormal Real.sqrt p1
                ((V3D.fromPoints p1 p2).crossProduct (V3D.fromPoints p3 p4))).C ^ 2) ≠ 0)) := by
  refine ⟨calculateChecked_eq p1 p2 p3 p4, ?_⟩
  intro _ h12 h34
  refine ⟨V3D.length_pos_of_not_isNull _ h12, V3D.length_pos_of_not_isNull _ h34, ?_⟩
  intro hc
  have hL := V3D.length_pos_of_not_isNull _ hc
  have hu := Plane3D.fromPointNormal_sumSq p1 _ hL
  refine ⟨hL, ?_, ?_⟩
  · simp [V3D.length, hu]
  · rw [hu, Real.sqrt_one]
    exact one_ne_zero

/-! ## C17 on `double` values that can overflow -/

/-! ### The operations on finite values -/

theorem Double.neg_finite (x : ℝ) : (Double.finite x).neg = .finite (-x) := rfl

theorem Double.add_finite (x y : ℝ) :
    (Double.finite x).add (.finite y) = Double.ofExact (x + y) := rfl

theorem Double.sub_finite (x y : ℝ) :
    (Double.finite x).sub (.finite y) = Double.ofExact (x - y) := by
  rw [sub_eq_add_neg]; rfl

theorem Double.mul_finite (x y : ℝ) :
    (Double.finite x).mul (.finite y) = Double.ofExact (x * y) := rfl

theorem Double.abs_finite (x : ℝ) : (Double.finite x).abs = .finite |x| := rfl

theorem Double.lt_finite (x y : ℝ) : (Double.finite x).lt (.finite y) = decide (x < y) := rfl

/-! ### The crossing pair `(0,0,0)-(1,0,0)`, `(1/2,-1/2,1)-(1/2,1/2,1)` on `double` values -/

theorem crossingDouble_haveCommonEndpoint :
    DistanceCalculator.haveCommonEndpointDouble
      (P3D.mk (Double.finite (0 : ℝ)) (.finite 0) (.finite 0))
      (P3D.mk (.finite 1) (.finite 0) (.finite 0))
      (P3D.mk (.finite (1 / 2)) (.finite (-1 / 2)) (.finite 1))
      (P3D.mk (.finite (1 / 2)) (.finite (1 / 2)) (.finite 1)) = false := by
  norm_num [DistanceCalculator.haveCommonEndpointDouble, P3D.operatorEqDouble, Double.sub,
    Double.add, Double.neg, Double.abs, Double.lt, Double.ofExact, Double.overflowThreshold,
    Tolerance_small, abs_lt]

theorem crossingDouble_fromPoints12 :
    V3D.fromPointsDouble (P3D.mk (Double.finite (0 : ℝ)) (.finite 0) (.finite 0))
      (P3D.mk (.finite 1) (.finite 0) (.finite 0)) =
      V3D.mk (.finite 1) (.finite 0) (.finite 0) := by
  norm_num [V3D.fromPointsDouble, Double.sub, Double.add, Double.neg, Double.ofExact,
    Double.overflowThreshold]

theorem crossingDouble_fromPoints34 :
    V3D.fromPointsDouble (P3D.mk (Double.finite (1 / 2 : ℝ)) (.finite (-1 / 2)) (.finite 1))
      (P3D.mk (.finite (1 / 2)) (.finite (1 / 2)) (.finite 1)) =
      V3D.mk (.finite 0) (.finite 1) (.finite 0) := by
  norm_num [V3D.fromPointsDouble, Double.sub, Double.add, Double.neg, Double.ofExact,
    Double.overflowThreshold]

theorem crossingDouble_isNull12 :
    (V3D.mk (Double.finite (1 : ℝ)) (.finite 0) (.finite 0)).isNullDouble = false := by
  norm_num [V3D.isNullDouble, Double.abs, Double.lt, Tolerance_small]

theorem crossingDouble_isNull34 :
    (V3D.mk (Double.finite (0 : ℝ)) (.finite 1) (.finite 0)).isNullDouble = false := by
  norm_num [V3D.isNullDouble, Double.abs, Double.lt, Tolerance_small]

theorem crossingDouble_cross :
    (V3D.mk (Double.finite (1 : ℝ)) (.finite 0) (.finite 0)).crossProductDouble
      (V3D.mk (.finite 0) (.finite 1) (.finite 0)) =
      V3D.mk (.finite 0) (.finite 0) (.finite 1) := by
  norm_num [V3D.crossProductDouble, Double.mul, Double.sub, Double.add, Double.neg,
    Double.ofExact, Double.overflowThreshold]

theorem crossingDouble_cross_isNull :
    (V3D.mk (Double.finite (0 : ℝ)) (.finite 0) (.finite 1)).isNullDouble = false := by
  norm_num [V3D.isNullDouble, Double.abs, Double.lt, Tolerance_small]

theorem unitZDouble_normal :
    (V3D.mk (Double.finite (0 : ℝ)) (.finite 0) (.finite 1)).normalDouble Real.sqrt =
      some (V3D.mk (.finite 0) (.finite 0) (.finite 1)) := by
  norm_num [V3D.normalDouble, V3D.lengthDouble, Double.pow2, Double.mul, Double.add,
    Double.sqrt, Double.checkedDiv, Double.isZero, Double.div, Double.ofExact,
    Double.overflowThreshold]

theorem unitZDouble_plane :
    Plane3D.fromPointNormalDouble Real.sqrt
      (P3D.mk (Double.finite (0 : ℝ)) (.finite 0) (.finite 0))
      (V3D.mk (.finite 0) (.finite 0) (.finite 1)) =
      some (Plane3D.mk (.finite 0) (.finite 0) (.finite 1) (.finite 0)) := by
  unfold Plane3D.fromPointNormalDouble
  rw [unitZDouble_normal]
  norm_num [Double.mul, Double.sub, Double.add, Double.neg, Double.ofExact,
    Double.overflowThreshold]

/-- On the plane `z = 0` and on finite coordinates below the overflow
threshold the distance is the absolute value of the `z` coordinate. -/
theorem unitZDouble_distanceToPoint (x y z : ℝ) (hz : |z| < Double.overflowThreshold) :
    (Plane3D.mk (Double.finite (0 : ℝ)) (.finite 0) (.finite 1)
      (.finite 0)).distanceToPointDouble Real.sqrt (P3D.mk (.finite x) (.finite y) (.finite z)) =
      some (.finite |z|) := by
  have h0 : Double.ofExact (0 : ℝ) = .finite 0 := by
    norm_num [Double.ofExact, Double.overflowThreshold]
  have h1 : Double.ofExact (1 : ℝ) = .finite 1 := by
    norm_num [Double.ofExact, Double.overflowThreshold]
  have hz1 : Double.ofExact z = .finite z := by
    rw [abs_lt] at hz
    simp [Double.ofExact, not_le.2 hz.1, not_le.2 hz.2]
  have hz2 : Double.ofExact |z| = .finite |z| := by
    have := abs_nonneg z
    have ht : (0 : ℝ) < Double.overflowThreshold := by norm_num [Double.overflowThreshold]
    simp [Double.ofExact, not_le.2 hz, not_le.2 (show -Double.overflowThreshold < |z| by linarith)]
  norm_num [Plane3D.distanceToPointDouble, Plane3D.normFactorDouble, Double.pow2, Double.mul,
    Double.add, Double.abs, Double.sqrt, Double.checkedDiv, Double.isZero, Double.div, h0, h1,
    hz1, hz2]

theorem unitZDouble_planeNormal :
    (Plane3D.mk (Double.finite (0 : ℝ)) (.finite 0) (.finite 1)
      (.finite 0)).normalDouble Real.sqrt =
      some (V3D.mk (.finite 0) (.finite 0) (.finite 1)) :=
  unitZDouble_normal

theorem crossingDouble_project2 :
    DistanceCalculator.projectPointOnPlaneDouble Real.sqrt
      (P3D.mk (Double.finite (1 : ℝ)) (.finite 0) (.finite 0))
      (Plane3D.mk (.finite 0) (.finite 0) (.finite 1) (.finite 0)) =
      some (P3D.mk (.finite 1) (.finite 0) (.finite 0)) := by
  unfold DistanceCalculator.projectPointOnPlaneDouble
  rw [unitZDouble_distanceToPoint 1 0 0 (by norm_num [Double.overflowThreshold]),
    unitZDouble_planeNormal]
  norm_num [Plane3D.isOnDouble, P3D.operatorPlusDouble, P3D.operatorMinusDouble,
    V3D.operatorMulAssignDouble, Double.mul_finite, Double.sub_finite, Double.add_finite,
    Double.abs_finite, Double.lt_finite, Double.ofExact, Double.overflowThreshold,
    Tolerance_small]

theorem crossingDouble_project3 :
    DistanceCalculator.projectPointOnPlaneDouble Real.sqrt
      (P3D.mk (Double.finite (1 / 2 : ℝ)) (.finite (-1 / 2)) (.finite 1))
      (Plane3D.mk (.finite 0) (.finite 0) (.finite 1) (.finite 0)) =
      some (P3D.mk (.finite (1 / 2)) (.finite (-1 / 2)) (.finite 0)) := by
  unfold DistanceCalculator.projectPointOnPlaneDouble
  rw [unitZDouble_distanceToPoint (1 / 2) (-1 / 2) 1 (by norm_num [Double.overflowThreshold]),
    unitZDouble_planeNormal]
  norm_num [Plane3D.isOnDouble, P3D.operatorPlusDouble, P3D.operatorMinusDouble,
    V3D.operatorMulAssignDouble, Double.mul_finite, Double.sub_finite, Double.add_finite,
    Double.abs_finite, Double.lt_finite, Double.ofExact, Double.overflowThreshold,
    Tolerance_small]

theorem crossingDouble_project4 :
    DistanceCalculator.projectPointOnPlaneDouble Real.sqrt
      (P3D.mk (Double.finite (1 / 2 : ℝ)) (.finite (1 / 2)) (.finite 1))
      (Plane3D.mk (.finite 0) (.finite 0) (.finite 1) (.finite 0)) =
      some (P3D.mk (.finite (1 / 2)) (.finite (1 / 2)) (.finite 0)) := by
  unfold DistanceCalculator.projectPointOnPlaneDouble
  rw [unitZDouble_distanceToPoint (1 / 2) (1 / 2) 1 (by norm_num [Double.overflowThreshold]),
    unitZDouble_planeNormal]
  norm_num [Plane3D.isOnDouble, P3D.operatorPlusDouble, P3D.operatorMinusDouble,
    V3D.operatorMulAssignDouble, Double.mul_finite, Double.sub_finite, Double.add_finite,
    Double.abs_finite, Double.lt_finite, Double.ofExact, Double.overflowThreshold,
    Tolerance_small]

theorem crossingDouble_doLineSegmentsIntersect :
    DistanceCalculator.doLineSegmentsIntersectDouble Real.sqrt
      (P3D.mk (Double.finite (0 : ℝ)) (.finite 0) (.finite 0))
      (P3D.mk (.finite 1) (.finite 0) (.finite 0))
      (P3D.mk (.finite (1 / 2)) (.finite (-1 / 2)) (.finite 0))
      (P3D.mk (.finite (1 / 2)) (.finite (1 / 2)) (.finite 0))
      (V3D.mk (.finite 0) (.finite 0) (.finite 1)) = some true := by
  unfold DistanceCalculator.doLineSegmentsIntersectDouble
  rw [unitZDouble_plane]
  norm_num [Plane3D.isOnDouble, DistanceCalculator.haveCommonEndpointDouble,
    P3D.operatorEqDouble, V3D.fromPointsDouble, V3D.crossProductDouble, V3D.dotProductDouble,
    Double.mul_finite, Double.sub_finite, Double.add_finite, Double.abs_finite,
    Double.lt_finite, Double.ofExact, Double.overflowThreshold, Tolerance_small, abs_lt]

/-- On an ordinary input the `double` copy returns the value of the exact
copy: the crossing pair gives the distance `1` between the planes. -/
theorem calculateDouble_crossing :
    (DistanceCalculator.mk
      (P3D.mk (Double.finite (0 : ℝ)) (.finite 0) (.finite 0))
      (P3D.mk (.finite 1) (.finite 0) (.finite 0))
      (P3D.mk (.finite (1 / 2)) (.finite (-1 / 2)) (.finite 1))
      (P3D.mk (.finite (1 / 2)) (.finite (1 / 2)) (.finite 1))).calculateDouble Real.sqrt =
      some (.finite 1) := by
  have hd := unitZDouble_distanceToPoint (1 / 2) (-1 / 2) 1
    (by norm_num [Double.overflowThreshold])
  rw [abs_one] at hd
  unfold DistanceCalculator.calculateDouble
  simp only [crossingDouble_haveCommonEndpoint, crossingDouble_fromPoints12,
    crossingDouble_fromPoints34, crossingDouble_isNull12, crossingDouble_isNull34,
    crossingDouble_cross, crossingDouble_cross_isNull, unitZDouble_plane, hd,
    crossingDouble_project2, crossingDouble_project3, crossingDouble_project4,
    crossingDouble_doLineSegmentsIntersect, Option.bind_eq_bind, Option.some_bind,
    Option.pure_def, Bool.false_eq_true, if_false, Bool.or_self, Bool.not_true]

/-! ### The pair `(0,0,0)-(2^400,0,0)`, `(0,0,1)-(0,2^400,1)` on `double` values -/

theorem huge_haveCommonEndpoint :
    DistanceCalculator.haveCommonEndpointDouble
      (P3D.mk (Double.finite (0 : ℝ)) (.finite 0) (.finite 0))
      (P3D.mk (.finite (2 ^ 400)) (.finite 0) (.finite 0))
      (P3D.mk (.finite 0) (.finite 0) (.finite 1))
      (P3D.mk (.finite 0) (.finite (2 ^ 400)) (.finite 1)) = false := by
  norm_num [DistanceCalculator.haveCommonEndpointDouble, P3D.operatorEqDouble, Double.sub,
    Double.add, Double.neg, Double.abs, Double.lt, Double.ofExact, Double.overflowThreshold,
    Tolerance_small]

theorem huge_fromPoints12 :
    V3D.fromPointsDouble (P3D.mk (Double.finite (0 : ℝ)) (.finite 0) (.finite 0))
      (P3D.mk (.finite (2 ^ 400)) (.finite 0) (.finite 0)) =
      V3D.mk (.finite (2 ^ 400)) (.finite 0) (.finite 0) := by
  norm_num [V3D.fromPointsDouble, Double.sub, Double.add, Double.neg, Double.ofExact,
    Double.overflowThreshold]

theorem huge_fromPoints34 :
    V3D.fromPointsDouble (P3D.mk (Double.finite (0 : ℝ)) (.finite 0) (.finite 1))
      (P3D.mk (.finite 0) (.finite (2 ^ 400)) (.finite 1)) =
      V3D.mk (.finite 0) (.finite (2 ^ 400)) (.finite 0) := by
  norm_num [V3D.fromPointsDouble, Double.sub, Double.add, Double.neg, Double.ofExact,
    Double.overflowThreshold]

theorem huge_isNull12 :
    (V3D.mk (Double.finite (2 ^ 400 : ℝ)) (.finite 0) (.finite 0)).isNullDouble = false := by
  norm_num [V3D.isNullDouble, Double.abs, Double.lt, Tolerance_small]

theorem huge_isNull34 :
    (V3D.mk (Double.finite (0 : ℝ)) (.finite (2 ^ 400)) (.finite 0)).isNullDouble = false := by
  norm_num [V3D.isNullDouble, Double.abs, Double.lt, Tolerance_small]

theorem huge_cross :
    (V3D.mk (Double.finite (2 ^ 400 : ℝ)) (.finite 0) (.finite 0)).crossProductDouble
      (V3D.mk (.finite 0) (.finite (2 ^ 400)) (.finite 0)) =
      V3D.mk (.finite 0) (.finite 0) (.finite (2 ^ 800)) := by
  norm_num [V3D.crossProductDouble, Double.mul, Double.sub, Double.add, Double.neg,
    Double.ofExact, Double.overflowThreshold]

theorem huge_cross_isNull :
    (V3D.mk (Double.finite (0 : ℝ)) (.finite 0) (.finite (2 ^ 800))).isNullDouble = false := by
  norm_num [V3D.isNullDouble, Double.abs, Double.lt, Tolerance_small]

/-- The square of `2^800` is too large for a `double`: the length of the
cross product is an infinity. -/
theorem huge_cross_length :
    (V3D.mk (Double.finite (0 : ℝ)) (.finite 0) (.finite (2 ^ 800))).lengthDouble Real.sqrt =
      .posInf := by
  norm_num [V3D.lengthDouble, Double.pow2, Double.mul, Double.add, Double.sqrt,
    Double.ofExact, Double.overflowThreshold]

/-- Dividing by the infinite length gives the zero vector. -/
theorem huge_cross_normal :
    (V3D.mk (Double.finite (0 : ℝ)) (.finite 0) (.finite (2 ^ 800))).normalDouble Real.sqrt =
      some (V3D.mk (.finite 0) (.finite 0) (.finite 0)) := by
  simp [V3D.normalDouble, huge_cross_length, Double.checkedDiv, Double.isZero, Double.div]

theorem huge_plane :
    Plane3D.fromPointNormalDouble Real.sqrt
      (P3D.mk (Double.finite (0 : ℝ)) (.finite 0) (.finite 0))
      (V3D.mk (.finite 0) (.finite 0) (.finite (2 ^ 800))) =
      some (Plane3D.mk (.finite 0) (.finite 0) (.finite 0) (.finite 0)) := by
  unfold Plane3D.fromPointNormalDouble
  rw [huge_cross_normal]
  norm_num [Double.mul, Double.sub, Double.add, Double.neg, Double.ofExact,
    Double.overflowThreshold]

/-- The normalisation factor of `distanceToPoint` for the plane with
`A = B = C = 0` is zero. -/
theorem huge_normFactor :
    (Plane3D.mk (Double.finite (0 : ℝ)) (.finite 0) (.finite 0)
      (.finite 0)).normFactorDouble Real.sqrt = .finite 0 := by
  norm_num [Plane3D.normFactorDouble, Double.pow2, Double.mul, Double.add, Double.sqrt,
    Double.ofExact, Double.overflowThreshold]

theorem huge_distanceToPoint (q : P3D (Double ℝ)) :
    (Plane3D.mk (Double.finite (0 : ℝ)) (.finite 0) (.finite 0)
      (.finite 0)).distanceToPointDouble Real.sqrt q = none := by
  simp [Plane3D.distanceToPointDouble, huge_normFactor, Double.checkedDiv, Double.isZero]

theorem huge_planeNormal_length :
    (V3D.mk (Double.finite (0 : ℝ)) (.finite 0) (.finite 0)).lengthDouble Real.sqrt =
      .finite 0 := by
  norm_num [V3D.lengthDouble, Double.pow2, Double.mul, Double.add, Double.sqrt,
    Double.ofExact, Double.overflowThreshold]

theorem huge_calculate :
    (DistanceCalculator.mk
      (P3D.mk (Double.finite (0 : ℝ)) (.finite 0) (.finite 0))
      (P3D.mk (.finite (2 ^ 400)) (.finite 0) (.finite 0))
      (P3D.mk (.finite 0) (.finite 0) (.finite 1))
      (P3D.mk (.finite 0) (.finite (2 ^ 400)) (.finite 1))).calculateDouble Real.sqrt =
      none := by
  simp [DistanceCalculator.calculateDouble, huge_haveCommonEndpoint, huge_fromPoints12,
    huge_fromPoints34, huge_isNull12, huge_isNull34, huge_cross, huge_cross_isNull,
    huge_plane, huge_distanceToPoint]

/-- C17 as stated fails on the `double` values of the code.  For the segments
`(0,0,0)-(2^400,0,0)` and `(0,0,1)-(0,2^400,1)` every guard of `calculate()`
passes and the cross product is `(0,0,2^800)`.  Its square overflows, so
`length()` is an infinity and `normal()` is the zero vector: the plane has
`A = B = C = 0`, the normalisation factor of `distanceToPoint` is zero, the
vector that `Plane3D::normal` normalises has length zero, and `calculate()`
meets a division by zero. -/
theorem calculate_no_division_by_zero_counterexample :
    DistanceCalculator.haveCommonEndpointDouble
        (P3D.mk (Double.finite (0 : ℝ)) (.finite 0) (.finite 0))
        (P3D.mk (.finite (2 ^ 400)) (.finite 0) (.finite 0))
        (P3D.mk (.finite 0) (.finite 0) (.finite 1))
        (P3D.mk (.finite 0) (.finite (2 ^ 400)) (.finite 1)) = false ∧
      (V3D.fromPointsDouble (P3D.mk (Double.finite (0 : ℝ)) (.finite 0) (.finite 0))
        (P3D.mk (.finite (2 ^ 400)) (.finite 0) (.finite 0))).isNullDouble = false ∧
      (V3D.fromPointsDouble (P3D.mk (Double.finite (0 : ℝ)) (.finite 0) (.finite 1))
        (P3D.mk (.finite 0) (.finite (2 ^ 400)) (.finite 1))).isNullDouble = false ∧
      (V3D.fromPointsDouble (P3D.mk (Double.finite (0 : ℝ)) (.finite 0) (.finite 0))
          (P3D.mk (.finite (2 ^ 400)) (.finite 0) (.finite 0))).crossProductDouble
        (V3D.fromPointsDouble (P3D.mk (.finite 0) (.finite 0) (.finite 1))
          (P3D.mk (.finite 0) (.finite (2 ^ 400)) (.finite 1))) =
        V3D.mk (.finite 0) (.finite 0) (.finite (2 ^ 800)) ∧
      (V3D.mk (Double.finite (0 : ℝ)) (.finite 0) (.finite (2 ^ 800))).isNullDouble = false ∧
      (V3D.mk (Double.finite (0 : ℝ)) (.finite 0) (.finite (2 ^ 800))).lengthDouble Real.sqrt =
        .posInf ∧
      Plane3D.fromPointNormalDouble Real.sqrt
          (P3D.mk (Double.finite (0 : ℝ)) (.finite 0) (.finite 0))
          (V3D.mk (.finite 0) (.finite 0) (.finite (2 ^ 800))) =
        some (Plane3D.mk (.finite 0) (.finite 0) (.finite 0) (.finite 0)) ∧
      (Plane3D.mk (Double.finite (0 : ℝ)) (.finite 0) (.finite 0)
        (.finite 0)).normFactorDouble Real.sqrt = .finite 0 ∧
      (V3D.mk (Double.finite (0 : ℝ)) (.finite 0) (.finite 0)).lengthDouble Real.sqrt =
        .finite 0 ∧
      (DistanceCalculator.mk
        (P3D.mk (Double.finite (0 : ℝ)) (.finite 0) (.finite 0))
        (P3D.mk (.finite (2 ^ 400)) (.finite 0) (.finite 0))
        (P3D.mk (.finite 0) (.finite 0) (.finite 1))
        (P3D.mk (.finite 0) (.finite (2 ^ 400)) (.finite 1))).calculateDouble Real.sqrt =
        none := by
  refine ⟨huge_haveCommonEndpoint, ?_, ?_, ?_, huge_cross_isNull, huge_cross_length,
    huge_plane, huge_normFactor, huge_planeNormal_length, huge_calculate⟩
  · rw [huge_fromPoints12]; exact huge_isNull12
  · rw [huge_fromPoints34]; exact huge_isNull34
  · rw [huge_fromPoints12, huge_fromPoints34]; exact huge_cross

/-! ## C18: the coplanar intersection test -/

/-- Cramer's rule in the plane orthogonal to `d`: a vector `w` of that plane is
the combination of `a` and `b` whose coefficients are the orientation values. -/
theorem planar_cramer (a b w d : V3D ℝ)
    (ha : a.dotProduct d = 0) (hb : b.dotProduct d = 0) (hw : w.dotProduct d = 0)
    (hd : 0 < d.dotProduct d) :
    (a.crossProduct b).dotProduct d * w.x + (b.crossProduct w).dotProduct d * a.x -
        (a.crossProduct w).dotProduct d * b.x = 0 ∧
      (a.crossProduct b).dotProduct d * w.y + (b.crossProduct w).dotProduct d * a.y -
        (a.crossProduct w).dotProduct d * b.y = 0 ∧
      (a.crossProduct b).dotProduct d * w.z + (b.crossProduct w).dotProduct d * a.z -
        (a.crossProduct w).dotProduct d * b.z = 0 := by
  have hne : d.dotProduct d ≠ 0 := ne_of_gt hd
  simp only [V3D.dotProduct, V3D.crossProduct] at ha hb hw hne ⊢
  refine ⟨?_, ?_, ?_⟩
  · apply mul_left_cancel₀ hne
    linear_combination
      (d.x * ((b.y * w.z - b.z * w.y) * d.x + (b.z * w.x - b.x * w.z) * d.y +
        (b.x * w.y - b.y * w.x) * d.z)) * ha +
      (d.x * ((w.y * a.z - w.z * a.y) * d.x + (w.z * a.x - w.x * a.z) * d.y +
        (w.x * a.y - w.y * a.x) * d.z)) * hb +
      (d.x * ((a.y * b.z - a.z * b.y) * d.x + (a.z * b.x - a.x * b.z) * d.y +
        (a.x * b.y - a.y * b.x) * d.z)) * hw
  · apply mul_left_cancel₀ hne
    linear_combination
      (d.y * ((b.y * w.z - b.z * w.y) * d.x + (b.z * w.x - b.x * w.z) * d.y +
        (b.x * w.y - b.y * w.x) * d.z)) * ha +
      (d.y * ((w.y * a.z - w.z * a.y) * d.x + (w.z * a.x - w.x * a.z) * d.y +
        (w.x * a.y - w.y * a.x) * d.z)) * hb +
      (d.y * ((a.y * b.z - a.z * b.y) * d.x + (a.z * b.x - a.x * b.z) * d.y +
        (a.x * b.y - a.y * b.x) * d.z)) * hw
  · apply mul_left_cancel₀ hne
    linear_combination
      (d.z * ((b.y * w.z - b.z * w.y) * d.x + (b.z * w.x - b.x * w.z) * d.y +
        (b.x * w.y - b.y * w.x) * d.z)) * ha +
      (d.z * ((w.y * a.z - w.z * a.y) * d.x + (w.z * a.x - w.x * a.z) * d.y +
        (w.x * a.y - w.y * a.x) * d.z)) * hb +
      (d.z * ((a.y * b.z - a.z * b.y) * d.x + (a.z * b.x - a.x * b.z) * d.y +
        (a.x * b.y - a.y * b.x) * d.z)) * hw

/-- For `a`, `b` orthogonal to `d` the cross product `a × b` is parallel to `d`:
`((a × b) . d)^2 = |a × b|^2 |d|^2`. -/
theorem cross_dot_sq_of_orthogonal (a b d : V3D ℝ)
    (ha : a.dotProduct d = 0) (hb : b.dotProduct d = 0) :
    ((a.crossProduct b).dotProduct d) ^ 2 =
      (a.crossProduct b).dotProduct (a.crossProduct b) * d.dotProduct d := by
  simp only [V3D.dotProduct, V3D.crossProduct] at ha hb ⊢
  linear_combination
    (-((b.x * b.x + b.y * b.y + b.z * b.z) * (a.x * d.x + a.y * d.y + a.z * d.z) -
      2 * (a.x * b.x + a.y * b.y + a.z * b.z) * (b.x * d.x + b.y * d.y + b.z * d.z))) * ha +
    (-((a.x * a.x + a.y * a.y + a.z * a.z) * (b.x * d.x + b.y * d.y + b.z * d.z))) * hb

theorem V3D.dot_self_pos_of_ne_zero (n : V3D ℝ) (h : n ≠ V3D.mk 0 0 0) : 0 < n.dotProduct n := by
  by_contra hle
  have hle0 : n.x * n.x + n.y * n.y + n.z * n.z ≤ 0 := not_lt.1 hle
  have hxx := mul_self_nonneg n.x
  have hyy := mul_self_nonneg n.y
  have hzz := mul_self_nonneg n.z
  have hx : n.x = 0 := mul_self_eq_zero.1 (by linarith)
  have hy : n.y = 0 := mul_self_eq_zero.1 (by linarith)
  have hz : n.z = 0 := mul_self_eq_zero.1 (by linarith)
  apply h
  cases n
  simp only [V3D.mk.injEq]
  exact ⟨hx, hy, hz⟩

/-- A point `q` with `dir . (q - p) = 0` passes the `isOn` test of the plane
through `p` with normal `dir`. -/
theorem isOn_of_dotProduct_eq_zero (p q : P3D ℝ) (dir : V3D ℝ)
    (h : (V3D.fromPoints p q).dotProduct dir = 0) :
    (Plane3D.fromPointNormal Real.sqrt p dir).isOn q = true := by
  rw [Plane3D.isOn_iff, Plane3D.value_fromPointNormal, h, zero_div, abs_zero]
  exact Tolerance_small_pos

/-- If `x (x - c) < 0` then `x` lies strictly between `0` and `c`: the quotient
`x / c` lies strictly between `0` and `1`. -/
theorem between_of_mul_neg (x c : ℝ) (h : x * (x - c) < 0) :
    c ≠ 0 ∧ 0 < x / c ∧ x / c < 1 := by
  rcases mul_neg_iff.1 h with ⟨hx, hxc⟩ | ⟨hx, hxc⟩
  · have hc : 0 < c := by linarith
    exact ⟨ne_of_gt hc, div_pos hx hc, (div_lt_one hc).2 (by linarith)⟩
  · have hc : c < 0 := by linarith
    exact ⟨ne_of_lt hc, div_pos_of_neg_of_neg hx hc, (div_lt_one_of_neg hc).2 (by linarith)⟩

/-- C18: for a vector `dir` that is not null and four points that lie exactly on
the plane through `p1` with normal `dir` (`dir . (p - p1) = 0`) and have no
tolerance-shared end point, `doLineSegmentsIntersect(p1,p2,p3,p4,dir)` returns
true iff the segments are not parallel (`(p2 - p1) × (p4 - p3)` is not the zero
vector) and cross at a point strictly interior to both: there are `s`, `t` in
the open interval `(0,1)` with `p1 + s (p2 - p1) = p3 + t (p4 - p3)`. -/
theorem doLineSegmentsIntersect_iff (p1 p2 p3 p4 : P3D ℝ) (dir : V3D ℝ)
    (hdir : dir.isNull = false)
    (h2 : (V3D.fromPoints p1 p2).dotProduct dir = 0)
    (h3 : (V3D.fromPoints p1 p3).dotProduct dir = 0)
    (h4 : (V3D.fromPoints p1 p4).dotProduct dir = 0)
    (hce : DistanceCalculator.haveCommonEndpoint p1 p2 p3 p4 = false) :
    DistanceCalculator.doLineSegmentsIntersect Real.sqrt p1 p2 p3 p4 dir = true ↔
      ((V3D.fromPoints p1 p2).crossProduct (V3D.fromPoints p3 p4) ≠ V3D.mk 0 0 0 ∧
        ∃ s t : ℝ, 0 < s ∧ s < 1 ∧ 0 < t ∧ t < 1 ∧
          segmentPoint p1 p2 s = segmentPoint p3 p4 t) := by
  have hD : 0 < dir.dotProduct dir := V3D.dot_self_pos_of_not_isNull dir hdir
  have h1 : (V3D.fromPoints p1 p1).dotProduct dir = 0 := by
    simp [V3D.fromPoints, V3D.dotProduct]
  rw [doLineSegmentsIntersect_of_isOn p1 p2 p3 p4 dir
    (isOn_of_dotProduct_eq_zero p1 p1 dir h1) (isOn_of_dotProduct_eq_zero p1 p2 dir h2)
    (isOn_of_dotProduct_eq_zero p1 p3 dir h3) (isOn_of_dotProduct_eq_zero p1 p4 dir h4),
    hce, Bool.false_or]
  have hb : (V3D.fromPoints p3 p4).dotProduct dir = 0 := by
    have : (V3D.fromPoints p3 p4).dotProduct dir =
        (V3D.fromPoints p1 p4).dotProduct dir - (V3D.fromPoints p1 p3).dotProduct dir := by
      simp only [V3D.fromPoints, V3D.dotProduct]; ring
    rw [this, h4, h3, sub_zero]
  have hw : (V3D.fromPoints p3 p1).dotProduct dir = 0 := by
    have : (V3D.fromPoints p3 p1).dotProduct dir =
        -(V3D.fromPoints p1 p3).dotProduct dir := by
      simp only [V3D.fromPoints, V3D.dotProduct]; ring
    rw [this, h3, neg_zero]
  obtain ⟨cx, cy, cz⟩ := planar_cramer (V3D.fromPoints p1 p2) (V3D.fromPoints p3 p4)
    (V3D.fromPoints p3 p1) dir h2 hb hw hD
  have hsq := cross_dot_sq_of_orthogonal (V3D.fromPoints p1 p2) (V3D.fromPoints p3 p4) dir h2 hb
  have e2 : ((V3D.fromPoints p3 p4).crossProduct (V3D.fromPoints p3 p2)).dotProduct dir =
      ((V3D.fromPoints p3 p4).crossProduct (V3D.fromPoints p3 p1)).dotProduct dir -
        ((V3D.fromPoints p1 p2).crossProduct (V3D.fromPoints p3 p4)).dotProduct dir := by
    simp only [V3D.fromPoints, V3D.crossProduct, V3D.dotProduct]; ring
  have e3 : ((V3D.fromPoints p1 p2).crossProduct (V3D.fromPoints p1 p3)).dotProduct dir =
      -((V3D.fromPoints p1 p2).crossProduct (V3D.fromPoints p3 p1)).dotProduct dir := by
    simp only [V3D.fromPoints, V3D.crossProduct, V3D.dotProduct]; ring
  have e4 : ((V3D.fromPoints p1 p2).crossProduct (V3D.fromPoints p1 p4)).dotProduct dir =
      ((V3D.fromPoints p1 p2).crossProduct (V3D.fromPoints p3 p4)).dotProduct dir -
        ((V3D.fromPoints p1 p2).crossProduct (V3D.fromPoints p3 p1)).dotProduct dir := by
    simp only [V3D.fromPoints, V3D.crossProduct, V3D.dotProduct]; ring
  unfold DistanceCalculator.orientationTest
  simp only [Bool.and_eq_true, decide_eq_true_eq]
  rw [e2, e3, e4]
  obtain ⟨Δ, hΔ⟩ : ∃ Δ : ℝ, Δ =
      ((V3D.fromPoints p1 p2).crossProduct (V3D.fromPoints p3 p4)).dotProduct dir := ⟨_, rfl⟩
  obtain ⟨v, hv⟩ : ∃ v : ℝ, v =
      ((V3D.fromPoints p3 p4).crossProduct (V3D.fromPoints p3 p1)).dotProduct dir := ⟨_, rfl⟩
  obtain ⟨u, hu⟩ : ∃ u : ℝ, u =
      ((V3D.fromPoints p1 p2).crossProduct (V3D.fromPoints p3 p1)).dotProduct dir := ⟨_, rfl⟩
  rw [← hΔ, ← hv, ← hu] at cx cy cz
  rw [← hΔ] at hsq
  rw [← hΔ, ← hv, ← hu]
  simp only [V3D.fromPoints] at cx cy cz
  constructor
  · rintro ⟨hv12, hv34⟩
    obtain ⟨hΔne, hs0, hs1⟩ := between_of_mul_neg v Δ hv12
    obtain ⟨-, ht0, ht1⟩ := between_of_mul_neg u Δ (by nlinarith)
    refine ⟨?_, v / Δ, u / Δ, hs0, hs1, ht0, ht1, ?_⟩
    · intro hz
      apply hΔne
      rw [hΔ, hz]
      simp [V3D.dotProduct]
    · simp only [segmentPoint, P3D.mk.injEq]
      refine ⟨?_, ?_, ?_⟩
      · field_simp
        linear_combination cx
      · field_simp
        linear_combination cy
      · field_simp
        linear_combination cz
  · rintro ⟨hne, s, t, hs0, hs1, ht0, ht1, hst⟩
    have hN := V3D.dot_self_pos_of_ne_zero _ hne
    have hΔsq : 0 < Δ ^ 2 := by rw [hsq]; exact mul_pos hN hD
    simp only [segmentPoint, P3D.mk.injEq] at hst
    obtain ⟨ex, ey, ez⟩ := hst
    have hvs : v = s * Δ := by
      rw [hv, hΔ]
      simp only [V3D.fromPoints, V3D.crossProduct, V3D.dotProduct]
      linear_combination
        ((p4.z - p3.z) * dir.y - (p4.y - p3.y) * dir.z) * ex +
        ((p4.x - p3.x) * dir.z - (p4.z - p3.z) * dir.x) * ey +
        ((p4.y - p3.y) * dir.x - (p4.x - p3.x) * dir.y) * ez
    have hut : u = t * Δ := by
      rw [hu, hΔ]
      simp only [V3D.fromPoints, V3D.crossProduct, V3D.dotProduct]
      linear_combination
        ((p2.z - p1.z) * dir.y - (p2.y - p1.y) * dir.z) * ex +
        ((p2.x - p1.x) * dir.z - (p2.z - p1.z) * dir.x) * ey +
        ((p2.y - p1.y) * dir.x - (p2.x - p1.x) * dir.y) * ez
    rw [hvs, hut]
    constructor
    · have : s * Δ * (s * Δ - Δ) = -(s * (1 - s)) * Δ ^ 2 := by ring
      rw [this]
      exact mul_neg_of_neg_of_pos (neg_neg_of_pos (mul_pos hs0 (by linarith))) hΔsq
    · have : -(t * Δ) * (Δ - t * Δ) = -(t * (1 - t)) * Δ ^ 2 := by ring
      rw [this]
      exact mul_neg_of_neg_of_pos (neg_neg_of_pos (mul_pos ht0 (by linarith))) hΔsq

/-- The T-touching example of C18 returns false: `p3 = (1,0,0)` lies on the
line of the segment `(0,0,0)-(2,0,0)`. -/
theorem doLineSegmentsIntersect_T_touching :
    DistanceCalculator.doLineSegmentsIntersect Real.sqrt (P3D.mk (0 : ℝ) 0 0) (P3D.mk 2 0 0)
      (P3D.mk 1 0 0) (P3D.mk 1 1 0) (V3D.mk 0 0 1) = false := by
  rw [doLineSegmentsIntersect_of_isOn _ _ _ _ _
    (isOn_of_dotProduct_eq_zero _ _ _ (by norm_num [V3D.fromPoints, V3D.dotProduct]))
    (isOn_of_dotProduct_eq_zero _ _ _ (by norm_num [V3D.fromPoints, V3D.dotProduct]))
    (isOn_of_dotProduct_eq_zero _ _ _ (by norm_num [V3D.fromPoints, V3D.dotProduct]))
    (isOn_of_dotProduct_eq_zero _ _ _ (by norm_num [V3D.fromPoints, V3D.dotProduct])),
    Bool.or_eq_false_iff]
  constructor
  · rw [haveCommonEndpoint_false_iff]
    simp only [P3D.operatorEq_false_iff]
    norm_num [Tolerance_small, abs_lt]
  · norm_num [DistanceCalculator.orientationTest, V3D.fromPoints, V3D.crossProduct,
      V3D.dotProduct]

/-- Collinear overlapping segments `(0,0,0)-(2,0,0)`, `(1,0,0)-(3,0,0)` return
false. -/
theorem doLineSegmentsIntersect_collinear_overlap :
    DistanceCalculator.doLineSegmentsIntersect Real.sqrt (P3D.mk (0 : ℝ) 0 0) (P3D.mk 2 0 0)
      (P3D.mk 1 0 0) (P3D.mk 3 0 0) (V3D.mk 0 0 1) = false := by
  rw [doLineSegmentsIntersect_of_isOn _ _ _ _ _
    (isOn_of_dotProduct_eq_zero _ _ _ (by norm_num [V3D.fromPoints, V3D.dotProduct]))
    (isOn_of_dotProduct_eq_zero _ _ _ (by norm_num [V3D.fromPoints, V3D.dotProduct]))
    (isOn_of_dotProduct_eq_zero _ _ _ (by norm_num [V3D.fromPoints, V3D.dotProduct]))
    (isOn_of_dotProduct_eq_zero _ _ _ (by norm_num [V3D.fromPoints, V3D.dotProduct])),
    Bool.or_eq_false_iff]
  constructor
  · rw [haveCommonEndpoint_false_iff]
    simp only [P3D.operatorEq_false_iff]
    norm_num [Tolerance_small, abs_lt]
  · norm_num [DistanceCalculator.orientationTest, V3D.fromPoints, V3D.crossProduct,
      V3D.dotProduct]

/-- The T-touching example of C18: `(0,0,0)-(2,0,0)`, `(1,0,0)-(1,1,0)`,
`dir = (0,0,1)`. -/
theorem doLineSegmentsIntersect_iff_witness :
    DistanceCalculator.doLineSegmentsIntersect Real.sqrt (P3D.mk (0 : ℝ) 0 0) (P3D.mk 2 0 0)
        (P3D.mk 1 0 0) (P3D.mk 1 1 0) (V3D.mk 0 0 1) = true ↔
      ((V3D.fromPoints (P3D.mk (0 : ℝ) 0 0) (P3D.mk 2 0 0)).crossProduct
          (V3D.fromPoints (P3D.mk 1 0 0) (P3D.mk 1 1 0)) ≠ V3D.mk 0 0 0 ∧
        ∃ s t : ℝ, 0 < s ∧ s < 1 ∧ 0 < t ∧ t < 1 ∧
          segmentPoint (P3D.mk (0 : ℝ) 0 0) (P3D.mk 2 0 0) s =
            segmentPoint (P3D.mk 1 0 0) (P3D.mk 1 1 0) t) :=
  doLineSegmentsIntersect_iff _ _ _ _ _ V3D.isNull_unitZ
    (by norm_num [V3D.fromPoints, V3D.dotProduct])
    (by norm_num [V3D.fromPoints, V3D.dotProduct])
    (by norm_num [V3D.fromPoints, V3D.dotProduct])
    (by
      rw [haveCommonEndpoint_false_iff]
      simp only [P3D.operatorEq_false_iff]
      norm_num [Tolerance_small, abs_lt])

/-- A properly crossing pair in the plane `z = 0` is reported. -/
theorem doLineSegmentsIntersect_crossing :
    DistanceCalculator.doLineSegmentsIntersect Real.sqrt (P3D.mk (0 : ℝ) 0 0) (P3D.mk 2 0 0)
      (P3D.mk 1 (-1) 0) (P3D.mk 1 1 0) (V3D.mk 0 0 1) = true := by
  rw [doLineSegmentsIntersect_of_isOn _ _ _ _ _
    (isOn_of_dotProduct_eq_zero _ _ _ (by norm_num [V3D.fromPoints, V3D.dotProduct]))
    (isOn_of_dotProduct_eq_zero _ _ _ (by norm_num [V3D.fromPoints, V3D.dotProduct]))
    (isOn_of_dotProduct_eq_zero _ _ _ (by norm_num [V3D.fromPoints, V3D.dotProduct]))
    (isOn_of_dotProduct_eq_zero _ _ _ (by norm_num [V3D.fromPoints, V3D.dotProduct])),
    Bool.or_eq_true]
  right
  norm_num [DistanceCalculator.orientationTest, V3D.fromPoints, V3D.crossProduct,
    V3D.dotProduct]

/-! ## C19: reversing the end points of a segment -/

theorem V3D.fromPoints_reverse (p q : P3D ℝ) :
    V3D.fromPoints q p =
      V3D.mk (-(V3D.fromPoints p q).x) (-(V3D.fromPoints p q).y) (-(V3D.fromPoints p q).z) := by
  simp only [V3D.fromPoints, neg_sub]

theorem V3D.crossProduct_neg_left (a b : V3D ℝ) :
    (V3D.mk (-a.x) (-a.y) (-a.z)).crossProduct b =
      V3D.mk (-(a.crossProduct b).x) (-(a.crossProduct b).y) (-(a.crossProduct b).z) := by
  simp only [V3D.crossProduct, V3D.mk.injEq]
  refine ⟨by ring, by ring, by ring⟩

theorem V3D.crossProduct_neg_right (a b : V3D ℝ) :
    a.crossProduct (V3D.mk (-b.x) (-b.y) (-b.z)) =
      V3D.mk (-(a.crossProduct b).x) (-(a.crossProduct b).y) (-(a.crossProduct b).z) := by
  simp only [V3D.crossProduct, V3D.mk.injEq]
  refine ⟨by ring, by ring, by ring⟩

/-- The point-to-segment distance does not depend on the order of the end
points of the segment. -/
theorem distanceToLineSegment_reverse (p a b : P3D ℝ) :
    p.distanceToLineSegment Real.sqrt b a = p.distanceToLineSegment Real.sqrt a b := by
  unfold P3D.distanceToLineSegment
  simp only
  have hl : (V3D.fromPoints b a).length Real.sqrt = (V3D.fromPoints a b).length Real.sqrt := by
    simp only [V3D.length, V3D.fromPoints]
    congr 1
    ring
  have hx : ((V3D.fromPoints b a).crossProduct (V3D.fromPoints b p)).length Real.sqrt =
      ((V3D.fromPoints a b).crossProduct (V3D.fromPoints a p)).length Real.sqrt := by
    simp only [V3D.length, V3D.fromPoints, V3D.crossProduct]
    congr 1
    ring
  by_cases h : (V3D.fromPoints a b).dotProduct (V3D.fromPoints a p) < 0 ∨
      (V3D.fromPoints b a).dotProduct (V3D.fromPoints b p) < 0
  · rw [if_pos h, if_pos (Or.symm h), min_comm]
  · rw [if_neg h, if_neg (fun h' => h (Or.symm h')), hl, hx]

theorem calculateMinDistanceBetweenEnds_reverse12 (p1 p2 p3 p4 : P3D ℝ) :
    DistanceCalculator.calculateMinDistanceBetweenEnds Real.sqrt p2 p1 p3 p4 =
      DistanceCalculator.calculateMinDistanceBetweenEnds Real.sqrt p1 p2 p3 p4 := by
  simp only [DistanceCalculator.calculateMinDistanceBetweenEnds,
    distanceToLineSegment_reverse _ p1 p2]
  rw [min_comm (p2.distanceToLineSegment Real.sqrt p3 p4)]

theorem calculateMinDistanceBetweenEnds_reverse34 (p1 p2 p3 p4 : P3D ℝ) :
    DistanceCalculator.calculateMinDistanceBetweenEnds Real.sqrt p1 p2 p4 p3 =
      DistanceCalculator.calculateMinDistanceBetweenEnds Real.sqrt p1 p2 p3 p4 := by
  simp only [DistanceCalculator.calculateMinDistanceBetweenEnds,
    distanceToLineSegment_reverse _ p3 p4]
  rw [min_comm (p4.distanceToLineSegment Real.sqrt p1 p2)]

theorem haveCommonEndpoint_reverse12 (p1 p2 p3 p4 : P3D ℝ) :
    DistanceCalculator.haveCommonEndpoint p2 p1 p3 p4 =
      DistanceCalculator.haveCommonEndpoint p1 p2 p3 p4 := by
  unfold DistanceCalculator.haveCommonEndpoint
  cases p1.operatorEq p3 <;> cases p1.operatorEq p4 <;> cases p2.operatorEq p3 <;>
    cases p2.operatorEq p4 <;> rfl

theorem haveCommonEndpoint_reverse34 (p1 p2 p3 p4 : P3D ℝ) :
    DistanceCalculator.haveCommonEndpoint p1 p2 p4 p3 =
      DistanceCalculator.haveCommonEndpoint p1 p2 p3 p4 := by
  unfold DistanceCalculator.haveCommonEndpoint
  cases p1.operatorEq p3 <;> cases p1.operatorEq p4 <;> cases p2.operatorEq p3 <;>
    cases p2.operatorEq p4 <;> rfl

theorem orientationTest_reverse12 (p1 p2 p3 p4 : P3D ℝ) (n : V3D ℝ) :
    DistanceCalculator.orientationTest p2 p1 p3 p4 (V3D.mk (-n.x) (-n.y) (-n.z)) =
      DistanceCalculator.orientationTest p1 p2 p3 p4 n := by
  simp only [DistanceCalculator.orientationTest, V3D.fromPoints, V3D.crossProduct,
    V3D.dotProduct]
  congr 2
  · congr 1; ring
  · congr 1; ring

theorem orientationTest_reverse34 (p1 p2 p3 p4 : P3D ℝ) (n : V3D ℝ) :
    DistanceCalculator.orientationTest p1 p2 p4 p3 (V3D.mk (-n.x) (-n.y) (-n.z)) =
      DistanceCalculator.orientationTest p1 p2 p3 p4 n := by
  simp only [DistanceCalculator.orientationTest, V3D.fromPoints, V3D.crossProduct,
    V3D.dotProduct]
  congr 2
  · congr 1; ring
  · congr 1; ring

theorem V3D.operatorMulAssign_neg (v : V3D ℝ) (c : ℝ) :
    (V3D.mk (-v.x) (-v.y) (-v.z)).operatorMulAssign c = v.operatorMulAssign (-c) := by
  simp only [V3D.operatorMulAssign, V3D.mk.injEq]
  refine ⟨by ring, by ring, by ring⟩

/-- When the plane value `e` is `0` or at least `eps / 2` in absolute value,
both `e` and `-e` are shifted back exactly onto the plane. -/
theorem projectionShift_of_abs (e : ℝ) (h : |e| = 0 ∨ Tolerance_small / 2 ≤ |e|) :
    projectionShift e = -e ∧ projectionShift (-e) = e := by
  have key : (e ≤ 0 ∨ Tolerance_small / 2 ≤ e) ∧ (-e ≤ 0 ∨ Tolerance_small / 2 ≤ -e) := by
    rcases h with h | h
    · have h0 : e = 0 := abs_eq_zero.1 h
      subst h0
      exact ⟨Or.inl (le_refl _), Or.inl (by simp)⟩
    · rcases le_total 0 e with he | he
      · rw [abs_of_nonneg he] at h
        exact ⟨Or.inr h, Or.inl (by linarith)⟩
      · rw [abs_of_nonpos he] at h
        exact ⟨Or.inl he, Or.inr h⟩
  refine ⟨projectionShift_of_nonpos_or_ge e key.1, ?_⟩
  rw [projectionShift_of_nonpos_or_ge (-e) key.2, neg_neg]

/-- The skew branch of `calculate()` with the projections and the plane
distance written out. -/
theorem calculate_skew_explicit (p1 p2 p3 p4 : P3D ℝ)
    (hce : DistanceCalculator.haveCommonEndpoint p1 p2 p3 p4 = false)
    (h12 : (V3D.fromPoints p1 p2).isNull = false)
    (h34 : (V3D.fromPoints p3 p4).isNull = false)
    (hc : ((V3D.fromPoints p1 p2).crossProduct (V3D.fromPoints p3 p4)).isNull = false) :
    (DistanceCalculator.mk p1 p2 p3 p4).calculate Real.sqrt =
      if (DistanceCalculator.haveCommonEndpoint p1 p2
            (p3.operatorPlus
              ((((V3D.fromPoints p1 p2).crossProduct (V3D.fromPoints p3 p4)).normal
                Real.sqrt).operatorMulAssign
                (projectionShift ((V3D.fromPoints p1 p3).dotProduct
                  ((V3D.fromPoints p1 p2).crossProduct (V3D.fromPoints p3 p4)) /
                  ((V3D.fromPoints p1 p2).crossProduct (V3D.fromPoints p3 p4)).length
                    Real.sqrt))))
            (p4.operatorPlus
              ((((V3D.fromPoints p1 p2).crossProduct (V3D.fromPoints p3 p4)).normal
                Real.sqrt).operatorMulAssign
                (projectionShift ((V3D.fromPoints p1 p3).dotProduct
                  ((V3D.fromPoints p1 p2).crossProduct (V3D.fromPoints p3 p4)) /
                  ((V3D.fromPoints p1 p2).crossProduct (V3D.fromPoints p3 p4)).length
                    Real.sqrt)))) ||
          DistanceCalculator.orientationTest p1 p2 p3 p4
            ((V3D.fromPoints p1 p2).crossProduct (V3D.fromPoints p3 p4))) = true
      then Real.sqrt (((V3D.fromPoints p3 p1).dotProduct
            ((V3D.fromPoints p1 p2).crossProduct (V3D.fromPoints p3 p4))) ^ 2 /
          ((V3D.fromPoints p1 p2).crossProduct (V3D.fromPoints p3 p4)).dotProduct
            ((V3D.fromPoints p1 p2).crossProduct (V3D.fromPoints p3 p4)))
      else DistanceCalculator.calculateMinDistanceBetweenEnds Real.sqrt p1 p2 p3 p4 := by
  rw [calculate_eq_of_cross_not_isNull p1 p2 p3 p4 hce h12 h34 hc,
    haveCommonEndpoint_projected p1 p2 p3 p4 (V3D.length_pos_of_not_isNull _ hc),
    abs_value_fromPointNormal]

/-- Reversing the end points of the first segment does not change the result
when, in the skew branch, the distance between the planes is `0` or at least
`eps / 2`. -/
theorem calculate_reverse_first (p1 p2 p3 p4 : P3D ℝ)
    (hd : ((V3D.fromPoints p1 p2).crossProduct (V3D.fromPoints p3 p4)).isNull = false →
      (Plane3D.fromPointNormal Real.sqrt p1
          ((V3D.fromPoints p1 p2).crossProduct (V3D.fromPoints p3 p4))).distanceToPoint
            Real.sqrt p3 = 0 ∨
        1 / 20000 ≤ (Plane3D.fromPointNormal Real.sqrt p1
          ((V3D.fromPoints p1 p2).crossProduct (V3D.fromPoints p3 p4))).distanceToPoint
            Real.sqrt p3) :
    (DistanceCalculator.mk p2 p1 p3 p4).calculate Real.sqrt =
      (DistanceCalculator.mk p1 p2 p3 p4).calculate Real.sqrt := by
  cases hce : DistanceCalculator.haveCommonEndpoint p1 p2 p3 p4
  swap
  · rw [calculate_eq_zero_of_haveCommonEndpoint p1 p2 p3 p4 hce,
      calculate_eq_zero_of_haveCommonEndpoint p2 p1 p3 p4
        (by rw [haveCommonEndpoint_reverse12]; exact hce)]
  have hce' : DistanceCalculator.haveCommonEndpoint p2 p1 p3 p4 = false := by
    rw [haveCommonEndpoint_reverse12]; exact hce
  have hnull : (V3D.fromPoints p2 p1).isNull = (V3D.fromPoints p1 p2).isNull := by
    rw [V3D.fromPoints_reverse p1 p2, V3D.isNull_neg]
  cases h12 : (V3D.fromPoints p1 p2).isNull
  swap
  · simp [DistanceCalculator.calculate, hce, hce', h12, hnull]
  cases h34 : (V3D.fromPoints p3 p4).isNull
  swap
  · simp [DistanceCalculator.calculate, hce, hce', h34]
  have h12' : (V3D.fromPoints p2 p1).isNull = false := by rw [hnull]; exact h12
  have hn : (V3D.fromPoints p2 p1).crossProduct (V3D.fromPoints p3 p4) =
      V3D.mk (-((V3D.fromPoints p1 p2).crossProduct (V3D.fromPoints p3 p4)).x)
        (-((V3D.fromPoints p1 p2).crossProduct (V3D.fromPoints p3 p4)).y)
        (-((V3D.fromPoints p1 p2).crossProduct (V3D.fromPoints p3 p4)).z) := by
    rw [V3D.fromPoints_reverse p1 p2, V3D.crossProduct_neg_left]
  cases hc : ((V3D.fromPoints p1 p2).crossProduct (V3D.fromPoints p3 p4)).isNull
  swap
  · have hc' : ((V3D.fromPoints p2 p1).crossProduct (V3D.fromPoints p3 p4)).isNull = true := by
      rw [hn, V3D.isNull_neg]; exact hc
    rw [calculate_eq_of_cross_isNull p1 p2 p3 p4 hce h12 h34 hc,
      calculate_eq_of_cross_isNull p2 p1 p3 p4 hce' h12' h34 hc',
      calculateMinDistanceBetweenEnds_reverse12]
  have hc' : ((V3D.fromPoints p2 p1).crossProduct (V3D.fromPoints p3 p4)).isNull = false := by
    rw [hn, V3D.isNull_neg]; exact hc
  have hL := V3D.length_pos_of_not_isNull _ hc
  have hu := Plane3D.fromPointNormal_sumSq p1 _ hL
  have habs := hd hc
  rw [Plane3D.distanceToPoint_of_unit _ _ hu, Plane3D.value_fromPointNormal] at habs
  have hsh := projectionShift_of_abs _ (by
    rcases habs with h | h
    · exact Or.inl h
    · right; simp only [Tolerance_small]; linarith)
  have hdot : (V3D.fromPoints p2 p3).dotProduct
      (V3D.mk (-((V3D.fromPoints p1 p2).crossProduct (V3D.fromPoints p3 p4)).x)
        (-((V3D.fromPoints p1 p2).crossProduct (V3D.fromPoints p3 p4)).y)
        (-((V3D.fromPoints p1 p2).crossProduct (V3D.fromPoints p3 p4)).z)) =
      -((V3D.fromPoints p1 p3).dotProduct
        ((V3D.fromPoints p1 p2).crossProduct (V3D.fromPoints p3 p4))) := by
    simp only [V3D.fromPoints, V3D.crossProduct, V3D.dotProduct]; ring
  have hnum : ((V3D.fromPoints p3 p2).dotProduct
      (V3D.mk (-((V3D.fromPoints p1 p2).crossProduct (V3D.fromPoints p3 p4)).x)
        (-((V3D.fromPoints p1 p2).crossProduct (V3D.fromPoints p3 p4)).y)
        (-((V3D.fromPoints p1 p2).crossProduct (V3D.fromPoints p3 p4)).z))) ^ 2 =
      ((V3D.fromPoints p3 p1).dotProduct
        ((V3D.fromPoints p1 p2).crossProduct (V3D.fromPoints p3 p4))) ^ 2 := by
    simp only [V3D.fromPoints, V3D.crossProduct, V3D.dotProduct]; ring
  rw [calculate_skew_explicit p1 p2 p3 p4 hce h12 h34 hc,
    calculate_skew_explicit p2 p1 p3 p4 hce' h12' h34 hc', hn, hdot, hnum, neg_div, V3D.length_neg, hsh.1, hsh.2]
  simp only [V3D.normal_neg, V3D.length_neg, V3D.dotProduct_neg_neg, orientationTest_reverse12,
    calculateMinDistanceBetweenEnds_reverse12, haveCommonEndpoint_reverse12,
    V3D.operatorMulAssign_neg]

/-- Reversing the end points of the second segment does not change the result
when, in the skew branch, the distance between the planes is `0` or at least
`eps / 2`. -/
theorem calculate_reverse_second (p1 p2 p3 p4 : P3D ℝ)
    (hd : ((V3D.fromPoints p1 p2).crossProduct (V3D.fromPoints p3 p4)).isNull = false →
      (Plane3D.fromPointNormal Real.sqrt p1
          ((V3D.fromPoints p1 p2).crossProduct (V3D.fromPoints p3 p4))).distanceToPoint
            Real.sqrt p3 = 0 ∨
        1 / 20000 ≤ (Plane3D.fromPointNormal Real.sqrt p1
          ((V3D.fromPoints p1 p2).crossProduct (V3D.fromPoints p3 p4))).distanceToPoint
            Real.sqrt p3) :
    (DistanceCalculator.mk p1 p2 p4 p3).calculate Real.sqrt =
      (DistanceCalculator.mk p1 p2 p3 p4).calculate Real.sqrt := by
  cases hce : DistanceCalculator.haveCommonEndpoint p1 p2 p3 p4
  swap
  · rw [calculate_eq_zero_of_haveCommonEndpoint p1 p2 p3 p4 hce,
      calculate_eq_zero_of_haveCommonEndpoint p1 p2 p4 p3
        (by rw [haveCommonEndpoint_reverse34]; exact hce)]
  have hce' : DistanceCalculator.haveCommonEndpoint p1 p2 p4 p3 = false := by
    rw [haveCommonEndpoint_reverse34]; exact hce
  have hnull : (V3D.fromPoints p4 p3).isNull = (V3D.fromPoints p3 p4).isNull := by
    rw [V3D.fromPoints_reverse p3 p4, V3D.isNull_neg]
  cases h12 : (V3D.fromPoints p1 p2).isNull
  swap
  · simp [DistanceCalculator.calculate, hce, hce', h12]
  cases h34 : (V3D.fromPoints p3 p4).isNull
  swap
  · simp [DistanceCalculator.calculate, hce, hce', h34, hnull]
  have h34' : (V3D.fromPoints p4 p3).isNull = false := by rw [hnull]; exact h34
  have hn : (V3D.fromPoints p1 p2).crossProduct (V3D.fromPoints p4 p3) =
      V3D.mk (-((V3D.fromPoints p1 p2).crossProduct (V3D.fromPoints p3 p4)).x)
        (-((V3D.fromPoints p1 p2).crossProduct (V3D.fromPoints p3 p4)).y)
        (-((V3D.fromPoints p1 p2).crossProduct (V3D.fromPoints p3 p4)).z) := by
    rw [V3D.fromPoints_reverse p3 p4, V3D.crossProduct_neg_right]
  cases hc : ((V3D.fromPoints p1 p2).crossProduct (V3D.fromPoints p3 p4)).isNull
  swap
  · have hc' : ((V3D.fromPoints p1 p2).crossProduct (V3D.fromPoints p4 p3)).isNull = true := by
      rw [hn, V3D.isNull_neg]; exact hc
    rw [calculate_eq_of_cross_isNull p1 p2 p3 p4 hce h12 h34 hc,
      calculate_eq_of_cross_isNull p1 p2 p4 p3 hce' h12 h34' hc',
      calculateMinDistanceBetweenEnds_reverse34]
  have hc' : ((V3D.fromPoints p1 p2).crossProduct (V3D.fromPoints p4 p3)).isNull = false := by
    rw [hn, V3D.isNull_neg]; exact hc
  have hL := V3D.length_pos_of_not_isNull _ hc
  have hu := Plane3D.fromPointNormal_sumSq p1 _ hL
  have habs := hd hc
  rw [Plane3D.distanceToPoint_of_unit _ _ hu, Plane3D.value_fromPointNormal] at habs
  have hsh := projectionShift_of_abs _ (by
    rcases habs with h | h
    · exact Or.inl h
    · right; simp only [Tolerance_small]; linarith)
  have hdot : (V3D.fromPoints p1 p4).dotProduct
      (V3D.mk (-((V3D.fromPoints p1 p2).crossProduct (V3D.fromPoints p3 p4)).x)
        (-((V3D.fromPoints p1 p2).crossProduct (V3D.fromPoints p3 p4)).y)
        (-((V3D.fromPoints p1 p2).crossProduct (V3D.fromPoints p3 p4)).z)) =
      -((V3D.fromPoints p1 p3).dotProduct
        ((V3D.fromPoints p1 p2).crossProduct (V3D.fromPoints p3 p4))) := by
    simp only [V3D.fromPoints, V3D.crossProduct, V3D.dotProduct]; ring
  have hnum : ((V3D.fromPoints p4 p1).dotProduct
      (V3D.mk (-((V3D.fromPoints p1 p2).crossProduct (V3D.fromPoints p3 p4)).x)
        (-((V3D.fromPoints p1 p2).crossProduct (V3D.fromPoints p3 p4)).y)
        (-((V3D.fromPoints p1 p2).crossProduct (V3D.fromPoints p3 p4)).z))) ^ 2 =
      ((V3D.fromPoints p3 p1).dotProduct
        ((V3D.fromPoints p1 p2).crossProduct (V3D.fromPoints p3 p4))) ^ 2 := by
    simp only [V3D.fromPoints, V3D.crossProduct, V3D.dotProduct]; ring
  rw [calculate_skew_explicit p1 p2 p3 p4 hce h12 h34 hc,
    calculate_skew_explicit p1 p2 p4 p3 hce' h12 h34' hc', hn, hdot, hnum, neg_div, V3D.length_neg, hsh.1, hsh.2]
  simp only [V3D.normal_neg, V3D.length_neg, V3D.dotProduct_neg_neg, orientationTest_reverse34,
    calculateMinDistanceBetweenEnds_reverse34, haveCommonEndpoint_reverse34,
    V3D.operatorMulAssign_neg]

/-- The square root of `25`. -/
theorem sqrt_twentyfive : Real.sqrt 25 = 5 := by
  rw [show (25 : ℝ) = 5 ^ 2 by norm_num]
  exact Real.sqrt_sq (by norm_num)

/-! ### The pair `(0,0,0)-(0,1,0)`, `(9/125000,0,-13/125000)-(500009/125000,0,-375013/125000)` -/

theorem tilted_haveCommonEndpoint :
    DistanceCalculator.haveCommonEndpoint (P3D.mk (0 : ℝ) 0 0) (P3D.mk 0 1 0)
      (P3D.mk (9 / 125000) 0 (-13 / 125000))
      (P3D.mk (500009 / 125000) 0 (-375013 / 125000)) = false := by
  rw [haveCommonEndpoint_false_iff]
  simp only [P3D.operatorEq_false_iff]
  norm_num [Tolerance_small, abs_lt]

theorem tilted_isNull12 :
    (V3D.fromPoints (P3D.mk (0 : ℝ) 0 0) (P3D.mk 0 1 0)).isNull = false := by
  rw [V3D.isNull_false_iff]; norm_num [V3D.fromPoints, Tolerance_small, abs_lt]

theorem tilted_isNull34 :
    (V3D.fromPoints (P3D.mk (9 / 125000 : ℝ) 0 (-13 / 125000))
      (P3D.mk (500009 / 125000) 0 (-375013 / 125000))).isNull = false := by
  rw [V3D.isNull_false_iff]; norm_num [V3D.fromPoints, Tolerance_small, abs_lt]

theorem tilted_cross :
    (V3D.fromPoints (P3D.mk (0 : ℝ) 0 0) (P3D.mk 0 1 0)).crossProduct
      (V3D.fromPoints (P3D.mk (9 / 125000) 0 (-13 / 125000))
        (P3D.mk (500009 / 125000) 0 (-375013 / 125000))) = V3D.mk (-3) 0 (-4) := by
  norm_num [V3D.fromPoints, V3D.crossProduct]

theorem tilted_cross_reversed :
    (V3D.fromPoints (P3D.mk (0 : ℝ) 1 0) (P3D.mk 0 0 0)).crossProduct
      (V3D.fromPoints (P3D.mk (9 / 125000) 0 (-13 / 125000))
        (P3D.mk (500009 / 125000) 0 (-375013 / 125000))) = V3D.mk 3 0 4 := by
  norm_num [V3D.fromPoints, V3D.crossProduct]

/-- In the given order the end-point minimum is returned, which exceeds
`1/25000`. -/
theorem tilted_value_gt :
    1 / 25000 < (DistanceCalculator.mk (P3D.mk 0 0 0) (P3D.mk 0 1 0)
      (P3D.mk (9 / 125000) 0 (-13 / 125000))
      (P3D.mk (500009 / 125000) 0 (-375013 / 125000))).calculate Real.sqrt := by
  have hc : ((V3D.fromPoints (P3D.mk (0 : ℝ) 0 0) (P3D.mk 0 1 0)).crossProduct
      (V3D.fromPoints (P3D.mk (9 / 125000) 0 (-13 / 125000))
        (P3D.mk (500009 / 125000) 0 (-375013 / 125000)))).isNull = false := by
    rw [tilted_cross, V3D.isNull_false_iff]; norm_num [Tolerance_small, abs_lt]
  have hL : (V3D.mk (-3 : ℝ) 0 (-4)).length Real.sqrt = 5 := by
    norm_num [V3D.length, sqrt_twentyfive]
  have ha : |(1 / 25000 : ℝ)| = 1 / 25000 := abs_of_pos (by norm_num)
  rw [calculate_skew_explicit _ _ _ _ tilted_haveCommonEndpoint tilted_isNull12
    tilted_isNull34 hc, tilted_cross, if_neg]
  · obtain ⟨s, t, -, -, ht0, -, he⟩ := calculateMinDistanceBetweenEnds_mem (P3D.mk (0 : ℝ) 0 0)
      (P3D.mk 0 1 0) (P3D.mk (9 / 125000) 0 (-13 / 125000))
      (P3D.mk (500009 / 125000) 0 (-375013 / 125000))
      (sumSq_pos_of_not_isNull _ _ tilted_isNull12) (sumSq_pos_of_not_isNull _ _ tilted_isNull34)
    rw [he, euclideanDistance, Real.lt_sqrt (by norm_num)]
    simp only [segmentPoint]
    nlinarith [sq_nonneg (0 + s * (1 - 0) - (0 + t * (0 - 0))), sq_nonneg t]
  · rw [Bool.not_eq_true, Bool.or_eq_false_iff]
    constructor
    · rw [haveCommonEndpoint_false_iff]
      simp only [P3D.operatorEq_false_iff]
      norm_num [V3D.normal, hL, V3D.fromPoints, V3D.dotProduct, projectionShift,
        P3D.operatorPlus, V3D.operatorMulAssign, Tolerance_small, abs_lt, ha]
    · norm_num [DistanceCalculator.orientationTest, V3D.fromPoints, V3D.crossProduct,
        V3D.dotProduct]

/-- With the end points of the first segment reversed, the projection of
`p3` is tolerance-equal to `(0,0,0)` and the plane distance `1/25000` is
returned. -/
theorem tilted_value_reversed :
    (DistanceCalculator.mk (P3D.mk 0 1 0) (P3D.mk 0 0 0)
      (P3D.mk (9 / 125000) 0 (-13 / 125000))
      (P3D.mk (500009 / 125000) 0 (-375013 / 125000))).calculate Real.sqrt = 1 / 25000 := by
  have hce : DistanceCalculator.haveCommonEndpoint (P3D.mk (0 : ℝ) 1 0) (P3D.mk 0 0 0)
      (P3D.mk (9 / 125000) 0 (-13 / 125000))
      (P3D.mk (500009 / 125000) 0 (-375013 / 125000)) = false := by
    rw [haveCommonEndpoint_reverse12]; exact tilted_haveCommonEndpoint
  have h12 : (V3D.fromPoints (P3D.mk (0 : ℝ) 1 0) (P3D.mk 0 0 0)).isNull = false := by
    rw [V3D.isNull_false_iff]; norm_num [V3D.fromPoints, Tolerance_small, abs_lt]
  have hc : ((V3D.fromPoints (P3D.mk (0 : ℝ) 1 0) (P3D.mk 0 0 0)).crossProduct
      (V3D.fromPoints (P3D.mk (9 / 125000) 0 (-13 / 125000))
        (P3D.mk (500009 / 125000) 0 (-375013 / 125000)))).isNull = false := by
    rw [tilted_cross_reversed, V3D.isNull_false_iff]; norm_num [Tolerance_small, abs_lt]
  have hL : (V3D.mk (3 : ℝ) 0 4).length Real.sqrt = 5 := by
    norm_num [V3D.length, sqrt_twentyfive]
  have ha : |(1 / 25000 : ℝ)| = 1 / 25000 := abs_of_pos (by norm_num)
  rw [calculate_skew_explicit _ _ _ _ hce h12 tilted_isNull34 hc, tilted_cross_reversed, if_pos]
  · have : ((V3D.fromPoints (P3D.mk (9 / 125000 : ℝ) 0 (-13 / 125000))
        (P3D.mk 0 1 0)).dotProduct (V3D.mk 3 0 4)) ^ 2 /
        (V3D.mk (3 : ℝ) 0 4).dotProduct (V3D.mk 3 0 4) = (1 / 25000) ^ 2 := by
      norm_num [V3D.fromPoints, V3D.dotProduct]
    rw [this]
    exact Real.sqrt_sq (by norm_num)
  · rw [Bool.or_eq_true]
    left
    rw [haveCommonEndpoint_iff]
    right; right; left
    rw [P3D.operatorEq_iff]
    norm_num [V3D.normal, hL, V3D.fromPoints, V3D.dotProduct, projectionShift,
      P3D.operatorPlus, V3D.operatorMulAssign, Tolerance_small, abs_lt, ha]

/-- C19 as stated fails.  For `(0,0,0)-(0,1,0)` and
`(9/125000,0,-13/125000)-(500009/125000,0,-375013/125000)` the planes are at
distance `1/25000 < eps / 2`.  In the given order `p3` is moved away from the
plane (the first candidate of `projectPointOnPlane` passes `isOn`), no
projected end points are tolerance-equal and the end-point minimum, which
exceeds `1/25000`, is returned; with `p1` and `p2` reversed the normal changes
sign, `p3` is projected exactly, its projection is tolerance-equal to
`(0,0,0)` and `1/25000` is returned.  Exchanging the roles of the two
segments gives the same for the reversal of `p3` and `p4`. -/
theorem calculate_reverse_endpoints_counterexample :
    (DistanceCalculator.mk (P3D.mk 0 1 0) (P3D.mk 0 0 0)
        (P3D.mk (9 / 125000) 0 (-13 / 125000))
        (P3D.mk (500009 / 125000) 0 (-375013 / 125000))).calculate Real.sqrt ≠
      (DistanceCalculator.mk (P3D.mk 0 0 0) (P3D.mk 0 1 0)
        (P3D.mk (9 / 125000) 0 (-13 / 125000))
        (P3D.mk (500009 / 125000) 0 (-375013 / 125000))).calculate Real.sqrt ∧
    (DistanceCalculator.mk (P3D.mk (9 / 125000) 0 (-13 / 125000))
        (P3D.mk (500009 / 125000) 0 (-375013 / 125000))
        (P3D.mk 0 1 0) (P3D.mk 0 0 0)).calculate Real.sqrt ≠
      (DistanceCalculator.mk (P3D.mk (9 / 125000) 0 (-13 / 125000))
        (P3D.mk (500009 / 125000) 0 (-375013 / 125000))
        (P3D.mk 0 0 0) (P3D.mk 0 1 0)).calculate Real.sqrt := by
  constructor
  · rw [tilted_value_reversed]
    exact ne_of_lt tilted_value_gt
  · rw [calculate_comm_segments (P3D.mk 0 1 0) (P3D.mk 0 0 0),
      calculate_comm_segments (P3D.mk 0 0 0) (P3D.mk 0 1 0), tilted_value_reversed]
    exact ne_of_lt tilted_value_gt

/-- C19, amended: reversing the end point order of a segment does not change
the result, `DistanceCalculator(p2,p1,p3,p4).calculate()` and
`DistanceCalculator(p1,p2,p4,p3).calculate()` both equal
`DistanceCalculator(p1,p2,p3,p4).calculate()`, provided that in the skew
branch the distance from `p3` to the plane through `p1` with normal
`v12 × v34` is `0` or at least `eps / 2 = 1/20000`. -/
theorem calculate_reverse_endpoints (p1 p2 p3 p4 : P3D ℝ)
    (hd : ((V3D.fromPoints p1 p2).crossProduct (V3D.fromPoints p3 p4)).isNull = false →
      (Plane3D.fromPointNormal Real.sqrt p1
          ((V3D.fromPoints p1 p2).crossProduct (V3D.fromPoints p3 p4))).distanceToPoint
            Real.sqrt p3 = 0 ∨
        1 / 20000 ≤ (Plane3D.fromPointNormal Real.sqrt p1
          ((V3D.fromPoints p1 p2).crossProduct (V3D.fromPoints p3 p4))).distanceToPoint
            Real.sqrt p3) :
    (DistanceCalculator.mk p2 p1 p3 p4).calculate Real.sqrt =
        (DistanceCalculator.mk p1 p2 p3 p4).calculate Real.sqrt ∧
      (DistanceCalculator.mk p1 p2 p4 p3).calculate Real.sqrt =
        (DistanceCalculator.mk p1 p2 p3 p4).calculate Real.sqrt :=
  ⟨calculate_reverse_first p1 p2 p3 p4 hd, calculate_reverse_second p1 p2 p3 p4 hd⟩

/-- The crossing pair `(0,0,0)-(1,0,0)`, `(1/2,-1/2,1)-(1/2,1/2,1)`, whose planes
are at distance `1`, for amended C19. -/
theorem calculate_reverse_endpoints_witness :
    (DistanceCalculator.mk (P3D.mk 1 0 0) (P3D.mk 0 0 0) (P3D.mk (1 / 2) (-1 / 2) 1)
        (P3D.mk (1 / 2) (1 / 2) 1)).calculate Real.sqrt =
        (DistanceCalculator.mk (P3D.mk 0 0 0) (P3D.mk 1 0 0) (P3D.mk (1 / 2) (-1 / 2) 1)
          (P3D.mk (1 / 2) (1 / 2) 1)).calculate Real.sqrt ∧
      (DistanceCalculator.mk (P3D.mk 0 0 0) (P3D.mk 1 0 0) (P3D.mk (1 / 2) (1 / 2) 1)
        (P3D.mk (1 / 2) (-1 / 2) 1)).calculate Real.sqrt =
        (DistanceCalculator.mk (P3D.mk 0 0 0) (P3D.mk 1 0 0) (P3D.mk (1 / 2) (-1 / 2) 1)
          (P3D.mk (1 / 2) (1 / 2) 1)).calculate Real.sqrt :=
  calculate_reverse_endpoints _ _ _ _ (by
    intro _
    right
    rw [crossing_cross, Plane3D.fromPointNormal_unitZ]
    norm_num [Plane3D.distanceToPoint])

/-! ## C20: translation -/

theorem V3D.fromPoints_translate (p q : P3D ℝ) (t : V3D ℝ) :
    V3D.fromPoints (p.operatorPlus t) (q.operatorPlus t) = V3D.fromPoints p q := by
  simp only [V3D.fromPoints, P3D.operatorPlus, add_sub_add_right_eq_sub]

theorem P3D.operatorEq_translate (p q : P3D ℝ) (t : V3D ℝ) :
    (p.operatorPlus t).operatorEq (q.operatorPlus t) = p.operatorEq q := by
  simp only [P3D.operatorEq, P3D.operatorPlus, add_sub_add_right_eq_sub]

theorem P3D.operatorEq_translate_shift (p q : P3D ℝ) (t v : V3D ℝ) :
    (p.operatorPlus t).operatorEq ((q.operatorPlus t).operatorPlus v) =
      p.operatorEq (q.operatorPlus v) := by
  simp only [P3D.operatorEq, P3D.operatorPlus]
  have hx : p.x + t.x - (q.x + t.x + v.x) = p.x - (q.x + v.x) := by ring
  have hy : p.y + t.y - (q.y + t.y + v.y) = p.y - (q.y + v.y) := by ring
  have hz : p.z + t.z - (q.z + t.z + v.z) = p.z - (q.z + v.z) := by ring
  simp only [hx, hy, hz]

theorem haveCommonEndpoint_translate (p1 p2 p3 p4 : P3D ℝ) (t : V3D ℝ) :
    DistanceCalculator.haveCommonEndpoint (p1.operatorPlus t) (p2.operatorPlus t)
        (p3.operatorPlus t) (p4.operatorPlus t) =
      DistanceCalculator.haveCommonEndpoint p1 p2 p3 p4 := by
  simp only [DistanceCalculator.haveCommonEndpoint, P3D.operatorEq_translate]

theorem haveCommonEndpoint_translate_shift (p1 p2 p3 p4 : P3D ℝ) (t v : V3D ℝ) :
    DistanceCalculator.haveCommonEndpoint (p1.operatorPlus t) (p2.operatorPlus t)
        ((p3.operatorPlus t).operatorPlus v) ((p4.operatorPlus t).operatorPlus v) =
      DistanceCalculator.haveCommonEndpoint p1 p2 (p3.operatorPlus v) (p4.operatorPlus v) := by
  simp only [DistanceCalculator.haveCommonEndpoint, P3D.operatorEq_translate_shift]

theorem distanceToLineSegment_translate (p a b : P3D ℝ) (t : V3D ℝ) :
    (p.operatorPlus t).distanceToLineSegment Real.sqrt (a.operatorPlus t) (b.operatorPlus t) =
      p.distanceToLineSegment Real.sqrt a b := by
  simp only [P3D.distanceToLineSegment, V3D.fromPoints_translate]

theorem calculateMinDistanceBetweenEnds_translate (p1 p2 p3 p4 : P3D ℝ) (t : V3D ℝ) :
    DistanceCalculator.calculateMinDistanceBetweenEnds Real.sqrt (p1.operatorPlus t)
        (p2.operatorPlus t) (p3.operatorPlus t) (p4.operatorPlus t) =
      DistanceCalculator.calculateMinDistanceBetweenEnds Real.sqrt p1 p2 p3 p4 := by
  simp only [DistanceCalculator.calculateMinDistanceBetweenEnds, distanceToLineSegment_translate]

theorem orientationTest_translate (p1 p2 p3 p4 : P3D ℝ) (t n : V3D ℝ) :
    DistanceCalculator.orientationTest (p1.operatorPlus t) (p2.operatorPlus t)
        (p3.operatorPlus t) (p4.operatorPlus t) n =
      DistanceCalculator.orientationTest p1 p2 p3 p4 n := by
  simp only [DistanceCalculator.orientationTest, V3D.fromPoints_translate]

/-- C20: `calculate()` is invariant under translation: for every four points
and every vector `t`, `DistanceCalculator(p1+t, p2+t, p3+t, p4+t).calculate()`
equals `DistanceCalculator(p1,p2,p3,p4).calculate()`. -/
theorem calculate_translation_invariant (p1 p2 p3 p4 : P3D ℝ) (t : V3D ℝ) :
    (DistanceCalculator.mk (p1.operatorPlus t) (p2.operatorPlus t) (p3.operatorPlus t)
        (p4.operatorPlus t)).calculate Real.sqrt =
      (DistanceCalculator.mk p1 p2 p3 p4).calculate Real.sqrt := by
  have hceq := haveCommonEndpoint_translate p1 p2 p3 p4 t
  cases hce : DistanceCalculator.haveCommonEndpoint p1 p2 p3 p4
  swap
  · rw [calculate_eq_zero_of_haveCommonEndpoint p1 p2 p3 p4 hce,
      calculate_eq_zero_of_haveCommonEndpoint _ _ _ _ (by rw [hceq]; exact hce)]
  have hce' := hceq.trans hce
  cases h12 : (V3D.fromPoints p1 p2).isNull
  swap
  · simp [DistanceCalculator.calculate, hce, hce', h12, V3D.fromPoints_translate]
  cases h34 : (V3D.fromPoints p3 p4).isNull
  swap
  · simp [DistanceCalculator.calculate, hce, hce', h34, V3D.fromPoints_translate]
  have h12' : (V3D.fromPoints (p1.operatorPlus t) (p2.operatorPlus t)).isNull = false := by
    rw [V3D.fromPoints_translate]; exact h12
  have h34' : (V3D.fromPoints (p3.operatorPlus t) (p4.operatorPlus t)).isNull = false := by
    rw [V3D.fromPoints_translate]; exact h34
  cases hc : ((V3D.fromPoints p1 p2).crossProduct (V3D.fromPoints p3 p4)).isNull
  swap
  · rw [calculate_eq_of_cross_isNull p1 p2 p3 p4 hce h12 h34 hc,
      calculate_eq_of_cross_isNull _ _ _ _ hce' h12' h34'
        (by rw [V3D.fromPoints_translate, V3D.fromPoints_translate]; exact hc),
      calculateMinDistanceBetweenEnds_translate]
  have hL := V3D.length_pos_of_not_isNull _ hc
  have hc' : ((V3D.fromPoints (p1.operatorPlus t) (p2.operatorPlus t)).crossProduct
      (V3D.fromPoints (p3.operatorPlus t) (p4.operatorPlus t))).isNull = false := by
    rw [V3D.fromPoints_translate, V3D.fromPoints_translate]; exact hc
  have hL' := V3D.length_pos_of_not_isNull _ hc'
  rw [calculate_eq_of_cross_not_isNull p1 p2 p3 p4 hce h12 h34 hc,
    calculate_eq_of_cross_not_isNull _ _ _ _ hce' h12' h34' hc',
    haveCommonEndpoint_projected p1 p2 p3 p4 hL, haveCommonEndpoint_projected _ _ _ _ hL',
    abs_value_fromPointNormal, abs_value_fromPointNormal, calculateMinDistanceBetweenEnds_translate]
  simp only [V3D.fromPoints_translate, orientationTest_translate,
    haveCommonEndpoint_translate_shift]

end Geo3D
